import Mathlib

/-!
# 3D car game: collision, scoring and recovery loop

A shallow embedding of `Assessment2_DPathirana.cpp`.

Conventions of the embedding
* `float` values are exact rationals (`ℚ`); rounding is not modelled.
* `int` values (`score`, `playerHealth`) are integers.
* The rendering engine is external.  Of an `IModel` we keep what the game
  reads and writes: the player car is a world position and an accumulated
  yaw (the sum of the `RotateY` angles, in degrees); an enemy car is its
  4x4 matrix as read by `GetMatrix`, whose last row is the position.
* `RotateY` needs trigonometry, which has no rational value.  The local Z
  axis of the player car is therefore a parameter (`Engine.localZ`), and so
  is the table of tree positions, computed in the source with `sin`/`cos`.
* Camera, text drawing and wheel scene nodes do not feed back into the
  simulation and are left out; the loop variables that drive them are kept.
-/

namespace CarGame

/-! ## Data model -/

/-- A 3D vector with x, y and z components (`struct Vector3`). -/
structure Vector3 where
  x : ℚ
  y : ℚ
  z : ℚ
deriving DecidableEq

/-- Axis-aligned bounding box in a target's local frame (`struct BoundingBox`). -/
structure BoundingBox where
  minX : ℚ
  maxX : ℚ
  minY : ℚ
  maxY : ℚ
  minZ : ℚ
  maxZ : ℚ
deriving DecidableEq

/-- The `float matrix[4][4]` filled by `GetMatrix`; cell `mRC` is `matrix[R][C]`.
Rows 0..2 are the scaled local axes, row 3 holds the position. -/
structure Matrix4 where
  m00 : ℚ
  m01 : ℚ
  m02 : ℚ
  m03 : ℚ
  m10 : ℚ
  m11 : ℚ
  m12 : ℚ
  m13 : ℚ
  m20 : ℚ
  m21 : ℚ
  m22 : ℚ
  m23 : ℚ
  m30 : ℚ
  m31 : ℚ
  m32 : ℚ
  m33 : ℚ
deriving DecidableEq

/-- Skins given to the marker sphere with `SetSkin`. -/
inductive Skin where
  | white
  | red
deriving DecidableEq

/-- The player car model: world position and accumulated yaw in degrees. -/
structure PlayerCar where
  pos : Vector3
  yaw : ℚ
deriving DecidableEq

/-- Enemy cars (`struct EnemyCars`).  `sphereY` and `sphereSkin` stand for the
attached `sphereModel`: its height and its skin.  The sphere is a child of a car
that stays on the ground plane, so its world height is its local height. -/
structure EnemyCars where
  enemyCarModel : Matrix4
  sphereY : ℚ
  sphereSkin : Skin
  sphereMovementSpeed : ℚ
  carHitStatus : Bool
  carSideHit : Bool
  carMovementStatus : Bool
  sphereMovementStatus : Bool
deriving DecidableEq

/-- What the game needs from the engine and cannot be computed over `ℚ`:
the world-space direction of the player car's local Z axis for a given yaw, and
the positions of the perimeter trees. -/
structure Engine where
  localZ : ℚ → Vector3
  perimeterTrees : List Vector3

/-! ## Engine primitives on models -/

/-- Position of an enemy model (`GetX`, `GetY`, `GetZ`; equal to the local
position, the enemy cars having no parent). -/
def Matrix4.position (m : Matrix4) : Vector3 :=
  ⟨m.m30, m.m31, m.m32⟩

/-- The call `SetPosition` on an enemy model. -/
def Matrix4.setPosition (m : Matrix4) (x y z : ℚ) : Matrix4 :=
  { m with m30 := x, m31 := y, m32 := z }

/-- The call `MoveX` on an enemy model. -/
def Matrix4.moveX (m : Matrix4) (d : ℚ) : Matrix4 :=
  { m with m30 := m.m30 + d }

/-- The call `MoveLocalZ` on the player car: translate by `d` along the local Z axis. -/
def PlayerCar.moveLocalZ (E : Engine) (m : PlayerCar) (d : ℚ) : PlayerCar :=
  { m with pos := ⟨m.pos.x + d * (E.localZ m.yaw).x,
                   m.pos.y + d * (E.localZ m.yaw).y,
                   m.pos.z + d * (E.localZ m.yaw).z⟩ }

/-- The call `RotateY` on the player car. -/
def PlayerCar.rotateY (m : PlayerCar) (a : ℚ) : PlayerCar :=
  { m with yaw := m.yaw + a }

/-- The call `SetPosition` on the player car. -/
def PlayerCar.setPosition (m : PlayerCar) (x y z : ℚ) : PlayerCar :=
  { m with pos := ⟨x, y, z⟩ }

/-- The call `ResetOrientation` on the player car. -/
def PlayerCar.resetOrientation (m : PlayerCar) : PlayerCar :=
  { m with yaw := 0 }

/-! ## Free functions of the source -/

/-- Dot product of two 3D vectors. -/
def calculateDotProduct (v w : Vector3) : ℚ :=
  v.x * w.x + v.y * w.y + v.z * w.z

/-- The radicand of `calculateModulus`: `v.x * v.x + v.y * v.y + v.z * v.z`. -/
def modulusSquared (v : Vector3) : ℚ :=
  v.x * v.x + v.y * v.y + v.z * v.z

/-- The test `calculateModulus(v) <= r`.  The square root is not rational, so
the comparison is made on the squares; `modulus_le_iff` shows that this is the
same test for the radii in use. -/
def modulusLe (v : Vector3) (r : ℚ) : Bool :=
  decide (modulusSquared v ≤ r * r)

/-- Facing vector of the player car: move it forward by one unit, record the
change of position, move it back.  Returns the model after the call and the
facing vector.

The coordinates are rationals here, so the two translations cancel and the
returned model is the argument.  The program computes them in single precision
inside the engine call `MoveLocalZ`, where `(z + 1) - 1` need not be `z` (from
z = 0.3f it is 0.29999995f) and the recorded difference need not be the unit
axis.  Whether the call restores the position exactly is therefore a property of
the floating-point arithmetic of the engine and is not decided by this
definition; nothing below is stated about it.  In the game loop the call is
made only after an overlap, and the position is overwritten by `SetPosition`
with the saved position in the same loop body, so that the rounding reaches the
rest of the state only through `dotProduct`. -/
def calculateFacingVector (E : Engine) (model : PlayerCar) : PlayerCar × Vector3 :=
  let initialPos := model.pos
  let moved := model.moveLocalZ E 1
  let finalPos := moved.pos
  let facingVector : Vector3 :=
    ⟨finalPos.x - initialPos.x, finalPos.y - initialPos.y, finalPos.z - initialPos.z⟩
  (moved.moveLocalZ E (-1), facingVector)

/-- Vector from an enemy car to the player car. -/
def calculateEnemyCarToJeepVector (model : Matrix4) (player : PlayerCar) : Vector3 :=
  ⟨player.pos.x - model.position.x,
   player.pos.y - model.position.y,
   player.pos.z - model.position.z⟩

/-- Collision test between the player car and an enemy car: the player position
against the enemy bounding box, enlarged by the player radius and placed at the
enemy position. -/
def CheckCollision (playerCar : PlayerCar) (enemyCar : Matrix4) (playerCarRadius : ℚ)
    (box : BoundingBox) : Bool :=
  let boxminX := (enemyCar.position.x + box.minX) - playerCarRadius
  let boxmaxX := (enemyCar.position.x + box.maxX) + playerCarRadius
  let boxminY := (enemyCar.position.y + box.minY) - playerCarRadius
  let boxmaxY := (enemyCar.position.y + box.maxY) + playerCarRadius
  let boxminZ := (enemyCar.position.z + box.minZ) - playerCarRadius
  let boxmaxZ := (enemyCar.position.z + box.maxZ) + playerCarRadius
  let playerX := playerCar.pos.x
  let playerY := playerCar.pos.y
  let playerZ := playerCar.pos.z
  decide (playerX > boxminX ∧ playerX < boxmaxX ∧
          playerY > boxminY ∧ playerY < boxmaxY ∧
          playerZ > boxminZ ∧ playerZ < boxmaxZ)

/-! ## Constants of `main` -/

def groundYPosition : ℚ := 0
def enemySphereYPosition : ℚ := 2.5
def perimeterRadius : ℚ := 50
def sideCollisionChecker : ℚ := 3.5
def scoreIncreaseForSideCollision : ℤ := 15
def scoreIncreaseForFrontCollision : ℤ := 10
def resetCarTimeDefault : ℚ := 0
def resetCarTimeThreshold1 : ℚ := 3.0
def resetCarTimeThreshold2 : ℚ := 15.0
def sphereMovementSpeedDefault : ℚ := 2.5
def sphereMovementSpeedDecrease : ℚ := 1.125
def sphereModelYPosition : ℚ := 2.5
def defaultSphereMovementSpeed : ℚ := 2.5
def positionIncrement : ℚ := 0.01
def playerCarRadius : ℚ := 2
def treeRadius : ℚ := 1
def maxForwardVelocity : ℚ := 30.0
def maxBackwardVelocity : ℚ := -30.0
def turningVelocity : ℚ := 100
def acceleration : ℚ := 30.0
def deceleration : ℚ := 30.0
def minVelocity : ℚ := 0.0
def bounceFactor : ℚ := 0.5
def scaleFactor : ℚ := 0.6
def decelerationAfterBounce : ℚ := 5
def movingCarRange : ℚ := 30.0
def sphereMovingMinRange : ℚ := 2.5
def sphereMovingMaxRange : ℚ := 3
def maxWheelRotation : ℚ := 30.0

/-- The member `carMovementSpeed` of `EnemyCars`, a constant `30 * 0.5`. -/
def carMovementSpeed : ℚ := 30 * 0.5

/-- Bounding box of the patrolling enemy car mesh. -/
def enemyMovingCar : BoundingBox :=
  ⟨-1.05776, 1.05776, -2.86102e-6, 1.61014, -2.13928, 2.13928⟩

/-- Bounding box of the stationary enemy car mesh. -/
def enemyStaticCar : BoundingBox :=
  ⟨-0.946118, 0.946118, -0.0065695, 1.50131, -1.97237, 1.97237⟩

/-- Rows of `enemyStaticCarPositions`. -/
def enemyStaticCarPositions (i : Fin 4) : Vector3 :=
  match i with
  | 0 => ⟨-20, groundYPosition, 20⟩
  | 1 => ⟨20, groundYPosition, 20⟩
  | 2 => ⟨-20, groundYPosition, 0⟩
  | 3 => ⟨20, groundYPosition, 0⟩

/-- Rows of `enemyMovingCarPositions`. -/
def enemyMovingCarPositions (i : Fin 4) : Vector3 :=
  match i with
  | 0 => ⟨-30, groundYPosition, 15⟩
  | 1 => ⟨30, groundYPosition, -15⟩
  | 2 => ⟨30, groundYPosition, 30⟩
  | 3 => ⟨-30, groundYPosition, -30⟩

/-! ## Game state -/

/-- The `enum GameState`. -/
inductive GameState where
  | GAME_PLAYING
  | GAME_PAUSED
  | GAME_OVER
deriving DecidableEq

/-- What one loop iteration reads from the engine: the frame time returned by
`Timer()` and the answers to the `KeyHit` and `KeyHeld` queries. -/
structure Input where
  frameTime : ℚ
  hitEscape : Bool
  hitP : Bool
  hitR : Bool
  heldW : Bool
  heldS : Bool
  heldA : Bool
  heldD : Bool
  heldQ : Bool

/-- The variables of `main` that live across loop iterations. -/
structure Game where
  score : ℤ
  playerHealth : ℤ
  dotProduct : ℚ
  prevPosX : ℚ
  prevPosY : ℚ
  prevPosZ : ℚ
  forwardVelocity : ℚ
  backwardVelocity : ℚ
  rotationAngle : ℚ
  currentWheelRotation : ℚ
  moveOppositeCar1 : Bool
  moveOppositeCar2 : Bool
  moveOppositeSphere : Bool
  resetCarTimes : Fin 4 → ℚ
  allStaticCarsHit : Bool
  allMovingCarsHit : Bool
  turningLeft : Bool
  turningRight : Bool
  gameState : GameState
  playerCarModel : PlayerCar
  staticEnemies : Fin 4 → EnemyCars
  movingEnemies : Fin 4 → EnemyCars

/-! ## The `GAME_PLAYING` case: input and physics (source lines 332-453) -/

/-- Pause toggle: `if (KeyHit(Key_P)) gameState = GAME_PAUSED`. -/
def pauseKey (inp : Input) (s : Game) : Game :=
  if inp.hitP then { s with gameState := GameState.GAME_PAUSED } else s

/-- The `KeyHeld(Key_W)` block: forward channel and forward turning. -/
def forwardChannel (inp : Input) (s : Game) : Game :=
  if inp.heldW then
    let s1 :=
      if s.forwardVelocity < maxForwardVelocity then
        { s with forwardVelocity := s.forwardVelocity + acceleration * inp.frameTime }
      else s
    if inp.heldD && !inp.heldA then
      { s1 with playerCarModel := s1.playerCarModel.rotateY (turningVelocity * inp.frameTime),
                turningRight := true, turningLeft := false }
    else if inp.heldA && !inp.heldD then
      { s1 with playerCarModel := s1.playerCarModel.rotateY (-turningVelocity * inp.frameTime),
                turningLeft := true, turningRight := false }
    else
      { s1 with turningLeft := false, turningRight := false }
  else
    if s.forwardVelocity > minVelocity then
      { s with forwardVelocity := s.forwardVelocity - deceleration * inp.frameTime }
    else s

/-- The `KeyHeld(Key_S)` block: backward channel and reverse turning. -/
def backwardChannel (inp : Input) (s : Game) : Game :=
  if inp.heldS then
    let s1 :=
      if s.backwardVelocity > maxBackwardVelocity then
        { s with backwardVelocity := s.backwardVelocity - acceleration * inp.frameTime }
      else s
    if inp.heldQ && !inp.heldA then
      { s1 with playerCarModel := s1.playerCarModel.rotateY (-turningVelocity * inp.frameTime),
                turningRight := true, turningLeft := false }
    else if inp.heldA && !inp.heldD then
      { s1 with playerCarModel := s1.playerCarModel.rotateY (turningVelocity * inp.frameTime),
                turningLeft := true, turningRight := false }
    else
      { s1 with turningLeft := false, turningRight := false }
  else
    if s.backwardVelocity < minVelocity then
      { s with backwardVelocity := s.backwardVelocity + deceleration * inp.frameTime }
    else s

/-- Steering flags recomputed from `D` and `A` (lines 404-418). -/
def steeringFlags (inp : Input) (s : Game) : Game :=
  if inp.heldD && !inp.heldA then
    { s with turningRight := true, turningLeft := false }
  else if inp.heldA && !inp.heldD then
    { s with turningLeft := true, turningRight := false }
  else
    { s with turningLeft := false, turningRight := false }

/-- Wheel roll angle and translation along the local Z axis (lines 420-427). -/
def translate (E : Engine) (inp : Input) (s : Game) : Game :=
  { s with
    rotationAngle := (s.forwardVelocity + s.backwardVelocity) * inp.frameTime * turningVelocity,
    playerCarModel :=
      s.playerCarModel.moveLocalZ E ((s.forwardVelocity + s.backwardVelocity) * inp.frameTime) }

/-- Recovery of a channel pushed to the wrong sign by a bounce (lines 429-434). -/
def bounceRecovery (inp : Input) (s : Game) : Game :=
  let s1 :=
    if s.forwardVelocity < minVelocity then
      { s with forwardVelocity := s.forwardVelocity + decelerationAfterBounce * inp.frameTime }
    else s
  if s1.backwardVelocity > minVelocity then
    { s1 with backwardVelocity := s1.backwardVelocity - decelerationAfterBounce * inp.frameTime }
  else s1

/-- Steering angle of the front wheels (lines 437-453). -/
def wheelSteer (s : Game) : Game :=
  if s.turningLeft || s.turningRight then
    if s.currentWheelRotation > -maxWheelRotation ∧ s.currentWheelRotation < maxWheelRotation then
      { s with currentWheelRotation := if s.turningLeft then -maxWheelRotation else maxWheelRotation }
    else s
  else
    { s with currentWheelRotation := minVelocity }

/-- Input handling and vehicle physics of a playing frame, in source order. -/
def physics (E : Engine) (inp : Input) (s : Game) : Game :=
  wheelSteer (bounceRecovery inp (translate E inp (steeringFlags inp
    (backwardChannel inp (forwardChannel inp (pauseKey inp s))))))

/-! ## Bounce response and the tree loop (lines 455-480) -/

/-- The bounce response, written out three times in the source (trees, static
enemies, moving enemies) with the same text. -/
def bounce (s : Game) : Game :=
  let relativeVelocity := s.forwardVelocity + s.backwardVelocity
  let s1 :=
    if relativeVelocity > minVelocity then
      { s with forwardVelocity := -relativeVelocity * bounceFactor,
               backwardVelocity := minVelocity }
    else s
  if relativeVelocity < minVelocity then
    { s1 with backwardVelocity := -relativeVelocity * bounceFactor,
              forwardVelocity := minVelocity }
  else s1

/-- The circle test of the tree loop for a car position `p`:
`calculateModulus(carToTreeVector) <= playerCarRadius + treeRadius`. -/
def nearTree (p : Vector3) (tree : Vector3) : Bool :=
  let carToTreeVector : Vector3 := ⟨p.x - tree.x, p.y - tree.y, p.z - tree.z⟩
  modulusLe carToTreeVector (playerCarRadius + treeRadius)

/-- Body of the tree loop for one tree. -/
def treeBody (tree : Vector3) (s : Game) : Game :=
  if nearTree s.playerCarModel.pos tree then
    let s1 := bounce s
    { s1 with playerHealth := s1.playerHealth - 1,
              playerCarModel := s1.playerCarModel.setPosition s1.prevPosX s1.prevPosY s1.prevPosZ }
  else s

/-- The loop over the trees, in index order, from a given list of trees. -/
def treeLoopFrom (trees : List Vector3) (s : Game) : Game :=
  trees.foldl (fun acc tree => treeBody tree acc) s

/-- The loop over all perimeter trees. -/
def treeLoop (E : Engine) (s : Game) : Game :=
  treeLoopFrom E.perimeterTrees s

/-! ## Static enemies (lines 487-541) -/

/-- Scale row 0 of a matrix (`matrix[0][0..2] *= k`). -/
def Matrix4.scaleRow0 (m : Matrix4) (k : ℚ) : Matrix4 :=
  { m with m00 := m.m00 * k, m01 := m.m01 * k, m02 := m.m02 * k }

/-- Scale row 2 of a matrix (`matrix[2][0..2] *= k`). -/
def Matrix4.scaleRow2 (m : Matrix4) (k : ℚ) : Matrix4 :=
  { m with m20 := m.m20 * k, m21 := m.m21 * k, m22 := m.m22 * k }

/-- Divide row 0 of a matrix (`matrix[0][0..2] /= k`). -/
def Matrix4.divRow0 (m : Matrix4) (k : ℚ) : Matrix4 :=
  { m with m00 := m.m00 / k, m01 := m.m01 / k, m02 := m.m02 / k }

/-- Divide row 2 of a matrix (`matrix[2][0..2] /= k`). -/
def Matrix4.divRow2 (m : Matrix4) (k : ℚ) : Matrix4 :=
  { m with m20 := m.m20 / k, m21 := m.m21 / k, m22 := m.m22 / k }

/-- The dot product assigned on an overlap with enemy model `enemy`: the call of
`calculateFacingVector` on the player car, the enemy-to-player vector, and the
assignment to the shared variable `dotProduct`. -/
def classify (E : Engine) (enemy : Matrix4) (s : Game) : Game :=
  let r := calculateFacingVector E s.playerCarModel
  let playerFacingVector := r.2
  let s1 := { s with playerCarModel := r.1 }
  let enemyCarToJeepVector := calculateEnemyCarToJeepVector enemy s1.playerCarModel
  { s1 with dotProduct := calculateDotProduct playerFacingVector enemyCarToJeepVector }

/-- The first-hit guard of a static enemy (lines 498-521). -/
def staticAward (i : Fin 4) (s : Game) : Game :=
  if (s.staticEnemies i).carHitStatus = false then
    if s.dotProduct > -sideCollisionChecker then
      { s with
        score := s.score + scoreIncreaseForFrontCollision,
        staticEnemies := Function.update s.staticEnemies i
          { s.staticEnemies i with
            carSideHit := true,
            enemyCarModel := (s.staticEnemies i).enemyCarModel.scaleRow0 scaleFactor,
            carHitStatus := true } }
    else if s.dotProduct < -sideCollisionChecker then
      { s with
        score := s.score + scoreIncreaseForSideCollision,
        staticEnemies := Function.update s.staticEnemies i
          { s.staticEnemies i with
            carSideHit := false,
            enemyCarModel := (s.staticEnemies i).enemyCarModel.scaleRow2 scaleFactor,
            carHitStatus := true } }
    else s
  else s

/-- What the static loop does for enemy `i` once `CheckCollision` has returned
true: classification, first-hit guard, bounce, roll-back, red marker. -/
def staticResolve (E : Engine) (i : Fin 4) (s : Game) : Game :=
  let s1 := classify E (s.staticEnemies i).enemyCarModel s
  let s2 := staticAward i s1
  let s3 := bounce s2
  let s4 := { s3 with
    playerCarModel := s3.playerCarModel.setPosition s3.prevPosX s3.prevPosY s3.prevPosZ }
  { s4 with
    staticEnemies := Function.update s4.staticEnemies i
      { s4.staticEnemies i with sphereSkin := Skin.red } }

/-- The collision test the static loop makes for enemy `i`. -/
def staticOverlap (i : Fin 4) (s : Game) : Bool :=
  CheckCollision s.playerCarModel (s.staticEnemies i).enemyCarModel playerCarRadius enemyStaticCar

/-- Body of the static loop for enemy `i`. -/
def staticBody (E : Engine) (i : Fin 4) (s : Game) : Game :=
  if staticOverlap i s then staticResolve E i s else s

/-- The loop over the four static enemies. -/
def staticLoop (E : Engine) (s : Game) : Game :=
  staticBody E 3 (staticBody E 2 (staticBody E 1 (staticBody E 0 s)))

/-! ## Moving enemies (lines 543-688) -/

/-- Patrol of one enemy against one of the two shared direction flags: the new
flag and the new model. -/
def patrolStep (frameTime : ℚ) (moveOpposite : Bool) (m : Matrix4) : Bool × Matrix4 :=
  if moveOpposite = false then
    if m.position.x ≤ movingCarRange then (moveOpposite, m.moveX (carMovementSpeed * frameTime))
    else (true, m)
  else
    if m.position.x ≥ -movingCarRange then (moveOpposite, m.moveX (-carMovementSpeed * frameTime))
    else (false, m)

/-- Patrol motion of moving enemy `i` (lines 544-584): enemies 0 and 3 use
`moveOppositeCar1`, enemies 1 and 2 use `moveOppositeCar2`. -/
def patrol (frameTime : ℚ) (i : Fin 4) (s : Game) : Game :=
  if (s.movingEnemies i).carMovementStatus = true then
    if i = 0 ∨ i = 3 then
      let r := patrolStep frameTime s.moveOppositeCar1 (s.movingEnemies i).enemyCarModel
      { s with moveOppositeCar1 := r.1,
               movingEnemies := Function.update s.movingEnemies i
                 { s.movingEnemies i with enemyCarModel := r.2 } }
    else
      let r := patrolStep frameTime s.moveOppositeCar2 (s.movingEnemies i).enemyCarModel
      { s with moveOppositeCar2 := r.1,
               movingEnemies := Function.update s.movingEnemies i
                 { s.movingEnemies i with enemyCarModel := r.2 } }
  else s

/-- The first-hit guard of a moving enemy (lines 596-609). -/
def movingAward (i : Fin 4) (s : Game) : Game :=
  if (s.movingEnemies i).carHitStatus = false then
    if s.dotProduct < -sideCollisionChecker then
      { s with
        score := s.score + scoreIncreaseForSideCollision,
        movingEnemies := Function.update s.movingEnemies i
          { s.movingEnemies i with carHitStatus := true, carMovementStatus := false },
        resetCarTimes := Function.update s.resetCarTimes i resetCarTimeDefault }
    else if s.dotProduct > -sideCollisionChecker then
      { s with
        score := s.score + scoreIncreaseForFrontCollision,
        movingEnemies := Function.update s.movingEnemies i
          { s.movingEnemies i with carHitStatus := true, carMovementStatus := false },
        resetCarTimes := Function.update s.resetCarTimes i resetCarTimeDefault }
    else s
  else s

/-- The nudge of the saved position away from the origin (lines 625-637). -/
def nudgePrevPos (s : Game) : Game :=
  let s1 :=
    if s.prevPosX < 0 then { s with prevPosX := s.prevPosX - positionIncrement }
    else { s with prevPosX := s.prevPosX + positionIncrement }
  if s1.prevPosZ < 0 then { s1 with prevPosZ := s1.prevPosZ - positionIncrement }
  else { s1 with prevPosZ := s1.prevPosZ + positionIncrement }

/-- What the moving loop does for enemy `i` once `CheckCollision` has returned
true (lines 588-642): classification, first-hit guard, bounce, nudged roll-back,
red marker. -/
def movingResolve (E : Engine) (i : Fin 4) (s : Game) : Game :=
  let s1 := classify E (s.movingEnemies i).enemyCarModel s
  let s2 := movingAward i s1
  let s3 := bounce s2
  let s4 := nudgePrevPos s3
  let s5 := { s4 with
    playerCarModel := s4.playerCarModel.setPosition s4.prevPosX s4.prevPosY s4.prevPosZ }
  { s5 with
    movingEnemies := Function.update s5.movingEnemies i
      { s5.movingEnemies i with sphereSkin := Skin.red } }

/-- The collision test the moving loop makes for enemy `i` (after its patrol step). -/
def movingOverlap (i : Fin 4) (s : Game) : Bool :=
  CheckCollision s.playerCarModel (s.movingEnemies i).enemyCarModel playerCarRadius enemyMovingCar

/-- The collision block of the moving loop (lines 586-643). -/
def movingCollision (E : Engine) (i : Fin 4) (s : Game) : Game :=
  if movingOverlap i s then movingResolve E i s else s

/-- Bobbing of the marker sphere of enemy `i` against the shared flag
`moveOppositeSphere` (lines 645-663). -/
def sphereBob (frameTime : ℚ) (i : Fin 4) (s : Game) : Game :=
  let e := s.movingEnemies i
  if e.sphereMovementStatus = true then
    if s.moveOppositeSphere = false then
      if e.sphereY ≤ sphereMovingMaxRange then
        { s with
          movingEnemies := Function.update s.movingEnemies i
            { e with sphereY := e.sphereY + e.sphereMovementSpeed * frameTime } }
      else { s with moveOppositeSphere := true }
    else
      if e.sphereY ≥ sphereMovingMinRange then
        { s with
          movingEnemies := Function.update s.movingEnemies i
            { e with sphereY := e.sphereY + -e.sphereMovementSpeed * frameTime } }
      else { s with moveOppositeSphere := false }
  else s

/-- The score reversal at the second threshold (lines 680-685), which reads the
shared variable `dotProduct`. -/
def reverseScore (s : Game) : Game :=
  if s.dotProduct < -sideCollisionChecker then
    { s with score := s.score - scoreIncreaseForSideCollision }
  else if s.dotProduct > -sideCollisionChecker then
    { s with score := s.score - scoreIncreaseForFrontCollision }
  else s

/-- The recovery timer block of enemy `i` (lines 665-687). -/
def recovery (frameTime : ℚ) (i : Fin 4) (s : Game) : Game :=
  if (s.movingEnemies i).carMovementStatus = false then
    let s1 := { s with
      resetCarTimes := Function.update s.resetCarTimes i (s.resetCarTimes i + frameTime),
      movingEnemies := Function.update s.movingEnemies i
        { s.movingEnemies i with
          sphereMovementSpeed :=
            (s.movingEnemies i).sphereMovementSpeed - sphereMovementSpeedDecrease * frameTime } }
    let s2 :=
      if s1.resetCarTimes i ≥ resetCarTimeThreshold1 then
        { s1 with
          movingEnemies := Function.update s1.movingEnemies i
            { s1.movingEnemies i with
              sphereMovementStatus := false,
              sphereMovementSpeed := sphereMovementSpeedDefault } }
      else s1
    if s2.resetCarTimes i ≥ resetCarTimeThreshold2 then
      reverseScore { s2 with
        movingEnemies := Function.update s2.movingEnemies i
          { s2.movingEnemies i with
            carMovementStatus := true,
            sphereMovementStatus := true,
            carHitStatus := false,
            sphereSkin := Skin.white } }
    else s2
  else s

/-- Body of the moving loop for enemy `i`. -/
def movingBody (E : Engine) (frameTime : ℚ) (i : Fin 4) (s : Game) : Game :=
  recovery frameTime i (sphereBob frameTime i (movingCollision E i (patrol frameTime i s)))

/-- The loop over the four moving enemies. -/
def movingLoop (E : Engine) (frameTime : ℚ) (s : Game) : Game :=
  movingBody E frameTime 3 (movingBody E frameTime 2
    (movingBody E frameTime 1 (movingBody E frameTime 0 s)))

/-! ## Win and loss evaluation, and the three cases of the `switch` -/

/-- The latched flags and the end-of-game test (lines 690-709). -/
def winLoss (s : Game) : Game :=
  let s1 :=
    if (s.movingEnemies 0).carMovementStatus = false ∧
       (s.movingEnemies 1).carMovementStatus = false ∧
       (s.movingEnemies 2).carMovementStatus = false ∧
       (s.movingEnemies 3).carMovementStatus = false then
      { s with allMovingCarsHit := true }
    else s
  let s2 :=
    if (s1.staticEnemies 0).carHitStatus = true ∧
       (s1.staticEnemies 1).carHitStatus = true ∧
       (s1.staticEnemies 2).carHitStatus = true ∧
       (s1.staticEnemies 3).carHitStatus = true then
      { s1 with allStaticCarsHit := true }
    else s1
  if (s2.allStaticCarsHit = true ∧ s2.allMovingCarsHit = true) ∨ s2.playerHealth < 1 then
    { s2 with gameState := GameState.GAME_OVER }
  else s2

/-- The `GAME_PLAYING` case. -/
def playingCase (E : Engine) (inp : Input) (s : Game) : Game :=
  winLoss (movingLoop E inp.frameTime (staticLoop E (treeLoop E (physics E inp s))))

/-- The `GAME_PAUSED` case. -/
def pausedCase (inp : Input) (s : Game) : Game :=
  if inp.hitP then { s with gameState := GameState.GAME_PLAYING } else s

/-- The outcome shown in the `GAME_OVER` case: true for "You Win!". -/
def outcomeIsWin (s : Game) : Bool :=
  s.allStaticCarsHit && s.allMovingCarsHit

/-- Body of the restart loop for index `i` (lines 757-787): static enemy `i`,
then moving enemy `i`. -/
def restartBody (i : Fin 4) (s : Game) : Game :=
  let e := s.staticEnemies i
  let p := enemyStaticCarPositions i
  let e1 := { e with enemyCarModel := e.enemyCarModel.setPosition p.x p.y p.z,
                     sphereSkin := Skin.white }
  let e2 :=
    if e1.carSideHit = true ∧ e1.carHitStatus = true then
      { e1 with enemyCarModel := e1.enemyCarModel.divRow0 scaleFactor }
    else e1
  let e3 :=
    if e2.carSideHit = false ∧ e2.carHitStatus = true then
      { e2 with enemyCarModel := e2.enemyCarModel.divRow2 scaleFactor }
    else e2
  let e4 := { e3 with carHitStatus := false }
  let m := s.movingEnemies i
  let q := enemyMovingCarPositions i
  let m1 := { m with enemyCarModel := m.enemyCarModel.setPosition q.x q.y q.z,
                     sphereSkin := Skin.white,
                     sphereY := sphereModelYPosition,
                     sphereMovementSpeed := defaultSphereMovementSpeed,
                     carHitStatus := false,
                     carMovementStatus := true,
                     sphereMovementStatus := true }
  { s with staticEnemies := Function.update s.staticEnemies i e4,
           movingEnemies := Function.update s.movingEnemies i m1,
           resetCarTimes := Function.update s.resetCarTimes i 0 }

/-- The restart handler (lines 733-791). -/
def restart (s : Game) : Game :=
  let s1 := { s with
    score := 0,
    playerHealth := 100,
    prevPosX := 0,
    prevPosY := 0,
    prevPosZ := 0,
    forwardVelocity := 0.0,
    backwardVelocity := 0.0,
    moveOppositeCar1 := false,
    moveOppositeCar2 := false,
    moveOppositeSphere := false,
    allStaticCarsHit := false,
    allMovingCarsHit := false,
    playerCarModel := (s.playerCarModel.setPosition 0 0 0).resetOrientation }
  let s2 := restartBody 3 (restartBody 2 (restartBody 1 (restartBody 0 s1)))
  { s2 with gameState := GameState.GAME_PLAYING }

/-- The `GAME_OVER` case. -/
def overCase (inp : Input) (s : Game) : Game :=
  if inp.hitR then restart s else s

/-- The assignment of `prevPosX`, `prevPosY`, `prevPosZ` made before the
`switch` in every iteration (lines 305-307). -/
def capturePrevPos (s : Game) : Game :=
  { s with prevPosX := s.playerCarModel.pos.x,
           prevPosY := s.playerCarModel.pos.y,
           prevPosZ := s.playerCarModel.pos.z }

/-- One iteration of the main loop.  The `Escape` key only ends the loop after
the iteration and is not used here. -/
def frame (E : Engine) (inp : Input) (s : Game) : Game :=
  let s0 := capturePrevPos s
  match s0.gameState with
  | GameState.GAME_PLAYING => playingCase E inp s0
  | GameState.GAME_PAUSED => pausedCase inp s0
  | GameState.GAME_OVER => overCase inp s0

/-- A loop iteration made in the playing state, whatever `gameState` holds. -/
def playingFrame (E : Engine) (inp : Input) (s : Game) : Game :=
  playingCase E inp (capturePrevPos s)

/-- Successive loop iterations, one per input. -/
def frames (E : Engine) (inps : List Input) (s : Game) : Game :=
  inps.foldl (fun acc inp => frame E inp acc) s

/-- Successive playing iterations, one per input. -/
def playingFrames (E : Engine) (inps : List Input) (s : Game) : Game :=
  inps.foldl (fun acc inp => playingFrame E inp acc) s

/-! ## Initial state -/

/-- Matrix of a model created at a position with the default orientation. -/
def Matrix4.atPosition (p : Vector3) : Matrix4 :=
  ⟨1, 0, 0, 0,  0, 1, 0, 0,  0, 0, 1, 0,  p.x, p.y, p.z, 1⟩

/-- Matrix of a model created at a position and turned by `RotateY(90)`
(`quarter = 1`) or `RotateY(-90)` (`quarter = -1`).  The game reads only the
position row of these matrices. -/
def Matrix4.quarterTurnAt (quarter : ℚ) (p : Vector3) : Matrix4 :=
  ⟨0, 0, -quarter, 0,  0, 1, 0, 0,  quarter, 0, 0, 0,  p.x, p.y, p.z, 1⟩

/-- An enemy as declared by `struct EnemyCars`, with its model. -/
def EnemyCars.create (m : Matrix4) : EnemyCars :=
  { enemyCarModel := m,
    sphereY := enemySphereYPosition,
    sphereSkin := Skin.white,
    sphereMovementSpeed := 2.5,
    carHitStatus := false,
    carSideHit := false,
    carMovementStatus := true,
    sphereMovementStatus := true }

/-- The state on entry to the main loop.  `dotProduct` is declared without an
initial value in the source; its initial content is the parameter `d0`. -/
def initialGame (d0 : ℚ) : Game :=
  { score := 0,
    playerHealth := 100,
    dotProduct := d0,
    prevPosX := 0,
    prevPosY := 0,
    prevPosZ := 0,
    forwardVelocity := 0.0,
    backwardVelocity := 0.0,
    rotationAngle := 0.0,
    currentWheelRotation := 0.0,
    moveOppositeCar1 := false,
    moveOppositeCar2 := false,
    moveOppositeSphere := false,
    resetCarTimes := fun _ => 0,
    allStaticCarsHit := false,
    allMovingCarsHit := false,
    turningLeft := false,
    turningRight := false,
    gameState := GameState.GAME_PLAYING,
    playerCarModel := ⟨⟨0, 0, 0⟩, 0⟩,
    staticEnemies := fun i => EnemyCars.create (Matrix4.atPosition (enemyStaticCarPositions i)),
    movingEnemies := fun i =>
      EnemyCars.create
        (Matrix4.quarterTurnAt (if i = 0 ∨ i = 3 then 1 else -1) (enemyMovingCarPositions i)) }

/-! ## Specification vocabulary -/

/-- The states `s` and `t` agree on the score, on the shared dot product and on
everything that belongs to the enemies. -/
def SameEnemies (s t : Game) : Prop :=
  t.score = s.score ∧ t.dotProduct = s.dotProduct ∧
  t.resetCarTimes = s.resetCarTimes ∧
  t.staticEnemies = s.staticEnemies ∧ t.movingEnemies = s.movingEnemies ∧
  t.moveOppositeCar1 = s.moveOppositeCar1 ∧ t.moveOppositeCar2 = s.moveOppositeCar2 ∧
  t.moveOppositeSphere = s.moveOppositeSphere


/-- The static loop up to, and not including, enemy `i`. -/
def staticLoopBefore (E : Engine) (i : Fin 4) (s : Game) : Game :=
  match i with
  | 0 => s
  | 1 => staticBody E 0 s
  | 2 => staticBody E 1 (staticBody E 0 s)
  | 3 => staticBody E 2 (staticBody E 1 (staticBody E 0 s))

/-- The state in which the static loop of a playing frame reaches enemy `i`. -/
def atStaticTurn (E : Engine) (inp : Input) (i : Fin 4) (s : Game) : Game :=
  staticLoopBefore E i (treeLoop E (physics E inp (capturePrevPos s)))

/-- The relation `Progress E s t`: the state `t` is reached from `s` by running parts of the
main loop, in any order and number, other than the restart handler. -/
inductive Progress (E : Engine) : Game → Game → Prop where
  | refl (s : Game) : Progress E s s
  | capture {s t : Game} : Progress E s t → Progress E s (capturePrevPos t)
  | physics {s t : Game} (inp : Input) : Progress E s t → Progress E s (physics E inp t)
  | trees {s t : Game} : Progress E s t → Progress E s (treeLoop E t)
  | staticEnemy {s t : Game} (j : Fin 4) : Progress E s t → Progress E s (staticBody E j t)
  | movingEnemy {s t : Game} (frameTime : ℚ) (j : Fin 4) :
      Progress E s t → Progress E s (movingBody E frameTime j t)
  | winLoss {s t : Game} : Progress E s t → Progress E s (winLoss t)
  | paused {s t : Game} (inp : Input) : Progress E s t → Progress E s (pausedCase inp t)


/-! ## Example data

A concrete engine and concrete states, used to evaluate the loop. -/

/-- The perimeter trees in units of 1/10000: `50 sin a` and `50 cos a` for
`a = (2 * 3.14 / 160) * i`, `i = 0 .. 159`, rounded to four decimals. -/
def perimeterTreeCoordinates : List (ℤ × ℤ) :=
  [
   (0, 500000), (19620, 499615), (39210, 498460), (58739, 496538), (78178, 493850),
   (97496, 490402), (116665, 486199), (135653, 481247), (154433, 475553), (172974, 469127),
   (191250, 461978), (209230, 454117), (226889, 445557), (244198, 436311), (261130, 426393),
   (277661, 415818), (293764, 404602), (309414, 392763), (324588, 380319), (339261, 367290),
   (353413, 353694), (367019, 339554), (380061, 324891), (392517, 309727), (404368, 294086),
   (415596, 277992), (426185, 261470), (436117, 244545), (445377, 227244), (453951, 209592),
   (461825, 191618), (468989, 173348), (475430, 154811), (481138, 136036), (486106, 117052),
   (490325, 97887), (493788, 78571), (496491, 59134), (498429, 39607), (499599, 20018),
   (500000, 398), (499630, -19222), (498491, -38813), (496584, -58344), (493912, -77785),
   (490480, -97106), (486292, -116277), (481354, -135270), (475676, -154054), (469264, -172601),
   (462130, -190882), (454284, -208869), (445738, -226534), (436506, -243850), (426601, -260791),
   (416039, -277330), (404836, -293441), (393009, -309101), (380578, -324285), (367560, -338969),
   (353975, -353131), (339846, -366749), (325193, -379802), (310039, -392270), (294408, -404134),
   (278323, -415375), (261809, -425976), (244892, -435922), (227598, -445196), (209953, -453784),
   (191985, -461673), (173721, -468851), (155190, -475306), (136419, -481030), (117439, -486012),
   (98277, -490246), (78964, -493725), (59530, -496444), (40004, -498397), (20416, -499583),
   (796, -499999), (-18824, -499646), (-38416, -498522), (-57948, -496631), (-77391, -493974),
   (-96715, -490557), (-115890, -486384), (-134887, -481462), (-153675, -475798), (-172227, -469402),
   (-190514, -462282), (-208507, -454450), (-226179, -445918), (-243503, -436700), (-260451, -426808),
   (-276998, -416259), (-293119, -405069), (-308788, -393255), (-323982, -380836), (-338676, -367829),
   (-352849, -354257), (-366478, -340138), (-379543, -325495), (-392023, -310351), (-403899, -294730),
   (-415153, -278654), (-425768, -262148), (-435727, -245239), (-445014, -227953), (-453616, -210315),
   (-461520, -192353), (-468712, -174095), (-475183, -155568), (-480921, -136802), (-485919, -117826),
   (-490168, -98668), (-493662, -79357), (-496396, -59925), (-498365, -40400), (-499567, -20813),
   (-499999, -1194), (-499660, 18426), (-498552, 38019), (-496677, 57553), (-494036, 76998),
   (-490634, 96325), (-486476, 115503), (-481569, 134503), (-475920, 153296), (-469539, 171853),
   (-462433, 190146), (-454616, 208145), (-446098, 225824), (-436893, 243155), (-427015, 260111),
   (-416480, 276667), (-405303, 292796), (-393501, 308475), (-381094, 323678), (-368099, 338383),
   (-354537, 352567), (-340430, 366207), (-325798, 379283), (-310664, 391776), (-295051, 403664),
   (-278984, 414931), (-262487, 425559), (-245586, 435531), (-228307, 444833), (-210676, 453449),
   (-192720, 461366), (-174468, 468573), (-155947, 475059), (-137185, 480812), (-118213, 485825),
   (-99058, 490089), (-79751, 493599), (-60320, 496348), (-40797, 498333), (-21211, 499550)
  ]

/-- The perimeter trees: `(50 sin a, 0, 50 cos a)` for tree `i`, to four decimals. -/
def perimeterTreesTable : List Vector3 :=
  perimeterTreeCoordinates.map fun p => ⟨(p.1 : ℚ) / 10000, groundYPosition, (p.2 : ℚ) / 10000⟩

/-- An engine with the tree table above.  The local Z axis of the player car is
the world X axis at a yaw of 90 degrees and the world Z axis otherwise: the
directions of a car turned right by a quarter turn and of a car that has not
been turned.  The examples use no other yaw. -/
def exampleEngine : Engine :=
  ⟨fun yaw => if yaw = 90 then ⟨1, 0, 0⟩ else ⟨0, 0, 1⟩, perimeterTreesTable⟩

/-- An input with no key hit or held. -/
def idleInput (frameTime : ℚ) : Input :=
  ⟨frameTime, false, false, false, false, false, false, false, false⟩

/-- An input with only the accelerate key `W` held. -/
def accelerateInput (frameTime : ℚ) : Input :=
  ⟨frameTime, false, false, false, true, false, false, false, false⟩

/-- An input with only the reverse key `S` held. -/
def reverseInput (frameTime : ℚ) : Input :=
  ⟨frameTime, false, false, false, false, true, false, false, false⟩

/-- An input with the accelerate key `W` and the turn key `D` held. -/
def turnRightInput (frameTime : ℚ) : Input :=
  ⟨frameTime, false, false, false, true, false, false, true, false⟩

/-- An input with the accelerate key `W` and the turn key `A` held. -/
def turnLeftInput (frameTime : ℚ) : Input :=
  ⟨frameTime, false, false, false, true, false, true, false, false⟩

/-- The initial state with the player car moved to a given position. -/
def playerAt (x y z : ℚ) : Game :=
  { initialGame 0 with playerCarModel := ⟨⟨x, y, z⟩, 0⟩ }


/-- The bounce response in the words of the specification, relating the state
`s` at impact to the state `t` after it, with `V` the combined velocity at
impact: forward-directed, backward-directed, and at rest. -/
def BounceSpec (s t : Game) : Prop :=
  (0 < s.forwardVelocity + s.backwardVelocity →
    t.forwardVelocity = -(s.forwardVelocity + s.backwardVelocity) * 0.5 ∧
    t.backwardVelocity = 0) ∧
  (s.forwardVelocity + s.backwardVelocity < 0 →
    t.backwardVelocity = -(s.forwardVelocity + s.backwardVelocity) * 0.5 ∧
    t.forwardVelocity = 0) ∧
  (s.forwardVelocity + s.backwardVelocity = 0 →
    t.forwardVelocity = s.forwardVelocity ∧ t.backwardVelocity = s.backwardVelocity)

/-- A state with the player car at a given position and a given forward velocity. -/
def playerMovingAt (x y z v : ℚ) : Game :=
  { initialGame 0 with playerCarModel := ⟨⟨x, y, z⟩, 0⟩, forwardVelocity := v }


/-- A state inside a frame, at the tree loop: the player car at `(x, y, z)`, the
position saved at the start of the frame `(px, py, pz)`, forward velocity `v`. -/
def atTreeLoop (x y z px py pz v : ℚ) : Game :=
  { initialGame 0 with
    playerCarModel := ⟨⟨x, y, z⟩, 0⟩,
    prevPosX := px, prevPosY := py, prevPosZ := pz,
    forwardVelocity := v }


/-- Inputs of an example run up to the first hit of moving enemy 0: two idle
frames of 0.7 s while the enemy patrols from x = -30 to x = -9, then a frame of
0.61 s with the accelerate key held, in which the player drives from the origin
to z = 11.163 and the enemy arrives at x = 0.15. -/
def runToHit : List Input :=
  [idleInput 0.7, idleInput 0.7, accelerateInput 0.61]

/-- Inputs that continue `runToHit`: a frame of 0.8 s with the accelerate key
held, in which the player drives into the disabled enemy again, two idle frames
in which the player comes to rest at z = -8.58, and 13 idle frames of 1 s. -/
def runToRecovery : List Input :=
  [accelerateInput 0.8, idleInput 1, idleInput 0.485] ++ List.replicate 13 (idleInput 1)

/-- Inputs of an example run that ends behind static enemy 1: the player reverses
to z = -7.98768 and stops, makes a quarter turn to the right that takes it to
x = 24.3, stops, reverses to x = 19.5 and stops. -/
def runToStaticEnemy : List Input :=
  [reverseInput 0.516, idleInput 0.516, turnRightInput 0.9, idleInput 0.9, reverseInput 0.4,
    idleInput 0.4]

/-- Inputs of an example run that ends next to the trees: ten idle frames of 1 s;
a quarter turn to the right while accelerating, which takes the player to
(24.3, 0, 0); 4667/16384 s of acceleration to x = 34.42518 at velocity
35.5455322265625; a quarter turn back to the left, which takes the player to
z = 31.99098, at distance 3.0071 from tree 21; and an idle frame of 0.9 s longer
in which the player stops dead and moving enemy 2 arrives at x = 34.0455 and
overlaps it, so that the player is put back 0.01 further out in X and Z, at
distance 2.9930 from tree 21.

The frame times are chosen so that the run does not depend on the exactness of
the arithmetic.  The velocities are binary fractions: in single precision
`30 * 0.9f` is 27, `27 + 30 * 0.28485107421875f` is 35.5455322265625 and
`30 * 1.18485107421875f` rounds to 35.5455322265625 again, so that the idle
frame leaves `forwardVelocity` at 0 as it does here.  The positions differ from
the single-precision ones by less than 0.00001, and every distance that decides
an overlap in the run is at least 0.007 away from its threshold. -/
def runToTrees : List Input :=
  List.replicate 10 (idleInput 1) ++
    [turnRightInput 0.9, accelerateInput 0.28485107421875, turnLeftInput 0.9,
     idleInput 1.18485107421875]


/-- Some collision test of the static loop run from `s` returns true. -/
def staticLoopOverlap (E : Engine) (s : Game) : Bool :=
  staticOverlap 0 s ||
  staticOverlap 1 (staticBody E 0 s) ||
  staticOverlap 2 (staticBody E 1 (staticBody E 0 s)) ||
  staticOverlap 3 (staticBody E 2 (staticBody E 1 (staticBody E 0 s)))

/-- Some collision test of the moving loop run from `s` returns true; the test
for enemy `i` is made after the patrol step of enemy `i`. -/
def movingLoopOverlap (E : Engine) (frameTime : ℚ) (s : Game) : Bool :=
  movingOverlap 0 (patrol frameTime 0 s) ||
  movingOverlap 1 (patrol frameTime 1 (movingBody E frameTime 0 s)) ||
  movingOverlap 2 (patrol frameTime 2 (movingBody E frameTime 1 (movingBody E frameTime 0 s))) ||
  movingOverlap 3 (patrol frameTime 3 (movingBody E frameTime 2
    (movingBody E frameTime 1 (movingBody E frameTime 0 s))))

/-- Some enemy collision test of the playing frame run from `s` returns true. -/
def frameOverlap (E : Engine) (inp : Input) (s : Game) : Bool :=
  staticLoopOverlap E (treeLoop E (physics E inp (capturePrevPos s))) ||
  movingLoopOverlap E inp.frameTime
    (staticLoop E (treeLoop E (physics E inp (capturePrevPos s))))

/-- No enemy collision test returns true in any of the playing frames run from
`s` with the inputs `inps`. -/
def noOverlapRun (E : Engine) : List Input → Game → Bool
  | [], _ => true
  | inp :: rest, s => !frameOverlap E inp s && noOverlapRun E rest (playingFrame E inp s)

/-- Sum of the frame times of a list of inputs. -/
def totalTime (inps : List Input) : ℚ :=
  (inps.map fun inp => inp.frameTime).sum

/-- The score awarded by a first hit with dot product `d`, for `d` other than the
threshold: 15 below the threshold, 10 above it. -/
def awardFor (d : ℚ) : ℤ :=
  if d < -sideCollisionChecker then scoreIncreaseForSideCollision
  else scoreIncreaseForFrontCollision


/-- Moving enemy `i` is disabled with timer `T`, every other moving enemy is
enabled, the score is `S` and the shared dot product is `d`. -/
def Recovering (i : Fin 4) (S : ℤ) (d T : ℚ) (s : Game) : Prop :=
  s.score = S ∧ s.dotProduct = d ∧ s.resetCarTimes i = T ∧
  (s.movingEnemies i).carMovementStatus = false ∧
  ∀ k, k ≠ i → (s.movingEnemies k).carMovementStatus = true

/-- Every moving enemy is enabled, the hit flag of moving enemy `i` is clear, the
score is `S` and the shared dot product is `d`. -/
def Recovered (i : Fin 4) (S : ℤ) (d : ℚ) (s : Game) : Prop :=
  s.score = S ∧ s.dotProduct = d ∧
  (∀ k, (s.movingEnemies k).carMovementStatus = true) ∧
  (s.movingEnemies i).carHitStatus = false


/-- The state of a recovery after a further `frameTime` on a timer that stood at
`T`: still recovering below the second threshold, recovered with the award for
`d` taken back at or above it. -/
def RecoveryStep (i : Fin 4) (S : ℤ) (d T frameTime : ℚ) (s : Game) : Prop :=
  (T + frameTime < 15 ∧ Recovering i S d (T + frameTime) s) ∨
  (15 ≤ T + frameTime ∧ Recovered i (S - awardFor d) d s)


/-- An input with only the pause key `P` hit. -/
def pauseInput (frameTime : ℚ) : Input :=
  ⟨frameTime, false, true, false, false, false, false, false, false⟩

/-- An input with only the restart key `R` hit. -/
def restartInput (frameTime : ℚ) : Input :=
  ⟨frameTime, false, false, true, false, false, false, false, false⟩

/-- The initial state with every static enemy hit and every moving enemy hit and
disabled. -/
def allEnemiesDown : Game :=
  { initialGame 0 with
    staticEnemies := fun i => { (initialGame 0).staticEnemies i with carHitStatus := true },
    movingEnemies := fun i =>
      { (initialGame 0).movingEnemies i with carHitStatus := true, carMovementStatus := false } }

/-- The initial state with the health used up and the game over. -/
def lostGame : Game :=
  { initialGame 0 with playerHealth := 0, gameState := GameState.GAME_OVER }


/-- The forward velocity after the input and physics part of a playing frame, as
a function of the accelerate key, the frame time and the velocity before:
the `KeyHeld(Key_W)` block (lines 336-368) followed by the recovery of a negative
velocity (lines 429-431). -/
def forwardStep (heldW : Bool) (frameTime f : ℚ) : ℚ :=
  let f1 :=
    if heldW then (if f < maxForwardVelocity then f + acceleration * frameTime else f)
    else (if f > minVelocity then f - deceleration * frameTime else f)
  if f1 < minVelocity then f1 + decelerationAfterBounce * frameTime else f1

/-- The backward velocity after the input and physics part of a playing frame:
the `KeyHeld(Key_S)` block (lines 370-402) followed by the recovery of a positive
velocity (lines 432-434). -/
def backwardStep (heldS : Bool) (frameTime b : ℚ) : ℚ :=
  let b1 :=
    if heldS then (if b > maxBackwardVelocity then b - acceleration * frameTime else b)
    else (if b < minVelocity then b + deceleration * frameTime else b)
  if b1 > minVelocity then b1 - decelerationAfterBounce * frameTime else b1

/-- Both velocity channels lie between `-M` and `M`. -/
def VelocityBound (M : ℚ) (s : Game) : Prop :=
  -M ≤ s.forwardVelocity ∧ s.forwardVelocity ≤ M ∧
  -M ≤ s.backwardVelocity ∧ s.backwardVelocity ≤ M

/-- Some tree is within range of the player as the tree loop starts from `s`,
so that the loop hits a tree. -/
def treeLoopHit (E : Engine) (s : Game) : Bool :=
  E.perimeterTrees.any fun tree => nearTree s.playerCarModel.pos tree

/-- The playing frame run from `s` has a collision: with a tree or with an enemy. -/
def frameCollision (E : Engine) (inp : Input) (s : Game) : Bool :=
  treeLoopHit E (physics E inp (capturePrevPos s)) || frameOverlap E inp s

/-- None of the playing frames run from `s` with the inputs `inps` has a
collision. -/
def noCollisionRun (E : Engine) : List Input → Game → Bool
  | [], _ => true
  | inp :: rest, s => !frameCollision E inp s && noCollisionRun E rest (playingFrame E inp s)


/-- One of the six forward velocities of the coasting cycle at a frame time of
0.1 s: 0.3, -2.2, -1.7, -1.2, -0.7, -0.2. -/
def InCoastingCycle (f : ℚ) : Prop :=
  f = 3 / 10 ∨ f = -11 / 5 ∨ f = -17 / 10 ∨ f = -6 / 5 ∨ f = -7 / 10 ∨ f = -1 / 5

/-- Inputs of an example run that leaves the player coasting: one frame of 0.31 s
with the accelerate key held, which gives a forward velocity of 9.3. -/
def runToCoast : List Input :=
  [accelerateInput 0.31]


/-- The states of the game: those reached from an initial state by loop
iterations with any inputs. -/
def Reachable (E : Engine) (s : Game) : Prop :=
  ∃ (d0 : ℚ) (inps : List Input), s = frames E inps (initialGame d0)

/-- What no part of the loop writes: the movement and marker flags and the marker
speed of the static enemies, and the side-hit flag of the moving enemies, are
as declared in `struct EnemyCars`. -/
def UnwrittenDefaults (s : Game) : Prop :=
  (∀ i, (s.staticEnemies i).carMovementStatus = true ∧
    (s.staticEnemies i).sphereMovementStatus = true ∧
    (s.staticEnemies i).sphereMovementSpeed = 2.5) ∧
  (∀ i, (s.movingEnemies i).carSideHit = false)

/-- An input with no key hit and the given keys held: `W`, `S`, `A`, `D`, `Q`. -/
def heldInput (frameTime : ℚ) (w s a d q : Bool) : Input :=
  ⟨frameTime, false, false, false, w, s, a, d, q⟩

/-- Inputs of an example run to a win declared on the latched flag.
Frames 1-10, facing +Z near the origin: the player waits for the moving enemies
to come by and pokes the four lanes in turn, so that enemy 0 is disabled at
2.01 s, enemy 2 at 3.315 s, enemy 1 at 4.115 s and enemy 3 at 6.48 s, when all
four are disabled together.  Frames 11-15: a quarter turn on the spot and hits on
static enemies 3 and 2.  Frames 16-21: a turn back, a hop to z = 20.212 and a
quarter turn on the spot.  Frame 22: a hit on static enemy 1, in which the timer
of moving enemy 0 passes 15 s and the enemy patrols again.  Frame 23: a hit on
static enemy 0. -/
def runToLatchedWin : List Input :=
  [idleInput 0.7, idleInput 0.7, accelerateInput 0.61, accelerateInput 0.305,
   accelerateInput 1, heldInput 0.8 true true false false false, reverseInput 0.25,
   idleInput 1.115, reverseInput 1, reverseInput 0.5,
   heldInput 0.9 true true false true false, idleInput 0.9, accelerateInput 0.8,
   reverseInput 0.6, reverseInput 0.45,
   heldInput 0.9 true true false false true, idleInput 0.9, accelerateInput 0.82,
   idleInput 0.82, heldInput 0.9 true true false true false, idleInput 0.9,
   accelerateInput 0.8, reverseInput 0.6]


/-- The status flags of a moving enemy agree: it is marked hit exactly when its
movement is disabled, and its marker is stopped only while its movement is
disabled. -/
def EnemyCars.StatusConsistent (e : EnemyCars) : Prop :=
  (e.carHitStatus = true ↔ e.carMovementStatus = false) ∧
  (e.sphereMovementStatus = false → e.carMovementStatus = false)

/-- The moving loop up to, and not including, enemy `i`. -/
def movingLoopBefore (E : Engine) (frameTime : ℚ) (i : Fin 4) (s : Game) : Game :=
  match i with
  | 0 => s
  | 1 => movingBody E frameTime 0 s
  | 2 => movingBody E frameTime 1 (movingBody E frameTime 0 s)
  | 3 => movingBody E frameTime 2 (movingBody E frameTime 1 (movingBody E frameTime 0 s))

/-- The state in which the moving loop of a playing frame reaches enemy `i`. -/
def atMovingTurn (E : Engine) (inp : Input) (i : Fin 4) (s : Game) : Game :=
  movingLoopBefore E inp.frameTime i
    (staticLoop E (treeLoop E (physics E inp (capturePrevPos s))))


/-- The X coordinate of an enemy lies between `-M` and `M`. -/
def EnemyCars.WithinX (M : ℚ) (e : EnemyCars) : Prop :=
  -M ≤ e.enemyCarModel.position.x ∧ e.enemyCarModel.position.x ≤ M

/-- Inputs of an example run in which the patrol leaves its range: six frames of
0.7 s with no key held, the player standing at the origin. -/
def runToOvershoot : List Input :=
  List.replicate 6 (idleInput 0.7)


/-- The collision test that the moving loop of a playing frame makes for enemy
`i`, at the turn of enemy `i` and after its patrol step. -/
def movingOverlapAt (E : Engine) (inp : Input) (i : Fin 4) (s : Game) : Bool :=
  movingOverlap i (patrol inp.frameTime i (atMovingTurn E inp i s))


/-- Inputs of an example run that ends in front of the lane of moving enemy 0,
at the distance that gives the threshold dot product: 0.5 s with the reverse key
held, which takes the player to z = -7.5 with `backwardVelocity = -15`, and an
idle frame of 1 s, in which `backwardVelocity` passes zero to 15, the player
moves to z = 7.5 and `backwardVelocity` drops to 10.  An idle frame of 0.4 s
then takes the player to z = 11.5, which is 3.5 behind the enemy lane z = 15,
while enemy 0 arrives at x = -1.5.

The player never turns, so its local Z axis is (0, 0, 1), and every value of the
run (velocities -15, 15, 10, 8; positions -7.5, 7.5, 11.5; enemy positions
-22.5, -7.5, -1.5) is a binary fraction with at most five significant bits; in
single precision `30 * 0.5f`, `5 * 1.0f`, `10 * 0.4f = 4`, `5 * 0.4f = 2` and
`15 * 0.4f = 6` are these same values, so the run is the same in single
precision and in exact arithmetic. -/
def runToThreshold : List Input :=
  [reverseInput 0.5, idleInput 1]


/-! # Theorems -/

/-! ## Values of the constants -/

theorem minVelocity_eq : minVelocity = 0 := by norm_num [minVelocity]

theorem bounceFactor_eq : bounceFactor = 1 / 2 := by norm_num [bounceFactor]

theorem sideCollisionChecker_eq : sideCollisionChecker = 7 / 2 := by
  norm_num [sideCollisionChecker]

theorem scaleFactor_eq : scaleFactor = 3 / 5 := by norm_num [scaleFactor]

theorem resetCarTimeThreshold1_eq : resetCarTimeThreshold1 = 3 := by
  norm_num [resetCarTimeThreshold1]

theorem resetCarTimeThreshold2_eq : resetCarTimeThreshold2 = 15 := by
  norm_num [resetCarTimeThreshold2]

theorem playerCarRadius_add_treeRadius : playerCarRadius + treeRadius = 3 := by
  norm_num [playerCarRadius, treeRadius]

/-! ## Bounce response -/

theorem bounce_forwardVelocity (s : Game) :
    (bounce s).forwardVelocity =
      if 0 < s.forwardVelocity + s.backwardVelocity then
        -(s.forwardVelocity + s.backwardVelocity) * 0.5
      else if s.forwardVelocity + s.backwardVelocity < 0 then 0
      else s.forwardVelocity := by
  unfold bounce
  simp only [minVelocity_eq, bounceFactor_eq, gt_iff_lt]
  split_ifs <;> first | rfl | (exfalso; linarith) | norm_num

theorem bounce_backwardVelocity (s : Game) :
    (bounce s).backwardVelocity =
      if 0 < s.forwardVelocity + s.backwardVelocity then 0
      else if s.forwardVelocity + s.backwardVelocity < 0 then
        -(s.forwardVelocity + s.backwardVelocity) * 0.5
      else s.backwardVelocity := by
  unfold bounce
  simp only [minVelocity_eq, bounceFactor_eq, gt_iff_lt]
  split_ifs <;> first | rfl | (exfalso; linarith) | norm_num

/-! ## Collision test -/

/-- The comparison on squares used by `modulusLe` is the comparison of the
Euclidean norm with `r`, for every radius `r ≥ 0`. -/
theorem modulus_le_iff (v : Vector3) (r : ℚ) (hr : 0 ≤ r) :
    modulusLe v r = true ↔ Real.sqrt ((modulusSquared v : ℚ) : ℝ) ≤ (r : ℝ) := by
  have hr' : (0 : ℝ) ≤ (r : ℝ) := by exact_mod_cast hr
  unfold modulusLe
  rw [decide_eq_true_iff, Real.sqrt_le_left hr', ← pow_two]
  exact_mod_cast Iff.rfl

/-- C7: `CheckCollision` returns true exactly when the player position lies
strictly inside the box `[local + min - r, local + max + r]` on all three axes;
a player point with one coordinate equal to one of the six expanded bounds gives
false, for every box, radius and target position. -/
theorem checkCollision_iff_strictly_inside (playerCar : PlayerCar) (enemyCar : Matrix4)
    (r : ℚ) (box : BoundingBox) :
    (CheckCollision playerCar enemyCar r box = true ↔
      (enemyCar.position.x + box.minX - r < playerCar.pos.x ∧
        playerCar.pos.x < enemyCar.position.x + box.maxX + r) ∧
      (enemyCar.position.y + box.minY - r < playerCar.pos.y ∧
        playerCar.pos.y < enemyCar.position.y + box.maxY + r) ∧
      (enemyCar.position.z + box.minZ - r < playerCar.pos.z ∧
        playerCar.pos.z < enemyCar.position.z + box.maxZ + r)) ∧
    ((playerCar.pos.x = enemyCar.position.x + box.minX - r ∨
      playerCar.pos.x = enemyCar.position.x + box.maxX + r ∨
      playerCar.pos.y = enemyCar.position.y + box.minY - r ∨
      playerCar.pos.y = enemyCar.position.y + box.maxY + r ∨
      playerCar.pos.z = enemyCar.position.z + box.minZ - r ∨
      playerCar.pos.z = enemyCar.position.z + box.maxZ + r) →
      CheckCollision playerCar enemyCar r box = false) := by
  have key : CheckCollision playerCar enemyCar r box = true ↔
      (enemyCar.position.x + box.minX - r < playerCar.pos.x ∧
        playerCar.pos.x < enemyCar.position.x + box.maxX + r) ∧
      (enemyCar.position.y + box.minY - r < playerCar.pos.y ∧
        playerCar.pos.y < enemyCar.position.y + box.maxY + r) ∧
      (enemyCar.position.z + box.minZ - r < playerCar.pos.z ∧
        playerCar.pos.z < enemyCar.position.z + box.maxZ + r) := by
    simp only [CheckCollision, decide_eq_true_iff, gt_iff_lt]
    tauto
  refine ⟨key, ?_⟩
  intro h
  rw [← Bool.not_eq_true]
  intro hc
  obtain ⟨⟨h1, h2⟩, ⟨h3, h4⟩, h5, h6⟩ := key.mp hc
  rcases h with h | h | h | h | h | h
  · exact absurd h (ne_of_gt h1)
  · exact absurd h (ne_of_lt h2)
  · exact absurd h (ne_of_gt h3)
  · exact absurd h (ne_of_lt h4)
  · exact absurd h (ne_of_gt h5)
  · exact absurd h (ne_of_lt h6)

/-- Witness of C7: the player at x = 22.946118, the upper expanded X bound of the
static enemy at (20, 0, 0), is not in collision. -/
theorem checkCollision_iff_strictly_inside_witness :
    CheckCollision ⟨⟨22.946118, 0, 0⟩, 0⟩ (Matrix4.atPosition ⟨20, 0, 0⟩) playerCarRadius
      enemyStaticCar = false :=
  (checkCollision_iff_strictly_inside ⟨⟨22.946118, 0, 0⟩, 0⟩ (Matrix4.atPosition ⟨20, 0, 0⟩)
    playerCarRadius enemyStaticCar).2
    (Or.inr (Or.inl (by norm_num [Matrix4.atPosition, Matrix4.position, enemyStaticCar,
      playerCarRadius])))

/-- C8: for a bounding box that contains the origin and a positive player
radius, `CheckCollision` returns true when the player position equals the
target's local position. -/
theorem checkCollision_at_target_position (playerCar : PlayerCar) (enemyCar : Matrix4)
    (r : ℚ) (box : BoundingBox)
    (hx : box.minX ≤ 0 ∧ 0 ≤ box.maxX) (hy : box.minY ≤ 0 ∧ 0 ≤ box.maxY)
    (hz : box.minZ ≤ 0 ∧ 0 ≤ box.maxZ) (hr : 0 < r)
    (hpos : playerCar.pos = enemyCar.position) :
    CheckCollision playerCar enemyCar r box = true := by
  simp only [CheckCollision, decide_eq_true_iff, gt_iff_lt, hpos]
  obtain ⟨hx1, hx2⟩ := hx
  obtain ⟨hy1, hy2⟩ := hy
  obtain ⟨hz1, hz2⟩ := hz
  refine ⟨?_, ?_, ?_, ?_, ?_, ?_⟩ <;> linarith

/-- Witness of C8: the player at the position of the moving enemy at
(-30, 0, 15), with the game's radius 2 and the moving-car box. -/
theorem checkCollision_at_target_position_witness :
    CheckCollision ⟨⟨-30, 0, 15⟩, 0⟩ (Matrix4.atPosition ⟨-30, 0, 15⟩) playerCarRadius
      enemyMovingCar = true :=
  checkCollision_at_target_position ⟨⟨-30, 0, 15⟩, 0⟩ (Matrix4.atPosition ⟨-30, 0, 15⟩)
    playerCarRadius enemyMovingCar
    (by norm_num [enemyMovingCar]) (by norm_num [enemyMovingCar]) (by norm_num [enemyMovingCar])
    (by norm_num [playerCarRadius]) (by simp [Matrix4.atPosition, Matrix4.position])

/-! ## Parts of the loop that leave the enemies alone -/

theorem sameEnemies_refl (s : Game) : SameEnemies s s :=
  ⟨rfl, rfl, rfl, rfl, rfl, rfl, rfl, rfl⟩

theorem sameEnemies_trans {s t u : Game} (h1 : SameEnemies s t) (h2 : SameEnemies t u) :
    SameEnemies s u := by
  obtain ⟨a1, a2, a3, a4, a5, a6, a7, a8⟩ := h1
  obtain ⟨b1, b2, b3, b4, b5, b6, b7, b8⟩ := h2
  exact ⟨b1.trans a1, b2.trans a2, b3.trans a3, b4.trans a4, b5.trans a5, b6.trans a6,
    b7.trans a7, b8.trans a8⟩

theorem capturePrevPos_sameEnemies (s : Game) : SameEnemies s (capturePrevPos s) :=
  ⟨rfl, rfl, rfl, rfl, rfl, rfl, rfl, rfl⟩

theorem pauseKey_sameEnemies (inp : Input) (s : Game) : SameEnemies s (pauseKey inp s) := by
  unfold pauseKey
  split_ifs
  · exact ⟨rfl, rfl, rfl, rfl, rfl, rfl, rfl, rfl⟩
  · exact sameEnemies_refl s

theorem forwardChannel_sameEnemies (inp : Input) (s : Game) :
    SameEnemies s (forwardChannel inp s) := by
  unfold forwardChannel
  split_ifs <;> exact ⟨rfl, rfl, rfl, rfl, rfl, rfl, rfl, rfl⟩

theorem backwardChannel_sameEnemies (inp : Input) (s : Game) :
    SameEnemies s (backwardChannel inp s) := by
  unfold backwardChannel
  split_ifs <;> exact ⟨rfl, rfl, rfl, rfl, rfl, rfl, rfl, rfl⟩

theorem steeringFlags_sameEnemies (inp : Input) (s : Game) :
    SameEnemies s (steeringFlags inp s) := by
  unfold steeringFlags
  split_ifs <;> exact ⟨rfl, rfl, rfl, rfl, rfl, rfl, rfl, rfl⟩

theorem translate_sameEnemies (E : Engine) (inp : Input) (s : Game) :
    SameEnemies s (translate E inp s) :=
  ⟨rfl, rfl, rfl, rfl, rfl, rfl, rfl, rfl⟩

theorem bounceRecovery_sameEnemies (inp : Input) (s : Game) :
    SameEnemies s (bounceRecovery inp s) := by
  unfold bounceRecovery
  dsimp only
  split_ifs <;> exact ⟨rfl, rfl, rfl, rfl, rfl, rfl, rfl, rfl⟩

theorem wheelSteer_sameEnemies (s : Game) : SameEnemies s (wheelSteer s) := by
  unfold wheelSteer
  split_ifs <;> exact ⟨rfl, rfl, rfl, rfl, rfl, rfl, rfl, rfl⟩

theorem physics_sameEnemies (E : Engine) (inp : Input) (s : Game) :
    SameEnemies s (physics E inp s) := by
  unfold physics
  exact sameEnemies_trans (pauseKey_sameEnemies inp s)
    (sameEnemies_trans (forwardChannel_sameEnemies inp _)
      (sameEnemies_trans (backwardChannel_sameEnemies inp _)
        (sameEnemies_trans (steeringFlags_sameEnemies inp _)
          (sameEnemies_trans (translate_sameEnemies E inp _)
            (sameEnemies_trans (bounceRecovery_sameEnemies inp _)
              (wheelSteer_sameEnemies _))))))

theorem bounce_sameEnemies (s : Game) : SameEnemies s (bounce s) := by
  unfold bounce
  dsimp only
  split_ifs <;> exact ⟨rfl, rfl, rfl, rfl, rfl, rfl, rfl, rfl⟩

theorem treeBody_sameEnemies (tree : Vector3) (s : Game) : SameEnemies s (treeBody tree s) := by
  unfold treeBody
  dsimp only
  split_ifs
  · obtain ⟨a1, a2, a3, a4, a5, a6, a7, a8⟩ := bounce_sameEnemies s
    exact ⟨a1, a2, a3, a4, a5, a6, a7, a8⟩
  · exact sameEnemies_refl s

theorem treeLoopFrom_sameEnemies (trees : List Vector3) (s : Game) :
    SameEnemies s (treeLoopFrom trees s) := by
  induction trees generalizing s with
  | nil => exact sameEnemies_refl s
  | cons tree rest ih =>
    exact sameEnemies_trans (treeBody_sameEnemies tree s) (ih (treeBody tree s))

theorem treeLoop_sameEnemies (E : Engine) (s : Game) : SameEnemies s (treeLoop E s) :=
  treeLoopFrom_sameEnemies E.perimeterTrees s

theorem winLoss_sameEnemies (s : Game) : SameEnemies s (winLoss s) := by
  unfold winLoss
  dsimp only
  split_ifs <;> exact ⟨rfl, rfl, rfl, rfl, rfl, rfl, rfl, rfl⟩

theorem pausedCase_sameEnemies (inp : Input) (s : Game) : SameEnemies s (pausedCase inp s) := by
  unfold pausedCase
  split_ifs
  · exact ⟨rfl, rfl, rfl, rfl, rfl, rfl, rfl, rfl⟩
  · exact sameEnemies_refl s


/-! ## Static enemies: the first-hit guard -/

theorem classify_score (E : Engine) (m : Matrix4) (s : Game) :
    (classify E m s).score = s.score := rfl

theorem classify_staticEnemies (E : Engine) (m : Matrix4) (s : Game) :
    (classify E m s).staticEnemies = s.staticEnemies := rfl

theorem classify_movingEnemies (E : Engine) (m : Matrix4) (s : Game) :
    (classify E m s).movingEnemies = s.movingEnemies := rfl

theorem classify_resetCarTimes (E : Engine) (m : Matrix4) (s : Game) :
    (classify E m s).resetCarTimes = s.resetCarTimes := rfl

theorem classify_velocities (E : Engine) (m : Matrix4) (s : Game) :
    (classify E m s).forwardVelocity = s.forwardVelocity ∧
    (classify E m s).backwardVelocity = s.backwardVelocity := ⟨rfl, rfl⟩

/-- With the hit flag set, the guard of a static enemy changes nothing. -/
theorem staticAward_of_hit (i : Fin 4) (s : Game)
    (h : (s.staticEnemies i).carHitStatus = true) : staticAward i s = s := by
  unfold staticAward
  simp [h]

/-- The guard of a static enemy never clears a hit flag. -/
theorem staticAward_hit_mono (i k : Fin 4) (s : Game)
    (h : (s.staticEnemies k).carHitStatus = true) :
    ((staticAward i s).staticEnemies k).carHitStatus = true := by
  unfold staticAward
  split_ifs
  · by_cases hk : k = i
    · subst hk; simp
    · simp [Function.update_noteq hk, h]
  · by_cases hk : k = i
    · subst hk; simp
    · simp [Function.update_noteq hk, h]
  · exact h
  · exact h

theorem staticAward_velocities (i : Fin 4) (s : Game) :
    (staticAward i s).forwardVelocity = s.forwardVelocity ∧
    (staticAward i s).backwardVelocity = s.backwardVelocity := by
  unfold staticAward
  split_ifs <;> exact ⟨rfl, rfl⟩

theorem staticResolve_score (E : Engine) (i : Fin 4) (s : Game) :
    (staticResolve E i s).score =
      (staticAward i (classify E (s.staticEnemies i).enemyCarModel s)).score := by
  unfold staticResolve
  exact (bounce_sameEnemies _).1

theorem staticResolve_hit (E : Engine) (i k : Fin 4) (s : Game) :
    ((staticResolve E i s).staticEnemies k).carHitStatus =
      ((staticAward i (classify E (s.staticEnemies i).enemyCarModel s)).staticEnemies
        k).carHitStatus := by
  unfold staticResolve
  dsimp only
  rw [(bounce_sameEnemies _).2.2.2.1]
  by_cases hk : k = i
  · subst hk; simp
  · simp [Function.update_noteq hk]

theorem staticResolve_model (E : Engine) (i k : Fin 4) (s : Game) :
    ((staticResolve E i s).staticEnemies k).enemyCarModel =
      ((staticAward i (classify E (s.staticEnemies i).enemyCarModel s)).staticEnemies
        k).enemyCarModel := by
  unfold staticResolve
  dsimp only
  rw [(bounce_sameEnemies _).2.2.2.1]
  by_cases hk : k = i
  · subst hk; simp
  · simp [Function.update_noteq hk]

/-- A static enemy that is already hit: its loop body leaves the score alone. -/
theorem staticBody_score_of_hit (E : Engine) (i : Fin 4) (s : Game)
    (h : (s.staticEnemies i).carHitStatus = true) : (staticBody E i s).score = s.score := by
  unfold staticBody
  split_ifs
  · rw [staticResolve_score, staticAward_of_hit i _ (by rw [classify_staticEnemies]; exact h),
      classify_score]
  · rfl

/-- A static loop body never clears a hit flag. -/
theorem staticBody_hit_mono (E : Engine) (j k : Fin 4) (s : Game)
    (h : (s.staticEnemies k).carHitStatus = true) :
    ((staticBody E j s).staticEnemies k).carHitStatus = true := by
  unfold staticBody
  split_ifs
  · rw [staticResolve_hit]
    exact staticAward_hit_mono j k _ (by rw [classify_staticEnemies]; exact h)
  · exact h


/-! ## The moving loop leaves the static enemies alone -/

theorem patrol_staticEnemies (frameTime : ℚ) (i : Fin 4) (s : Game) :
    (patrol frameTime i s).staticEnemies = s.staticEnemies := by
  unfold patrol
  split_ifs <;> rfl

theorem movingAward_staticEnemies (i : Fin 4) (s : Game) :
    (movingAward i s).staticEnemies = s.staticEnemies := by
  unfold movingAward
  split_ifs <;> rfl

theorem nudgePrevPos_sameEnemies (s : Game) : SameEnemies s (nudgePrevPos s) := by
  unfold nudgePrevPos
  dsimp only
  split_ifs <;> exact ⟨rfl, rfl, rfl, rfl, rfl, rfl, rfl, rfl⟩

theorem movingResolve_staticEnemies (E : Engine) (i : Fin 4) (s : Game) :
    (movingResolve E i s).staticEnemies = s.staticEnemies := by
  unfold movingResolve
  dsimp only
  rw [(nudgePrevPos_sameEnemies _).2.2.2.1, (bounce_sameEnemies _).2.2.2.1,
    movingAward_staticEnemies, classify_staticEnemies]

theorem movingCollision_staticEnemies (E : Engine) (i : Fin 4) (s : Game) :
    (movingCollision E i s).staticEnemies = s.staticEnemies := by
  unfold movingCollision
  split_ifs
  · exact movingResolve_staticEnemies E i s
  · rfl

theorem sphereBob_staticEnemies (frameTime : ℚ) (i : Fin 4) (s : Game) :
    (sphereBob frameTime i s).staticEnemies = s.staticEnemies := by
  unfold sphereBob
  dsimp only
  split_ifs <;> rfl

theorem reverseScore_staticEnemies (s : Game) :
    (reverseScore s).staticEnemies = s.staticEnemies := by
  unfold reverseScore
  split_ifs <;> rfl

theorem recovery_staticEnemies (frameTime : ℚ) (i : Fin 4) (s : Game) :
    (recovery frameTime i s).staticEnemies = s.staticEnemies := by
  unfold recovery
  dsimp only
  split_ifs <;> first | rfl | (rw [reverseScore_staticEnemies])

theorem movingBody_staticEnemies (E : Engine) (frameTime : ℚ) (i : Fin 4) (s : Game) :
    (movingBody E frameTime i s).staticEnemies = s.staticEnemies := by
  unfold movingBody
  rw [recovery_staticEnemies, sphereBob_staticEnemies, movingCollision_staticEnemies,
    patrol_staticEnemies]

/-! ## Progress through the loop -/

theorem progress_trans {E : Engine} {s t u : Game} (h1 : Progress E s t) (h2 : Progress E t u) :
    Progress E s u := by
  induction h2 with
  | refl => exact h1
  | capture _ ih => exact Progress.capture ih
  | physics inp _ ih => exact Progress.physics inp ih
  | trees _ ih => exact Progress.trees ih
  | staticEnemy j _ ih => exact Progress.staticEnemy j ih
  | movingEnemy dt j _ ih => exact Progress.movingEnemy dt j ih
  | winLoss _ ih => exact Progress.winLoss ih
  | paused inp _ ih => exact Progress.paused inp ih

theorem progress_staticLoopBefore (E : Engine) (i : Fin 4) (s : Game) :
    Progress E s (staticLoopBefore E i s) := by
  fin_cases i
  · exact Progress.refl s
  · exact Progress.staticEnemy 0 (Progress.refl s)
  · exact Progress.staticEnemy 1 (Progress.staticEnemy 0 (Progress.refl s))
  · exact Progress.staticEnemy 2 (Progress.staticEnemy 1
      (Progress.staticEnemy 0 (Progress.refl s)))

theorem progress_atStaticTurn (E : Engine) (inp : Input) (i : Fin 4) (s : Game) :
    Progress E s (atStaticTurn E inp i s) :=
  progress_trans (Progress.trees (Progress.physics inp (Progress.capture (Progress.refl s))))
    (progress_staticLoopBefore E i _)

theorem progress_playingFrame (E : Engine) (inp : Input) (s : Game) :
    Progress E s (playingFrame E inp s) := by
  unfold playingFrame playingCase staticLoop movingLoop
  exact Progress.winLoss (Progress.movingEnemy _ 3 (Progress.movingEnemy _ 2
    (Progress.movingEnemy _ 1 (Progress.movingEnemy _ 0
      (Progress.staticEnemy 3 (Progress.staticEnemy 2 (Progress.staticEnemy 1
        (Progress.staticEnemy 0 (Progress.trees (Progress.physics inp
          (Progress.capture (Progress.refl s))))))))))))

theorem progress_playingFrames (E : Engine) (inps : List Input) (s : Game) :
    Progress E s (playingFrames E inps s) := by
  induction inps generalizing s with
  | nil => exact Progress.refl s
  | cons inp rest ih =>
    exact progress_trans (progress_playingFrame E inp s) (ih (playingFrame E inp s))

/-- Along any progress of the loop, a hit static enemy stays hit. -/
theorem progress_static_hit {E : Engine} {s t : Game} (h : Progress E s t) (i : Fin 4)
    (hs : (s.staticEnemies i).carHitStatus = true) :
    (t.staticEnemies i).carHitStatus = true := by
  induction h with
  | refl => exact hs
  | capture _ ih => exact ih
  | physics inp _ ih => rw [(physics_sameEnemies E inp _).2.2.2.1]; exact ih
  | trees _ ih => rw [(treeLoop_sameEnemies E _).2.2.2.1]; exact ih
  | staticEnemy j _ ih => exact staticBody_hit_mono E j i _ ih
  | movingEnemy dt j _ ih => rw [movingBody_staticEnemies]; exact ih
  | winLoss _ ih => rw [(winLoss_sameEnemies _).2.2.2.1]; exact ih
  | paused inp _ ih => rw [(pausedCase_sameEnemies inp _).2.2.2.1]; exact ih


/-! ## Static enemies: first hit and idempotence -/

/-- C1: in the resolution of a static enemy `i` that overlaps the player, with
`carHitStatus == false` and a dot product `d > -3.5`, the score increases by
exactly 10, `carHitStatus` becomes true, cells `[0][0..2]` of the enemy matrix
are multiplied by 0.6 and every other cell is unchanged; and in any state reached
later (without restart) the enemy is still hit and its resolution leaves the
score unchanged. -/
theorem static_first_hit_front (E : Engine) (i : Fin 4) (s : Game)
    (hover : staticOverlap i s = true)
    (hfirst : (s.staticEnemies i).carHitStatus = false)
    (hd : (classify E (s.staticEnemies i).enemyCarModel s).dotProduct > -3.5) :
    (staticBody E i s).score = s.score + 10 ∧
    ((staticBody E i s).staticEnemies i).carHitStatus = true ∧
    ((staticBody E i s).staticEnemies i).enemyCarModel =
      { (s.staticEnemies i).enemyCarModel with
        m00 := (s.staticEnemies i).enemyCarModel.m00 * 0.6,
        m01 := (s.staticEnemies i).enemyCarModel.m01 * 0.6,
        m02 := (s.staticEnemies i).enemyCarModel.m02 * 0.6 } ∧
    ∀ t, Progress E (staticBody E i s) t →
      (t.staticEnemies i).carHitStatus = true ∧ (staticBody E i t).score = t.score := by
  have hd' : (classify E (s.staticEnemies i).enemyCarModel s).dotProduct >
      -sideCollisionChecker := by
    rw [sideCollisionChecker_eq]; norm_num at hd ⊢; exact hd
  have hf' : ((classify E (s.staticEnemies i).enemyCarModel s).staticEnemies i).carHitStatus
      = false := hfirst
  have hbody : staticBody E i s = staticResolve E i s := by
    unfold staticBody; rw [if_pos hover]
  have hhit : ((staticBody E i s).staticEnemies i).carHitStatus = true := by
    rw [hbody, staticResolve_hit]
    unfold staticAward
    rw [if_pos hf', if_pos hd']
    simp
  refine ⟨?_, hhit, ?_, ?_⟩
  · rw [hbody, staticResolve_score]
    unfold staticAward
    rw [if_pos hf', if_pos hd']
    simp [scoreIncreaseForFrontCollision, classify_score]
  · rw [hbody, staticResolve_model]
    unfold staticAward
    rw [if_pos hf', if_pos hd']
    simp [Matrix4.scaleRow0, scaleFactor, classify_staticEnemies]
  · intro t ht
    have h := progress_static_hit ht i hhit
    exact ⟨h, staticBody_score_of_hit E i t h⟩

/-- Witness of C1: the player at (20, 0, 17), facing +Z, overlaps the unhit
static enemy 1 at (20, 0, 20) with dot product -3. -/
theorem static_first_hit_front_witness :
    (staticBody exampleEngine 1 (playerAt 20 0 17)).score = (playerAt 20 0 17).score + 10 :=
  (static_first_hit_front exampleEngine 1 (playerAt 20 0 17)
    (by decide!) (by decide!) (by decide!)).1

/-- C3: once a static enemy has `carHitStatus == true`, the flag stays true in
every state reached without a restart, in particular after every sequence of
playing frames with any inputs and frame times, and whenever the static loop
reaches that enemy its resolution leaves the score unchanged. -/
theorem static_scoring_idempotent (E : Engine) (i : Fin 4) (s : Game)
    (h : (s.staticEnemies i).carHitStatus = true) :
    (∀ t, Progress E s t →
      (t.staticEnemies i).carHitStatus = true ∧ (staticBody E i t).score = t.score) ∧
    (∀ inps : List Input,
      ((playingFrames E inps s).staticEnemies i).carHitStatus = true ∧
      ∀ inp : Input,
        (staticBody E i (atStaticTurn E inp i (playingFrames E inps s))).score =
          (atStaticTurn E inp i (playingFrames E inps s)).score) := by
  have key : ∀ t, Progress E s t →
      (t.staticEnemies i).carHitStatus = true ∧ (staticBody E i t).score = t.score := by
    intro t ht
    have h' := progress_static_hit ht i h
    exact ⟨h', staticBody_score_of_hit E i t h'⟩
  refine ⟨key, ?_⟩
  intro inps
  refine ⟨(key _ (progress_playingFrames E inps s)).1, ?_⟩
  intro inp
  exact (key _ (progress_trans (progress_playingFrames E inps s)
    (progress_atStaticTurn E inp i _))).2

/-- Witness of C3: static enemy 1 after its first hit, then two playing frames
with the accelerate key held. -/
theorem static_scoring_idempotent_witness :
    ((playingFrames exampleEngine [accelerateInput 0.5, accelerateInput 0.5]
      (staticBody exampleEngine 1 (playerAt 20 0 17))).staticEnemies 1).carHitStatus = true :=
  ((static_scoring_idempotent exampleEngine 1 (staticBody exampleEngine 1 (playerAt 20 0 17))
    (by decide!)).2 [accelerateInput 0.5, accelerateInput 0.5]).1

/-! ## Bounce response at the collision sites -/

theorem bounceSpec_bounce (s : Game) : BounceSpec s (bounce s) := by
  unfold BounceSpec
  rw [bounce_forwardVelocity, bounce_backwardVelocity]
  refine ⟨fun h => ?_, fun h => ?_, fun h => ?_⟩
  · rw [if_pos h, if_pos h]; exact ⟨rfl, rfl⟩
  · rw [if_neg (not_lt.mpr h.le), if_neg (not_lt.mpr h.le), if_pos h, if_pos h]
    exact ⟨rfl, rfl⟩
  · rw [if_neg (by rw [h]; exact lt_irrefl 0), if_neg (by rw [h]; exact lt_irrefl 0),
      if_neg (by rw [h]; exact lt_irrefl 0), if_neg (by rw [h]; exact lt_irrefl 0)]
    exact ⟨rfl, rfl⟩

/-- The bounce response depends on the two velocity channels only. -/
theorem bounceSpec_of_velocities {s s' t : Game}
    (hf : s'.forwardVelocity = s.forwardVelocity) (hb : s'.backwardVelocity = s.backwardVelocity)
    (h : BounceSpec s' t) : BounceSpec s t := by
  unfold BounceSpec at h ⊢
  rw [hf, hb] at h
  exact h

theorem movingAward_velocities (i : Fin 4) (s : Game) :
    (movingAward i s).forwardVelocity = s.forwardVelocity ∧
    (movingAward i s).backwardVelocity = s.backwardVelocity := by
  unfold movingAward
  split_ifs <;> exact ⟨rfl, rfl⟩

theorem nudgePrevPos_velocities (s : Game) :
    (nudgePrevPos s).forwardVelocity = s.forwardVelocity ∧
    (nudgePrevPos s).backwardVelocity = s.backwardVelocity := by
  unfold nudgePrevPos
  dsimp only
  split_ifs <;> exact ⟨rfl, rfl⟩

theorem staticResolve_velocities (E : Engine) (i : Fin 4) (s : Game) :
    (staticResolve E i s).forwardVelocity =
      (bounce (staticAward i (classify E (s.staticEnemies i).enemyCarModel s))).forwardVelocity ∧
    (staticResolve E i s).backwardVelocity =
      (bounce (staticAward i (classify E (s.staticEnemies i).enemyCarModel s))).backwardVelocity :=
  ⟨rfl, rfl⟩

theorem movingResolve_velocities (E : Engine) (i : Fin 4) (s : Game) :
    (movingResolve E i s).forwardVelocity =
      (bounce (movingAward i (classify E (s.movingEnemies i).enemyCarModel s))).forwardVelocity ∧
    (movingResolve E i s).backwardVelocity =
      (bounce (movingAward i (classify E (s.movingEnemies i).enemyCarModel s))).backwardVelocity := by
  unfold movingResolve
  dsimp only
  exact ⟨(nudgePrevPos_velocities _).1, (nudgePrevPos_velocities _).2⟩

/-- The bounce response does not depend on the state after it beyond the two
velocity channels. -/
theorem bounceSpec_congr {s t t' : Game}
    (hf : t'.forwardVelocity = t.forwardVelocity) (hb : t'.backwardVelocity = t.backwardVelocity)
    (h : BounceSpec s t) : BounceSpec s t' := by
  unfold BounceSpec at h ⊢
  rw [hf, hb]
  exact h

/-- C9: the bounce response as a function of the combined velocity
`V = forwardVelocity + backwardVelocity` at impact: if `V > 0` then
`forwardVelocity = -V*0.5` and `backwardVelocity = 0`; if `V < 0` then
`backwardVelocity = -V*0.5` and `forwardVelocity = 0`; if `V = 0` both channels
are unchanged.  This holds for the bounce block itself and for the three places
that run it: an overlapping static enemy, an overlapping moving enemy, and a tree
within range. -/
theorem bounce_response (E : Engine) (i : Fin 4) (tree : Vector3) (s : Game) :
    BounceSpec s (bounce s) ∧
    (staticOverlap i s = true → BounceSpec s (staticBody E i s)) ∧
    (movingOverlap i s = true → BounceSpec s (movingCollision E i s)) ∧
    (nearTree s.playerCarModel.pos tree = true → BounceSpec s (treeBody tree s)) := by
  refine ⟨bounceSpec_bounce s, fun h => ?_, fun h => ?_, fun h => ?_⟩
  · have hb : staticBody E i s = staticResolve E i s := by unfold staticBody; rw [if_pos h]
    rw [hb]
    refine bounceSpec_congr (staticResolve_velocities E i s).1 (staticResolve_velocities E i s).2 ?_
    have hv := staticAward_velocities i (classify E (s.staticEnemies i).enemyCarModel s)
    exact bounceSpec_of_velocities hv.1 hv.2 (bounceSpec_bounce _)
  · have hb : movingCollision E i s = movingResolve E i s := by
      unfold movingCollision; rw [if_pos h]
    rw [hb]
    refine bounceSpec_congr (movingResolve_velocities E i s).1 (movingResolve_velocities E i s).2 ?_
    have hv := movingAward_velocities i (classify E (s.movingEnemies i).enemyCarModel s)
    exact bounceSpec_of_velocities hv.1 hv.2 (bounceSpec_bounce _)
  · have hb : treeBody tree s =
        { bounce s with
          playerHealth := (bounce s).playerHealth - 1,
          playerCarModel := (bounce s).playerCarModel.setPosition (bounce s).prevPosX
            (bounce s).prevPosY (bounce s).prevPosZ } := by
      unfold treeBody
      dsimp only
      rw [if_pos h]
    rw [hb]
    exact bounceSpec_congr rfl rfl (bounceSpec_bounce s)

/-- Witness of C9: the player at (20, 0, 17) with forward velocity 12 overlaps
static enemy 1 and leaves with `forwardVelocity = -6`, `backwardVelocity = 0`. -/
theorem bounce_response_witness :
    (staticBody exampleEngine 1 (playerMovingAt 20 0 17 12)).forwardVelocity = -6 ∧
    (staticBody exampleEngine 1 (playerMovingAt 20 0 17 12)).backwardVelocity = 0 := by
  have h := ((bounce_response exampleEngine 1 ⟨0, 0, 50⟩ (playerMovingAt 20 0 17 12)).2.1
    (by decide!)).1 (by decide!)
  refine ⟨h.1.trans (by decide!), h.2⟩


/-! ## The tree loop -/

theorem bounce_other_fields (s : Game) :
    (bounce s).playerHealth = s.playerHealth ∧ (bounce s).prevPosX = s.prevPosX ∧
    (bounce s).prevPosY = s.prevPosY ∧ (bounce s).prevPosZ = s.prevPosZ ∧
    (bounce s).playerCarModel = s.playerCarModel := by
  unfold bounce
  dsimp only
  split_ifs <;> exact ⟨rfl, rfl, rfl, rfl, rfl⟩

theorem treeBody_of_far (tree : Vector3) (s : Game)
    (h : nearTree s.playerCarModel.pos tree = false) : treeBody tree s = s := by
  unfold treeBody
  simp [h]

theorem treeLoopFrom_of_far (trees : List Vector3) (s : Game)
    (h : ∀ a ∈ trees, nearTree s.playerCarModel.pos a = false) : treeLoopFrom trees s = s := by
  induction trees with
  | nil => rfl
  | cons tree rest ih =>
    have h1 : treeBody tree s = s := treeBody_of_far tree s (h tree (List.mem_cons_self _ _))
    have h2 : treeLoopFrom (tree :: rest) s = treeLoopFrom rest (treeBody tree s) := rfl
    rw [h2, h1]
    exact ih (fun a ha => h a (List.mem_cons_of_mem _ ha))

theorem treeLoopFrom_append (pre post : List Vector3) (s : Game) :
    treeLoopFrom (pre ++ post) s = treeLoopFrom post (treeLoopFrom pre s) := by
  unfold treeLoopFrom
  exact List.foldl_append _ _ _ _

theorem treeBody_near_fields (tree : Vector3) (s : Game)
    (h : nearTree s.playerCarModel.pos tree = true) :
    (treeBody tree s).playerHealth = s.playerHealth - 1 ∧
    (treeBody tree s).playerCarModel.pos = ⟨s.prevPosX, s.prevPosY, s.prevPosZ⟩ ∧
    (treeBody tree s).forwardVelocity = (bounce s).forwardVelocity ∧
    (treeBody tree s).backwardVelocity = (bounce s).backwardVelocity := by
  obtain ⟨h1, h2, h3, h4, _⟩ := bounce_other_fields s
  unfold treeBody
  rw [if_pos h]
  dsimp only [PlayerCar.setPosition]
  rw [h1, h2, h3, h4]
  exact ⟨rfl, rfl, rfl, rfl⟩

/-- C10, as amended: when the first tree of the table within
`playerCarRadius + treeRadius = 3` of the player has no later tree of the table
within 3 of the position saved at the start of the frame, and the combined
velocity is `V > 0`, the tree loop leaves health decreased by exactly 1, the
player at the saved position, `forwardVelocity = -V*0.5` and
`backwardVelocity = 0`. -/
theorem tree_collision_single_hit (E : Engine) (s : Game) (pre post : List Vector3)
    (tree : Vector3)
    (htable : E.perimeterTrees = pre ++ tree :: post)
    (hpre : ∀ a ∈ pre, nearTree s.playerCarModel.pos a = false)
    (hnear : nearTree s.playerCarModel.pos tree = true)
    (hpost : ∀ a ∈ post, nearTree ⟨s.prevPosX, s.prevPosY, s.prevPosZ⟩ a = false)
    (hV : 0 < s.forwardVelocity + s.backwardVelocity) :
    (treeLoop E s).playerHealth = s.playerHealth - 1 ∧
    (treeLoop E s).playerCarModel.pos = ⟨s.prevPosX, s.prevPosY, s.prevPosZ⟩ ∧
    (treeLoop E s).forwardVelocity = -(s.forwardVelocity + s.backwardVelocity) * 0.5 ∧
    (treeLoop E s).backwardVelocity = 0 := by
  obtain ⟨h1, h2, h3, h4⟩ := treeBody_near_fields tree s hnear
  have hloop : treeLoop E s = treeBody tree s := by
    unfold treeLoop
    rw [htable, treeLoopFrom_append, treeLoopFrom_of_far pre s hpre]
    have hc : treeLoopFrom (tree :: post) s = treeLoopFrom post (treeBody tree s) := rfl
    rw [hc]
    exact treeLoopFrom_of_far post _ (by rw [h2]; exact hpost)
  rw [hloop, h1, h2, h3, h4, bounce_forwardVelocity, bounce_backwardVelocity, if_pos hV,
    if_pos hV]
  exact ⟨rfl, rfl, rfl, rfl⟩

/-- Witness of C10 as amended: the player has moved from (0, 0, 46.5) to
(0, 0, 47.5) at velocity 10; tree 0 at (0, 0, 50) is the first and only tree in
range and no tree is within 3 of the saved position. -/
theorem tree_collision_single_hit_witness :
    (treeLoop exampleEngine (atTreeLoop 0 0 47.5 0 0 46.5 10)).playerHealth = 99 ∧
    (treeLoop exampleEngine (atTreeLoop 0 0 47.5 0 0 46.5 10)).forwardVelocity = -5 := by
  have h := tree_collision_single_hit exampleEngine (atTreeLoop 0 0 47.5 0 0 46.5 10) []
    (perimeterTreesTable.drop 1) ⟨0, 0, 50⟩ (by decide!) (by decide!) (by decide!)
    (by decide!) (by decide!)
  exact ⟨h.1.trans (by decide!), h.2.2.1.trans (by decide!)⟩

/-- Counterexample to C10 as stated, in a frame of a run from the initial state:
after `runToTrees` the player stands at rest at (34.43518, 0, 32.00098), within 3
of tree 21 (at 2.9930) and of no other tree.  In the next playing frame, 0.1875 s
with the accelerate key held, it moves 1.0546875 forward at combined velocity
5.625 and is within 3 of tree 20 (at 2.4848).  Tree 20 is hit and the player
rolled back; tree 21 is then within 3 of the rolled-back position and is hit
too: health drops by 2, from 100 to 98, and `forwardVelocity` ends at 0, not at
-2.8125.  The velocities 5.625, -2.8125 and 0 are the single-precision values
as well. -/
theorem tree_collision_double_hit :
    (frames exampleEngine runToTrees (initialGame 0)).gameState = GameState.GAME_PLAYING ∧
    (frames exampleEngine runToTrees (initialGame 0)).forwardVelocity = 0 ∧
    (frames exampleEngine runToTrees (initialGame 0)).backwardVelocity = 0 ∧
    (frames exampleEngine runToTrees (initialGame 0)).playerHealth = 100 ∧
    (physics exampleEngine (accelerateInput 0.1875)
      (capturePrevPos (frames exampleEngine runToTrees (initialGame 0)))).forwardVelocity +
    (physics exampleEngine (accelerateInput 0.1875)
      (capturePrevPos (frames exampleEngine runToTrees (initialGame 0)))).backwardVelocity
      = 5.625 ∧
    (⟨35.3413, 0, 35.3694⟩ : Vector3) ∈ exampleEngine.perimeterTrees ∧
    nearTree (physics exampleEngine (accelerateInput 0.1875)
      (capturePrevPos (frames exampleEngine runToTrees (initialGame 0)))).playerCarModel.pos
      ⟨35.3413, 0, 35.3694⟩ = true ∧
    (treeLoop exampleEngine (physics exampleEngine (accelerateInput 0.1875)
      (capturePrevPos (frames exampleEngine runToTrees (initialGame 0))))).playerHealth =
        (frames exampleEngine runToTrees (initialGame 0)).playerHealth - 2 ∧
    (treeLoop exampleEngine (physics exampleEngine (accelerateInput 0.1875)
      (capturePrevPos (frames exampleEngine runToTrees (initialGame 0))))).forwardVelocity
      = 0 ∧
    (frame exampleEngine (accelerateInput 0.1875)
      (frames exampleEngine runToTrees (initialGame 0))).playerHealth = 98 := by
  decide!


/-! ## Moving enemies: patrol, marker and recovery keep what they should -/

/-- The parts of a state that scoring and recovery read, apart from the status
flags of the moving enemies: score, shared dot product and timers. -/
theorem patrol_scoring (frameTime : ℚ) (i : Fin 4) (s : Game) :
    (patrol frameTime i s).score = s.score ∧
    (patrol frameTime i s).dotProduct = s.dotProduct ∧
    (patrol frameTime i s).resetCarTimes = s.resetCarTimes := by
  unfold patrol
  split_ifs <;> exact ⟨rfl, rfl, rfl⟩

theorem patrol_flags (frameTime : ℚ) (i k : Fin 4) (s : Game) :
    ((patrol frameTime i s).movingEnemies k).carMovementStatus =
      (s.movingEnemies k).carMovementStatus ∧
    ((patrol frameTime i s).movingEnemies k).carHitStatus =
      (s.movingEnemies k).carHitStatus := by
  unfold patrol
  split_ifs
  · by_cases hk : k = i
    · subst hk; simp
    · simp [Function.update_noteq hk]
  · by_cases hk : k = i
    · subst hk; simp
    · simp [Function.update_noteq hk]
  · exact ⟨rfl, rfl⟩

theorem sphereBob_scoring (frameTime : ℚ) (i : Fin 4) (s : Game) :
    (sphereBob frameTime i s).score = s.score ∧
    (sphereBob frameTime i s).dotProduct = s.dotProduct ∧
    (sphereBob frameTime i s).resetCarTimes = s.resetCarTimes := by
  unfold sphereBob
  dsimp only
  split_ifs <;> exact ⟨rfl, rfl, rfl⟩

theorem sphereBob_flags (frameTime : ℚ) (i k : Fin 4) (s : Game) :
    ((sphereBob frameTime i s).movingEnemies k).carMovementStatus =
      (s.movingEnemies k).carMovementStatus ∧
    ((sphereBob frameTime i s).movingEnemies k).carHitStatus =
      (s.movingEnemies k).carHitStatus := by
  unfold sphereBob
  dsimp only
  split_ifs
  · by_cases hk : k = i
    · subst hk; simp
    · simp [Function.update_noteq hk]
  · exact ⟨rfl, rfl⟩
  · by_cases hk : k = i
    · subst hk; simp
    · simp [Function.update_noteq hk]
  · exact ⟨rfl, rfl⟩
  · exact ⟨rfl, rfl⟩

theorem reverseScore_fields (s : Game) :
    (reverseScore s).dotProduct = s.dotProduct ∧
    (reverseScore s).resetCarTimes = s.resetCarTimes ∧
    (reverseScore s).movingEnemies = s.movingEnemies := by
  unfold reverseScore
  split_ifs <;> exact ⟨rfl, rfl, rfl⟩

/-- The score reversal depends on the score and the shared dot product only. -/
theorem reverseScore_score_congr {s t : Game} (h1 : t.score = s.score)
    (h2 : t.dotProduct = s.dotProduct) : (reverseScore t).score = (reverseScore s).score := by
  unfold reverseScore
  rw [h2]
  split_ifs <;> simp [h1]

/-- With movement enabled the recovery block does nothing. -/
theorem recovery_of_enabled (frameTime : ℚ) (i : Fin 4) (s : Game)
    (h : (s.movingEnemies i).carMovementStatus = true) : recovery frameTime i s = s := by
  unfold recovery
  simp [h]

theorem recovery_dotProduct (frameTime : ℚ) (i : Fin 4) (s : Game) :
    (recovery frameTime i s).dotProduct = s.dotProduct := by
  unfold recovery
  dsimp only
  split_ifs <;> first | rfl | (rw [(reverseScore_fields _).1])

/-- The timer of a disabled enemy grows by the frame time. -/
theorem recovery_timer (frameTime : ℚ) (i : Fin 4) (s : Game)
    (h : (s.movingEnemies i).carMovementStatus = false) :
    (recovery frameTime i s).resetCarTimes i = s.resetCarTimes i + frameTime := by
  unfold recovery
  rw [if_pos h]
  dsimp only
  split_ifs <;> simp [(reverseScore_fields _).2.1]

/-- The timers of the other enemies are not touched. -/
theorem recovery_timer_other (frameTime : ℚ) (i k : Fin 4) (s : Game) (hk : k ≠ i) :
    (recovery frameTime i s).resetCarTimes k = s.resetCarTimes k := by
  unfold recovery
  dsimp only
  split_ifs <;> simp [(reverseScore_fields _).2.1, Function.update_noteq hk]

/-- The other enemies are not touched. -/
theorem recovery_enemy_other (frameTime : ℚ) (i k : Fin 4) (s : Game) (hk : k ≠ i) :
    (recovery frameTime i s).movingEnemies k = s.movingEnemies k := by
  unfold recovery
  dsimp only
  split_ifs <;> simp [(reverseScore_fields _).2.2, Function.update_noteq hk]

/-- Below the second threshold a disabled enemy stays disabled and the score
stays. -/
theorem recovery_below (frameTime : ℚ) (i : Fin 4) (s : Game)
    (h : (s.movingEnemies i).carMovementStatus = false)
    (ht : s.resetCarTimes i + frameTime < 15) :
    (recovery frameTime i s).score = s.score ∧
    ((recovery frameTime i s).movingEnemies i).carMovementStatus = false ∧
    ((recovery frameTime i s).movingEnemies i).carHitStatus =
      (s.movingEnemies i).carHitStatus := by
  unfold recovery
  rw [if_pos h]
  dsimp only
  have h2 : ¬ (s.resetCarTimes i + frameTime ≥ resetCarTimeThreshold2) := by
    rw [resetCarTimeThreshold2_eq]; exact not_le.mpr ht
  split_ifs with h1 h3 h3
  · exact absurd (by simpa using h3) h2
  · simp [h]
  · exact absurd (by simpa using h3) h2
  · simp [h]

/-- At the second threshold a disabled enemy is re-enabled, its marker moves
again, its hit flag is cleared, and the score is reversed by the shared dot
product. -/
theorem recovery_reached (frameTime : ℚ) (i : Fin 4) (s : Game)
    (h : (s.movingEnemies i).carMovementStatus = false)
    (ht : 15 ≤ s.resetCarTimes i + frameTime) :
    (recovery frameTime i s).score = (reverseScore s).score ∧
    ((recovery frameTime i s).movingEnemies i).carMovementStatus = true ∧
    ((recovery frameTime i s).movingEnemies i).sphereMovementStatus = true ∧
    ((recovery frameTime i s).movingEnemies i).carHitStatus = false := by
  unfold recovery
  rw [if_pos h]
  dsimp only
  have h2 : s.resetCarTimes i + frameTime ≥ resetCarTimeThreshold2 := by
    rw [resetCarTimeThreshold2_eq]; exact ht
  split_ifs with h1 h3 h3
  · refine ⟨reverseScore_score_congr rfl rfl, ?_⟩
    rw [(reverseScore_fields _).2.2]
    simp
  · exact absurd (by simpa using h2) h3
  · refine ⟨reverseScore_score_congr rfl rfl, ?_⟩
    rw [(reverseScore_fields _).2.2]
    simp
  · exact absurd (by simpa using h2) h3


/-! ## Moving enemies: the first-hit guard -/

/-- With the hit flag set, the guard of a moving enemy changes nothing. -/
theorem movingAward_of_hit (i : Fin 4) (s : Game)
    (h : (s.movingEnemies i).carHitStatus = true) : movingAward i s = s := by
  unfold movingAward
  simp [h]

theorem movingAward_dotProduct (i : Fin 4) (s : Game) :
    (movingAward i s).dotProduct = s.dotProduct := by
  unfold movingAward
  split_ifs <;> rfl

/-- A first hit of a moving enemy with a dot product other than the threshold:
the score grows by 15 below the threshold and by 10 above it, the enemy is marked
hit and disabled, and its timer is set to 0. -/
theorem movingAward_first_hit (i : Fin 4) (s : Game)
    (hfirst : (s.movingEnemies i).carHitStatus = false)
    (hd : s.dotProduct ≠ -sideCollisionChecker) :
    (movingAward i s).score =
      s.score + (if s.dotProduct < -sideCollisionChecker then 15 else 10) ∧
    ((movingAward i s).movingEnemies i).carHitStatus = true ∧
    ((movingAward i s).movingEnemies i).carMovementStatus = false ∧
    (movingAward i s).resetCarTimes i = 0 ∧
    (∀ k, k ≠ i → (movingAward i s).movingEnemies k = s.movingEnemies k) := by
  unfold movingAward
  rw [if_pos hfirst]
  by_cases h1 : s.dotProduct < -sideCollisionChecker
  · rw [if_pos h1, if_pos h1]
    refine ⟨rfl, by simp, by simp, by simp [resetCarTimeDefault], ?_⟩
    intro k hk
    simp [Function.update_noteq hk]
  · have h2 : s.dotProduct > -sideCollisionChecker :=
      lt_of_le_of_ne (not_lt.mp h1) (Ne.symm hd)
    rw [if_neg h1, if_pos h2, if_neg h1]
    refine ⟨rfl, by simp, by simp, by simp [resetCarTimeDefault], ?_⟩
    intro k hk
    simp [Function.update_noteq hk]

/-- After the guard, a resolved moving overlap changes neither score, timers nor
dot product, and of the moving enemies only the marker skin of enemy `i`. -/
theorem movingResolve_fields (E : Engine) (i : Fin 4) (s : Game) :
    (movingResolve E i s).score =
      (movingAward i (classify E (s.movingEnemies i).enemyCarModel s)).score ∧
    (movingResolve E i s).dotProduct =
      (classify E (s.movingEnemies i).enemyCarModel s).dotProduct ∧
    (movingResolve E i s).resetCarTimes =
      (movingAward i (classify E (s.movingEnemies i).enemyCarModel s)).resetCarTimes ∧
    (∀ k, ((movingResolve E i s).movingEnemies k).carHitStatus =
        ((movingAward i (classify E (s.movingEnemies i).enemyCarModel s)).movingEnemies
          k).carHitStatus ∧
      ((movingResolve E i s).movingEnemies k).carMovementStatus =
        ((movingAward i (classify E (s.movingEnemies i).enemyCarModel s)).movingEnemies
          k).carMovementStatus) := by
  obtain ⟨n1, n2, n3, _, n5, _⟩ := nudgePrevPos_sameEnemies
    (bounce (movingAward i (classify E (s.movingEnemies i).enemyCarModel s)))
  obtain ⟨b1, b2, b3, _, b5, _⟩ := bounce_sameEnemies
    (movingAward i (classify E (s.movingEnemies i).enemyCarModel s))
  unfold movingResolve
  dsimp only
  refine ⟨n1.trans b1, ?_, n3.trans b3, ?_⟩
  · rw [n2, b2, movingAward_dotProduct]
  · intro k
    rw [n5, b5]
    by_cases hk : k = i
    · subst hk; simp
    · simp [Function.update_noteq hk]

/-- C2: in the resolution of a moving enemy `i` that overlaps the player, with
`carHitStatus == false` and a dot product `d < -3.5`, the score increases by
exactly 15, the enemy is marked hit, its `carMovementStatus` becomes false and
its recovery timer `resetCarTimes[i]` is set to 0; the recovery block of the same
iteration then counts the frame time from that 0. -/
theorem moving_first_hit_side (E : Engine) (i : Fin 4) (s : Game)
    (hover : movingOverlap i s = true)
    (hfirst : (s.movingEnemies i).carHitStatus = false)
    (hd : (classify E (s.movingEnemies i).enemyCarModel s).dotProduct < -3.5) :
    (movingCollision E i s).score = s.score + 15 ∧
    ((movingCollision E i s).movingEnemies i).carHitStatus = true ∧
    ((movingCollision E i s).movingEnemies i).carMovementStatus = false ∧
    (movingCollision E i s).resetCarTimes i = 0 ∧
    ∀ frameTime : ℚ,
      (recovery frameTime i (sphereBob frameTime i (movingCollision E i s))).resetCarTimes i =
        0 + frameTime := by
  have hd' : (classify E (s.movingEnemies i).enemyCarModel s).dotProduct <
      -sideCollisionChecker := by
    rw [sideCollisionChecker_eq]; norm_num at hd ⊢; exact hd
  have hbody : movingCollision E i s = movingResolve E i s := by
    unfold movingCollision; rw [if_pos hover]
  obtain ⟨r1, _, r3, r4⟩ := movingResolve_fields E i s
  obtain ⟨a1, a2, a3, a4, _⟩ := movingAward_first_hit i
    (classify E (s.movingEnemies i).enemyCarModel s) hfirst (ne_of_lt hd')
  rw [if_pos hd'] at a1
  have hmov : ((movingCollision E i s).movingEnemies i).carMovementStatus = false := by
    rw [hbody, (r4 i).2, a3]
  have htimer : (movingCollision E i s).resetCarTimes i = 0 := by
    rw [hbody, r3, a4]
  refine ⟨?_, ?_, hmov, htimer, ?_⟩
  · rw [hbody, r1, a1, classify_score]
  · rw [hbody, (r4 i).1, a2]
  · intro frameTime
    rw [recovery_timer frameTime i _ (by rw [(sphereBob_flags frameTime i i _).1]; exact hmov),
      (sphereBob_scoring frameTime i _).2.2, htimer]

/-- Witness of C2: the player at (-30, 0, 11), facing +Z, overlaps the unhit
moving enemy 0 at (-30, 0, 15) with dot product -4. -/
theorem moving_first_hit_side_witness :
    (movingCollision exampleEngine 0 (playerAt (-30) 0 11)).score =
      (playerAt (-30) 0 11).score + 15 :=
  (moving_first_hit_side exampleEngine 0 (playerAt (-30) 0 11)
    (by decide!) (by decide!) (by decide!)).1


/-! ## Scores of a first hit, static and moving -/

/-- A first hit of a static enemy with a dot product other than the threshold:
the score grows by 10 above the threshold and by 15 below it. -/
theorem staticAward_first_hit_score (i : Fin 4) (s : Game)
    (hfirst : (s.staticEnemies i).carHitStatus = false)
    (hd : s.dotProduct ≠ -sideCollisionChecker) :
    (staticAward i s).score =
      s.score + (if s.dotProduct < -sideCollisionChecker then 15 else 10) := by
  unfold staticAward
  rw [if_pos hfirst]
  by_cases h1 : s.dotProduct > -sideCollisionChecker
  · rw [if_pos h1, if_neg (not_lt.mpr (le_of_lt h1))]
    rfl
  · have h2 : s.dotProduct < -sideCollisionChecker := lt_of_le_of_ne (not_lt.mp h1) hd
    rw [if_neg h1, if_pos h2, if_pos h2]
    rfl

/-- C6, as amended: the static branch and the moving branch map the dot-product
classification of a first hit to the same score values: with `d < -3.5` a static
enemy awards +15 and a moving enemy awards +15, with `d > -3.5` both award
+10. -/
theorem first_hit_scores_agree (E : Engine) (i j : Fin 4) (s t : Game)
    (hso : staticOverlap i s = true) (hsf : (s.staticEnemies i).carHitStatus = false)
    (hmo : movingOverlap j t = true) (hmf : (t.movingEnemies j).carHitStatus = false) :
    ((classify E (s.staticEnemies i).enemyCarModel s).dotProduct < -3.5 →
      (staticBody E i s).score = s.score + 15) ∧
    ((classify E (s.staticEnemies i).enemyCarModel s).dotProduct > -3.5 →
      (staticBody E i s).score = s.score + 10) ∧
    ((classify E (t.movingEnemies j).enemyCarModel t).dotProduct < -3.5 →
      (movingCollision E j t).score = t.score + 15) ∧
    ((classify E (t.movingEnemies j).enemyCarModel t).dotProduct > -3.5 →
      (movingCollision E j t).score = t.score + 10) := by
  have hT : -sideCollisionChecker = (-3.5 : ℚ) := by rw [sideCollisionChecker_eq]; norm_num
  have hsb : (staticBody E i s).score =
      (staticAward i (classify E (s.staticEnemies i).enemyCarModel s)).score := by
    unfold staticBody; rw [if_pos hso, staticResolve_score]
  have hmb : (movingCollision E j t).score =
      (movingAward j (classify E (t.movingEnemies j).enemyCarModel t)).score := by
    unfold movingCollision; rw [if_pos hmo, (movingResolve_fields E j t).1]
  have hs := staticAward_first_hit_score i (classify E (s.staticEnemies i).enemyCarModel s) hsf
  have hm := movingAward_first_hit j (classify E (t.movingEnemies j).enemyCarModel t) hmf
  rw [hT] at hs hm
  refine ⟨fun h => ?_, fun h => ?_, fun h => ?_, fun h => ?_⟩
  · rw [hsb, hs (ne_of_lt h), if_pos h, classify_score]
  · rw [hsb, hs (ne_of_gt h), if_neg (not_lt.mpr (le_of_lt h)), classify_score]
  · rw [hmb, (hm (ne_of_lt h)).1, if_pos h, classify_score]
  · rw [hmb, (hm (ne_of_gt h)).1, if_neg (not_lt.mpr (le_of_lt h)), classify_score]

/-- Witness of C6 as amended: a first hit with dot product -3.9 on static enemy
1 from (20, 0, 16.1) and a first hit with dot product -4 on moving enemy 0 from
(-30, 0, 11) both award 15. -/
theorem first_hit_scores_agree_witness :
    (staticBody exampleEngine 1 (playerAt 20 0 16.1)).score = (playerAt 20 0 16.1).score + 15 ∧
    (movingCollision exampleEngine 0 (playerAt (-30) 0 11)).score =
      (playerAt (-30) 0 11).score + 15 :=
  have h := first_hit_scores_agree exampleEngine 1 0 (playerAt 20 0 16.1) (playerAt (-30) 0 11)
    (by decide!) (by decide!) (by decide!) (by decide!)
  ⟨h.1 (by decide!), h.2.2.1 (by decide!)⟩

/-- Counterexample to C6 as stated, in a frame of a run from the initial state:
after `runToStaticEnemy` the player stands at (19.5, 0, -7.98768).  In the next
playing frame, a quarter turn to the left of 0.9 s, it drives to z = 16.31232 and
overlaps the unhit static enemy 1 at (20, 0, 20) with dot product
-3.68768 < -3.5; the static branch awards 15, the same as the moving branch, not
10. -/
theorem static_first_hit_below_threshold_scores_15 :
    (frames exampleEngine runToStaticEnemy (initialGame 0)).playerCarModel.pos
      = ⟨19.5, 0, -7.98768⟩ ∧
    (atStaticTurn exampleEngine (turnLeftInput 0.9) 1
      (frames exampleEngine runToStaticEnemy (initialGame 0))).playerCarModel.pos
      = ⟨19.5, 0, 16.31232⟩ ∧
    staticOverlap 1 (atStaticTurn exampleEngine (turnLeftInput 0.9) 1
      (frames exampleEngine runToStaticEnemy (initialGame 0))) = true ∧
    ((atStaticTurn exampleEngine (turnLeftInput 0.9) 1
      (frames exampleEngine runToStaticEnemy (initialGame 0))).staticEnemies 1).carHitStatus
      = false ∧
    (staticBody exampleEngine 1 (atStaticTurn exampleEngine (turnLeftInput 0.9) 1
      (frames exampleEngine runToStaticEnemy (initialGame 0)))).dotProduct = -3.68768 ∧
    (staticBody exampleEngine 1 (atStaticTurn exampleEngine (turnLeftInput 0.9) 1
      (frames exampleEngine runToStaticEnemy (initialGame 0)))).score =
      (atStaticTurn exampleEngine (turnLeftInput 0.9) 1
        (frames exampleEngine runToStaticEnemy (initialGame 0))).score + 15 := by
  decide!


/-! ## Score reversal at full recovery -/

/-- C4, the code at a failing input: in the run `runToHit ++ runToRecovery` from
the initial state, moving enemy 0 is hit with dot product -3.837 and 15 is
awarded; the player then touches the disabled enemy again, which overwrites the
shared `dotProduct` with -3.11; no other score change occurs, and when the timer
of enemy 0 reaches 15 s the enemy is re-enabled with its hit flag cleared and the
score is reduced by 10, not by the 15 that was awarded. -/
theorem recovery_reverses_by_last_dot_product :
    (frames exampleEngine runToHit (initialGame 0)).score = 15 ∧
    (frames exampleEngine runToHit (initialGame 0)).dotProduct = -3.837 ∧
    ((frames exampleEngine runToHit (initialGame 0)).movingEnemies 0).carMovementStatus = false ∧
    (frames exampleEngine (runToHit ++ runToRecovery.take 1) (initialGame 0)).dotProduct
      = -3.11 ∧
    (frames exampleEngine (runToHit ++ runToRecovery.take 15) (initialGame 0)).score = 15 ∧
    ((frames exampleEngine (runToHit ++ runToRecovery.take 15) (initialGame 0)).movingEnemies
      0).carMovementStatus = false ∧
    (frames exampleEngine (runToHit ++ runToRecovery.take 15) (initialGame 0)).resetCarTimes 0
      = 14.895 ∧
    (frames exampleEngine (runToHit ++ runToRecovery) (initialGame 0)).resetCarTimes 0
      = 15.895 ∧
    ((frames exampleEngine (runToHit ++ runToRecovery) (initialGame 0)).movingEnemies
      0).carMovementStatus = true ∧
    ((frames exampleEngine (runToHit ++ runToRecovery) (initialGame 0)).movingEnemies
      0).carHitStatus = false ∧
    (frames exampleEngine (runToHit ++ runToRecovery) (initialGame 0)).score = 5 := by
  decide!


/-! ## Frames without enemy overlap -/

/-- Without overlap the static loop changes nothing. -/
theorem staticLoop_of_noOverlap (E : Engine) (s : Game)
    (h : staticLoopOverlap E s = false) : staticLoop E s = s := by
  unfold staticLoopOverlap at h
  simp only [Bool.or_eq_false_iff] at h
  obtain ⟨⟨⟨h0, h1⟩, h2⟩, h3⟩ := h
  have e0 : staticBody E 0 s = s := by unfold staticBody; simp [h0]
  rw [e0] at h1 h2 h3
  have e1 : staticBody E 1 s = s := by unfold staticBody; simp [h1]
  rw [e1] at h2 h3
  have e2 : staticBody E 2 s = s := by unfold staticBody; simp [h2]
  rw [e2] at h3
  have e3 : staticBody E 3 s = s := by unfold staticBody; simp [h3]
  unfold staticLoop
  rw [e0, e1, e2, e3]

/-- Without overlap the body of the moving loop is patrol, marker and recovery. -/
theorem movingBody_of_noOverlap (E : Engine) (frameTime : ℚ) (i : Fin 4) (s : Game)
    (h : movingOverlap i (patrol frameTime i s) = false) :
    movingBody E frameTime i s =
      recovery frameTime i (sphereBob frameTime i (patrol frameTime i s)) := by
  unfold movingBody movingCollision
  simp [h]

/-- The score reversal subtracts the award that belongs to the shared dot
product, when that is not the threshold. -/
theorem reverseScore_score (s : Game) (hd : s.dotProduct ≠ -sideCollisionChecker) :
    (reverseScore s).score = s.score - awardFor s.dotProduct := by
  unfold reverseScore awardFor
  by_cases h1 : s.dotProduct < -sideCollisionChecker
  · rw [if_pos h1, if_pos h1]
  · have h2 : s.dotProduct > -sideCollisionChecker :=
      lt_of_le_of_ne (not_lt.mp h1) (Ne.symm hd)
    rw [if_neg h1, if_pos h2, if_neg h1]


/-! ## One recovery episode -/

theorem recovering_of_sameEnemies {i : Fin 4} {S : ℤ} {d T : ℚ} {s t : Game}
    (h : SameEnemies s t) (hs : Recovering i S d T s) : Recovering i S d T t := by
  obtain ⟨a1, a2, a3, _, a5, _⟩ := h
  unfold Recovering at hs ⊢
  rw [a1, a2, a3, a5]
  exact hs

theorem recovered_of_sameEnemies {i : Fin 4} {S : ℤ} {d : ℚ} {s t : Game}
    (h : SameEnemies s t) (hs : Recovered i S d s) : Recovered i S d t := by
  obtain ⟨a1, a2, _, _, a5, _⟩ := h
  unfold Recovered at hs ⊢
  rw [a1, a2, a5]
  exact hs

/-- The moving-loop body of an enabled enemy without overlap: score, dot product
and timers stay, and so do the status flags of every moving enemy. -/
theorem movingBody_enabled (E : Engine) (frameTime : ℚ) (j : Fin 4) (s : Game)
    (hno : movingOverlap j (patrol frameTime j s) = false)
    (hen : (s.movingEnemies j).carMovementStatus = true) :
    (movingBody E frameTime j s).score = s.score ∧
    (movingBody E frameTime j s).dotProduct = s.dotProduct ∧
    (movingBody E frameTime j s).resetCarTimes = s.resetCarTimes ∧
    ∀ k, ((movingBody E frameTime j s).movingEnemies k).carMovementStatus =
        (s.movingEnemies k).carMovementStatus ∧
      ((movingBody E frameTime j s).movingEnemies k).carHitStatus =
        (s.movingEnemies k).carHitStatus := by
  obtain ⟨p1, p2, p3⟩ := patrol_scoring frameTime j s
  obtain ⟨b1, b2, b3⟩ := sphereBob_scoring frameTime j (patrol frameTime j s)
  have hen' : ((sphereBob frameTime j (patrol frameTime j s)).movingEnemies j).carMovementStatus
      = true := by
    rw [(sphereBob_flags frameTime j j _).1, (patrol_flags frameTime j j s).1]; exact hen
  rw [movingBody_of_noOverlap E frameTime j s hno, recovery_of_enabled frameTime j _ hen']
  refine ⟨b1.trans p1, b2.trans p2, b3.trans p3, fun k => ⟨?_, ?_⟩⟩
  · rw [(sphereBob_flags frameTime j k _).1, (patrol_flags frameTime j k s).1]
  · rw [(sphereBob_flags frameTime j k _).2, (patrol_flags frameTime j k s).2]

/-- Body of another enemy while enemy `i` recovers. -/
theorem movingBody_recovering_other (E : Engine) (frameTime : ℚ) (i j : Fin 4) (S : ℤ)
    (d T : ℚ) (s : Game) (hj : j ≠ i)
    (hno : movingOverlap j (patrol frameTime j s) = false)
    (hs : Recovering i S d T s) : Recovering i S d T (movingBody E frameTime j s) := by
  obtain ⟨s1, s2, s3, s4, s5⟩ := hs
  obtain ⟨m1, m2, m3, m4⟩ := movingBody_enabled E frameTime j s hno (s5 j hj)
  refine ⟨m1.trans s1, m2.trans s2, ?_, ?_, ?_⟩
  · rw [m3]; exact s3
  · rw [(m4 i).1]; exact s4
  · intro k hk
    rw [(m4 k).1]; exact s5 k hk

/-- Body of any enemy after the recovery of enemy `i`. -/
theorem movingBody_recovered (E : Engine) (frameTime : ℚ) (i j : Fin 4) (S : ℤ)
    (d : ℚ) (s : Game)
    (hno : movingOverlap j (patrol frameTime j s) = false)
    (hs : Recovered i S d s) : Recovered i S d (movingBody E frameTime j s) := by
  obtain ⟨s1, s2, s3, s4⟩ := hs
  obtain ⟨m1, m2, _, m4⟩ := movingBody_enabled E frameTime j s hno (s3 j)
  refine ⟨m1.trans s1, m2.trans s2, ?_, ?_⟩
  · intro k
    rw [(m4 k).1]; exact s3 k
  · rw [(m4 i).2]; exact s4

/-- Body of the recovering enemy below the second threshold. -/
theorem movingBody_recovering_below (E : Engine) (frameTime : ℚ) (i : Fin 4) (S : ℤ)
    (d T : ℚ) (s : Game)
    (hno : movingOverlap i (patrol frameTime i s) = false)
    (ht : T + frameTime < 15)
    (hs : Recovering i S d T s) :
    Recovering i S d (T + frameTime) (movingBody E frameTime i s) := by
  obtain ⟨s1, s2, s3, s4, s5⟩ := hs
  obtain ⟨p1, p2, p3⟩ := patrol_scoring frameTime i s
  obtain ⟨b1, b2, b3⟩ := sphereBob_scoring frameTime i (patrol frameTime i s)
  have hdis : ((sphereBob frameTime i (patrol frameTime i s)).movingEnemies i).carMovementStatus
      = false := by
    rw [(sphereBob_flags frameTime i i _).1, (patrol_flags frameTime i i s).1]; exact s4
  have htimer : (sphereBob frameTime i (patrol frameTime i s)).resetCarTimes i = T := by
    rw [b3, p3]; exact s3
  obtain ⟨r1, r2, _⟩ := recovery_below frameTime i _ hdis (by rw [htimer]; exact ht)
  rw [movingBody_of_noOverlap E frameTime i s hno]
  refine ⟨?_, ?_, ?_, r2, ?_⟩
  · rw [r1, b1, p1]; exact s1
  · rw [recovery_dotProduct, b2, p2]; exact s2
  · rw [recovery_timer frameTime i _ hdis, htimer]
  · intro k hk
    rw [recovery_enemy_other frameTime i k _ hk, (sphereBob_flags frameTime i k _).1,
      (patrol_flags frameTime i k s).1]
    exact s5 k hk

/-- Body of the recovering enemy at the second threshold. -/
theorem movingBody_recovering_reached (E : Engine) (frameTime : ℚ) (i : Fin 4) (S : ℤ)
    (d T : ℚ) (s : Game)
    (hno : movingOverlap i (patrol frameTime i s) = false)
    (ht : 15 ≤ T + frameTime) (hd : d ≠ -sideCollisionChecker)
    (hs : Recovering i S d T s) :
    Recovered i (S - awardFor d) d (movingBody E frameTime i s) := by
  obtain ⟨s1, s2, s3, s4, s5⟩ := hs
  obtain ⟨p1, p2, p3⟩ := patrol_scoring frameTime i s
  obtain ⟨b1, b2, b3⟩ := sphereBob_scoring frameTime i (patrol frameTime i s)
  have hdis : ((sphereBob frameTime i (patrol frameTime i s)).movingEnemies i).carMovementStatus
      = false := by
    rw [(sphereBob_flags frameTime i i _).1, (patrol_flags frameTime i i s).1]; exact s4
  have htimer : (sphereBob frameTime i (patrol frameTime i s)).resetCarTimes i = T := by
    rw [b3, p3]; exact s3
  have hdot : (sphereBob frameTime i (patrol frameTime i s)).dotProduct = d := by
    rw [b2, p2]; exact s2
  obtain ⟨r1, r2, _, r4⟩ := recovery_reached frameTime i _ hdis (by rw [htimer]; exact ht)
  rw [movingBody_of_noOverlap E frameTime i s hno]
  refine ⟨?_, ?_, ?_, r4⟩
  · rw [r1, reverseScore_score _ (by rw [hdot]; exact hd), hdot, b1, p1, s1]
  · rw [recovery_dotProduct]; exact hdot
  · intro k
    by_cases hk : k = i
    · rw [hk]; exact r2
    · rw [recovery_enemy_other frameTime i k _ hk, (sphereBob_flags frameTime i k _).1,
        (patrol_flags frameTime i k s).1]
      exact s5 k hk


theorem movingBody_recoveryStep_at (E : Engine) (frameTime : ℚ) (i : Fin 4) (S : ℤ)
    (d T : ℚ) (s : Game)
    (hno : movingOverlap i (patrol frameTime i s) = false)
    (hd : d ≠ -sideCollisionChecker)
    (hs : Recovering i S d T s) :
    RecoveryStep i S d T frameTime (movingBody E frameTime i s) := by
  by_cases ht : T + frameTime < 15
  · exact Or.inl ⟨ht, movingBody_recovering_below E frameTime i S d T s hno ht hs⟩
  · exact Or.inr ⟨not_lt.mp ht,
      movingBody_recovering_reached E frameTime i S d T s hno (not_lt.mp ht) hd hs⟩

theorem movingBody_recoveryStep_after (E : Engine) (frameTime : ℚ) (i j : Fin 4) (S : ℤ)
    (d T : ℚ) (s : Game) (hj : j ≠ i)
    (hno : movingOverlap j (patrol frameTime j s) = false)
    (hs : RecoveryStep i S d T frameTime s) :
    RecoveryStep i S d T frameTime (movingBody E frameTime j s) := by
  rcases hs with ⟨ht, h⟩ | ⟨ht, h⟩
  · exact Or.inl ⟨ht, movingBody_recovering_other E frameTime i j S d _ s hj hno h⟩
  · exact Or.inr ⟨ht, movingBody_recovered E frameTime i j _ d s hno h⟩

/-- The moving loop without overlap, while enemy `i` recovers. -/
theorem movingLoop_recovering (E : Engine) (frameTime : ℚ) (i : Fin 4) (S : ℤ)
    (d T : ℚ) (s : Game)
    (hno : movingLoopOverlap E frameTime s = false)
    (hd : d ≠ -sideCollisionChecker)
    (hs : Recovering i S d T s) :
    RecoveryStep i S d T frameTime (movingLoop E frameTime s) := by
  unfold movingLoopOverlap at hno
  simp only [Bool.or_eq_false_iff] at hno
  obtain ⟨⟨⟨h0, h1⟩, h2⟩, h3⟩ := hno
  unfold movingLoop
  fin_cases i
  · exact movingBody_recoveryStep_after E frameTime 0 3 S d T _ (by decide) h3
      (movingBody_recoveryStep_after E frameTime 0 2 S d T _ (by decide) h2
        (movingBody_recoveryStep_after E frameTime 0 1 S d T _ (by decide) h1
          (movingBody_recoveryStep_at E frameTime 0 S d T s h0 hd hs)))
  · exact movingBody_recoveryStep_after E frameTime 1 3 S d T _ (by decide) h3
      (movingBody_recoveryStep_after E frameTime 1 2 S d T _ (by decide) h2
        (movingBody_recoveryStep_at E frameTime 1 S d T _ h1 hd
          (movingBody_recovering_other E frameTime 1 0 S d T s (by decide) h0 hs)))
  · exact movingBody_recoveryStep_after E frameTime 2 3 S d T _ (by decide) h3
      (movingBody_recoveryStep_at E frameTime 2 S d T _ h2 hd
        (movingBody_recovering_other E frameTime 2 1 S d T _ (by decide) h1
          (movingBody_recovering_other E frameTime 2 0 S d T s (by decide) h0 hs)))
  · exact movingBody_recoveryStep_at E frameTime 3 S d T _ h3 hd
      (movingBody_recovering_other E frameTime 3 2 S d T _ (by decide) h2
        (movingBody_recovering_other E frameTime 3 1 S d T _ (by decide) h1
          (movingBody_recovering_other E frameTime 3 0 S d T s (by decide) h0 hs)))

/-- The moving loop without overlap, after the recovery of enemy `i`. -/
theorem movingLoop_recovered (E : Engine) (frameTime : ℚ) (i : Fin 4) (S : ℤ)
    (d : ℚ) (s : Game)
    (hno : movingLoopOverlap E frameTime s = false)
    (hs : Recovered i S d s) :
    Recovered i S d (movingLoop E frameTime s) := by
  unfold movingLoopOverlap at hno
  simp only [Bool.or_eq_false_iff] at hno
  obtain ⟨⟨⟨h0, h1⟩, h2⟩, h3⟩ := hno
  unfold movingLoop
  exact movingBody_recovered E frameTime i 3 S d _ h3
    (movingBody_recovered E frameTime i 2 S d _ h2
      (movingBody_recovered E frameTime i 1 S d _ h1
        (movingBody_recovered E frameTime i 0 S d s h0 hs)))

/-- Up to the moving loop, a playing frame without static overlap leaves the
enemies alone. -/
theorem beforeMovingLoop_sameEnemies (E : Engine) (inp : Input) (s : Game)
    (hno : staticLoopOverlap E (treeLoop E (physics E inp (capturePrevPos s))) = false) :
    SameEnemies s (staticLoop E (treeLoop E (physics E inp (capturePrevPos s)))) := by
  rw [staticLoop_of_noOverlap E _ hno]
  exact sameEnemies_trans (capturePrevPos_sameEnemies s)
    (sameEnemies_trans (physics_sameEnemies E inp _) (treeLoop_sameEnemies E _))

/-- A playing frame without overlap, while enemy `i` recovers. -/
theorem playingFrame_recovering (E : Engine) (inp : Input) (i : Fin 4) (S : ℤ)
    (d T : ℚ) (s : Game)
    (hno : frameOverlap E inp s = false)
    (hd : d ≠ -sideCollisionChecker)
    (hs : Recovering i S d T s) :
    RecoveryStep i S d T inp.frameTime (playingFrame E inp s) := by
  unfold frameOverlap at hno
  simp only [Bool.or_eq_false_iff] at hno
  obtain ⟨hn1, hn2⟩ := hno
  have h1 := recovering_of_sameEnemies (beforeMovingLoop_sameEnemies E inp s hn1) hs
  have h2 := movingLoop_recovering E inp.frameTime i S d T _ hn2 hd h1
  unfold playingFrame playingCase
  rcases h2 with ⟨ht, h⟩ | ⟨ht, h⟩
  · exact Or.inl ⟨ht, recovering_of_sameEnemies (winLoss_sameEnemies _) h⟩
  · exact Or.inr ⟨ht, recovered_of_sameEnemies (winLoss_sameEnemies _) h⟩

/-- A playing frame without overlap, after the recovery of enemy `i`. -/
theorem playingFrame_recovered (E : Engine) (inp : Input) (i : Fin 4) (S : ℤ)
    (d : ℚ) (s : Game)
    (hno : frameOverlap E inp s = false)
    (hs : Recovered i S d s) :
    Recovered i S d (playingFrame E inp s) := by
  unfold frameOverlap at hno
  simp only [Bool.or_eq_false_iff] at hno
  obtain ⟨hn1, hn2⟩ := hno
  have h1 := recovered_of_sameEnemies (beforeMovingLoop_sameEnemies E inp s hn1) hs
  have h2 := movingLoop_recovered E inp.frameTime i S d _ hn2 h1
  unfold playingFrame playingCase
  exact recovered_of_sameEnemies (winLoss_sameEnemies _) h2


/-! ## Runs of playing frames without overlap -/

theorem noOverlapRun_cons (E : Engine) (inp : Input) (rest : List Input) (s : Game) :
    noOverlapRun E (inp :: rest) s = true ↔
      frameOverlap E inp s = false ∧ noOverlapRun E rest (playingFrame E inp s) = true := by
  simp [noOverlapRun]

theorem noOverlapRun_take (E : Engine) (inps : List Input) (m : ℕ) (s : Game)
    (h : noOverlapRun E inps s = true) : noOverlapRun E (inps.take m) s = true := by
  induction inps generalizing s m with
  | nil => simpa using h
  | cons inp rest ih =>
    cases m with
    | zero => rfl
    | succ m =>
      obtain ⟨h1, h2⟩ := (noOverlapRun_cons E inp rest s).mp h
      rw [List.take_succ_cons]
      exact (noOverlapRun_cons E inp _ s).mpr ⟨h1, ih m _ h2⟩

theorem playingFrames_recovered (E : Engine) (inps : List Input) (i : Fin 4) (S : ℤ)
    (d : ℚ) (s : Game)
    (hno : noOverlapRun E inps s = true)
    (hs : Recovered i S d s) : Recovered i S d (playingFrames E inps s) := by
  induction inps generalizing s with
  | nil => exact hs
  | cons inp rest ih =>
    obtain ⟨h1, h2⟩ := (noOverlapRun_cons E inp rest s).mp hno
    exact ih _ h2 (playingFrame_recovered E inp i S d s h1 hs)

/-- A run without overlap that lasts until the timer of the recovering enemy `i`
passes 15: the score stays up to some frame, in which the enemy is recovered
and the award for the shared dot product is taken back, and stays from then on. -/
theorem playingFrames_recovering (E : Engine) (inps : List Input) (i : Fin 4) (S : ℤ)
    (d T : ℚ) (s : Game)
    (hno : noOverlapRun E inps s = true)
    (hd : d ≠ -sideCollisionChecker)
    (hT : T < 15) (htime : 15 ≤ T + totalTime inps)
    (hs : Recovering i S d T s) :
    ∃ n, n < inps.length ∧
      (∀ m, m ≤ n → (playingFrames E (inps.take m) s).score = S) ∧
      (∀ m, n < m → m ≤ inps.length →
        Recovered i (S - awardFor d) d (playingFrames E (inps.take m) s)) := by
  induction inps generalizing s T with
  | nil =>
    exfalso
    simp [totalTime] at htime
    linarith
  | cons inp rest ih =>
    obtain ⟨h1, h2⟩ := (noOverlapRun_cons E inp rest s).mp hno
    have hsum : totalTime (inp :: rest) = inp.frameTime + totalTime rest := by
      simp [totalTime]
    rcases playingFrame_recovering E inp i S d T s h1 hd hs with ⟨ht, h⟩ | ⟨ht, h⟩
    · obtain ⟨n, hn, hbefore, hafter⟩ := ih (T + inp.frameTime) _ h2 ht
        (by rw [hsum] at htime; linarith) h
      refine ⟨n + 1, by simpa using hn, ?_, ?_⟩
      · intro m hm
        cases m with
        | zero => exact hs.1
        | succ m =>
          rw [List.take_succ_cons]
          exact hbefore m (by omega)
      · intro m hm1 hm2
        cases m with
        | zero => omega
        | succ m =>
          rw [List.take_succ_cons]
          exact hafter m (by omega) (by simpa using hm2)
    · refine ⟨0, by simp, ?_, ?_⟩
      · intro m hm
        have : m = 0 := by omega
        subst this
        exact hs.1
      · intro m hm1 hm2
        cases m with
        | zero => omega
        | succ m =>
          rw [List.take_succ_cons]
          exact playingFrames_recovered E (rest.take m) i _ d (playingFrame E inp s)
            (noOverlapRun_take E rest m _ h2) h

/-- C5: from the state right after a scoring hit on moving enemy `i` (movement
disabled, timer 0), the other moving enemies being enabled, after every sequence
of playing frames whose frame times sum to at least 15 s and in which no enemy
collision test succeeds, enemy `i` has movement enabled and its hit flag clear;
the score stays at its value after the hit up to one frame, drops in that frame
by the amount the hit awarded (15 or 10), and stays from then on: it is
decremented exactly once, and the net change over hit and recovery is 0.  The
sign of the individual frame times plays no part. -/
theorem recovery_episode_nets_zero (E : Engine) (i : Fin 4) (s0 : Game) (inps : List Input)
    (hover : movingOverlap i s0 = true)
    (hfirst : (s0.movingEnemies i).carHitStatus = false)
    (hscoring : (classify E (s0.movingEnemies i).enemyCarModel s0).dotProduct ≠ -3.5)
    (hothers : ∀ k, k ≠ i → (s0.movingEnemies k).carMovementStatus = true)
    (htime : 15 ≤ totalTime inps)
    (hno : noOverlapRun E inps (movingCollision E i s0) = true) :
    ((movingCollision E i s0).score = s0.score + 15 ∨
      (movingCollision E i s0).score = s0.score + 10) ∧
    ((movingCollision E i s0).movingEnemies i).carMovementStatus = false ∧
    (movingCollision E i s0).resetCarTimes i = 0 ∧
    ((playingFrames E inps (movingCollision E i s0)).movingEnemies i).carMovementStatus = true ∧
    ((playingFrames E inps (movingCollision E i s0)).movingEnemies i).carHitStatus = false ∧
    (playingFrames E inps (movingCollision E i s0)).score = s0.score ∧
    ∃ n, n < inps.length ∧
      (∀ m, m ≤ n →
        (playingFrames E (inps.take m) (movingCollision E i s0)).score =
          (movingCollision E i s0).score) ∧
      (∀ m, n < m → m ≤ inps.length →
        (playingFrames E (inps.take m) (movingCollision E i s0)).score = s0.score) := by
  have hT : (-3.5 : ℚ) = -sideCollisionChecker := by rw [sideCollisionChecker_eq]; norm_num
  rw [hT] at hscoring
  have hbody : movingCollision E i s0 = movingResolve E i s0 := by
    unfold movingCollision; rw [if_pos hover]
  obtain ⟨r1, r2, r3, r4⟩ := movingResolve_fields E i s0
  obtain ⟨a1, _, a3, a4, a5⟩ := movingAward_first_hit i
    (classify E (s0.movingEnemies i).enemyCarModel s0) hfirst hscoring
  have hscore : (movingCollision E i s0).score = s0.score +
      awardFor (classify E (s0.movingEnemies i).enemyCarModel s0).dotProduct := by
    rw [hbody, r1, a1, classify_score]
    unfold awardFor
    split_ifs <;> rfl
  have hmov : ((movingCollision E i s0).movingEnemies i).carMovementStatus = false := by
    rw [hbody, (r4 i).2, a3]
  have htimer : (movingCollision E i s0).resetCarTimes i = 0 := by
    rw [hbody, r3, a4]
  have hrec : Recovering i
      (s0.score + awardFor (classify E (s0.movingEnemies i).enemyCarModel s0).dotProduct)
      (classify E (s0.movingEnemies i).enemyCarModel s0).dotProduct 0
      (movingCollision E i s0) := by
    refine ⟨hscore, by rw [hbody, r2], htimer, hmov, ?_⟩
    intro k hk
    rw [hbody, (r4 k).2, a5 k hk, classify_movingEnemies]
    exact hothers k hk
  obtain ⟨n, hn, hbefore, hafter⟩ := playingFrames_recovering E inps i _ _ 0 _ hno hscoring
    (by norm_num) (by linarith) hrec
  have hlast := hafter inps.length hn le_rfl
  rw [List.take_length] at hlast
  obtain ⟨l1, _, l3, l4⟩ := hlast
  refine ⟨?_, hmov, htimer, l3 i, l4, by rw [l1]; ring, n, hn, ?_, ?_⟩
  · rw [hscore]
    unfold awardFor
    split_ifs
    · exact Or.inl rfl
    · exact Or.inr rfl
  · intro m hm
    rw [hbefore m hm, hscore]
  · intro m hm1 hm2
    rw [(hafter m hm1 hm2).1]
    ring

/-- Witness of C5: moving enemy 0 hit from (-30, 0, 11) with dot product -4, then
two idle playing frames of 8 s with the player at rest near the origin. -/
theorem recovery_episode_nets_zero_witness :
    (playingFrames exampleEngine [idleInput 8, idleInput 8]
      (movingCollision exampleEngine 0 (playerAt (-30) 0 11))).score =
        (playerAt (-30) 0 11).score :=
  (recovery_episode_nets_zero exampleEngine 0 (playerAt (-30) 0 11) [idleInput 8, idleInput 8]
    (by decide!) (by decide!) (by decide!) (by decide) (by decide!)
    (by decide!)).2.2.2.2.2.1


/-! ## Vector functions -/

/-- C20: the dot product is commutative: for all vectors `v` and `w`,
`calculateDotProduct v w = calculateDotProduct w v`. -/
theorem calculateDotProduct_comm (v w : Vector3) :
    calculateDotProduct v w = calculateDotProduct w v := by
  unfold calculateDotProduct
  ring



/-! ## The state machine: pause, game over, win -/

theorem frame_of_playing (E : Engine) (inp : Input) (s : Game)
    (h : s.gameState = GameState.GAME_PLAYING) : frame E inp s = playingFrame E inp s := by
  have h' : (capturePrevPos s).gameState = GameState.GAME_PLAYING := h
  unfold frame playingFrame
  simp only [h']

theorem frame_of_paused (E : Engine) (inp : Input) (s : Game)
    (h : s.gameState = GameState.GAME_PAUSED) :
    frame E inp s = pausedCase inp (capturePrevPos s) := by
  have h' : (capturePrevPos s).gameState = GameState.GAME_PAUSED := h
  unfold frame
  simp only [h']

theorem frame_of_over (E : Engine) (inp : Input) (s : Game)
    (h : s.gameState = GameState.GAME_OVER) :
    frame E inp s = overCase inp (capturePrevPos s) := by
  have h' : (capturePrevPos s).gameState = GameState.GAME_OVER := h
  unfold frame
  simp only [h']

/-- C17: a frame executed in the paused state, with any inputs and any frame
time, leaves score, health, both velocities, the player position and yaw, every
enemy (position, flags, marker speed) and every recovery timer unchanged; the
game state becomes Playing when the pause key is hit and stays Paused otherwise.
Of all loop variables only the game state and the saved position `prevPos`,
which takes the player position, can change. -/
theorem paused_frame_freezes (E : Engine) (inp : Input) (s : Game)
    (h : s.gameState = GameState.GAME_PAUSED) :
    (frame E inp s).score = s.score ∧
    (frame E inp s).playerHealth = s.playerHealth ∧
    (frame E inp s).forwardVelocity = s.forwardVelocity ∧
    (frame E inp s).backwardVelocity = s.backwardVelocity ∧
    (frame E inp s).playerCarModel = s.playerCarModel ∧
    (frame E inp s).staticEnemies = s.staticEnemies ∧
    (frame E inp s).movingEnemies = s.movingEnemies ∧
    (frame E inp s).resetCarTimes = s.resetCarTimes ∧
    (frame E inp s).gameState =
      (if inp.hitP = true then GameState.GAME_PLAYING else GameState.GAME_PAUSED) ∧
    frame E inp s =
      { s with
        prevPosX := s.playerCarModel.pos.x,
        prevPosY := s.playerCarModel.pos.y,
        prevPosZ := s.playerCarModel.pos.z,
        gameState :=
          if inp.hitP = true then GameState.GAME_PLAYING else GameState.GAME_PAUSED } := by
  rw [frame_of_paused E inp s h]
  unfold pausedCase capturePrevPos
  by_cases hp : inp.hitP = true
  · simp [hp]
  · simp only [hp, if_false]
    rw [← h]
    simp

/-- Witness of C17: the state after a playing frame in which the pause key was
hit, and a frame with the accelerate key held in it. -/
theorem paused_frame_freezes_witness :
    (frame exampleEngine (accelerateInput 0.5)
      (frames exampleEngine [pauseInput 0.1] (initialGame 0))).forwardVelocity =
      (frames exampleEngine [pauseInput 0.1] (initialGame 0)).forwardVelocity :=
  (paused_frame_freezes exampleEngine (accelerateInput 0.5)
    (frames exampleEngine [pauseInput 0.1] (initialGame 0)) (by decide!)).2.2.1

/-- C18: a frame executed in the game-over state in which the restart key is
not hit, whatever other keys are hit or held, leaves the game state at Over and
score, health, both velocities and all enemy state unchanged; of all loop
variables only the saved position `prevPos`, which takes the player position,
can change. -/
theorem over_frame_absorbing (E : Engine) (inp : Input) (s : Game)
    (h : s.gameState = GameState.GAME_OVER) (hR : inp.hitR = false) :
    (frame E inp s).gameState = GameState.GAME_OVER ∧
    (frame E inp s).score = s.score ∧
    (frame E inp s).playerHealth = s.playerHealth ∧
    (frame E inp s).forwardVelocity = s.forwardVelocity ∧
    (frame E inp s).backwardVelocity = s.backwardVelocity ∧
    (frame E inp s).staticEnemies = s.staticEnemies ∧
    (frame E inp s).movingEnemies = s.movingEnemies ∧
    (frame E inp s).resetCarTimes = s.resetCarTimes ∧
    frame E inp s = capturePrevPos s := by
  have hf : frame E inp s = capturePrevPos s := by
    rw [frame_of_over E inp s h]
    unfold overCase
    simp [hR]
  rw [hf]
  exact ⟨h, rfl, rfl, rfl, rfl, rfl, rfl, rfl, rfl⟩

/-- Witness of C18: a lost game and a frame with the accelerate key held. -/
theorem over_frame_absorbing_witness :
    (frame exampleEngine (accelerateInput 0.5) lostGame).gameState = GameState.GAME_OVER :=
  (over_frame_absorbing exampleEngine (accelerateInput 0.5) lostGame (by decide!) (by decide!)).1

/-- C14: a playing frame at whose end all four static enemies have
`carHitStatus == true` and all four moving enemies have
`carMovementStatus == false` ends with the game state Over, and the outcome
evaluated in the Over state is the win outcome, in that state and after every
further frame in which the restart key is not hit. -/
theorem win_transition (E : Engine) (inp : Input) (s : Game)
    (h : s.gameState = GameState.GAME_PLAYING)
    (hstatic : ∀ i, ((frame E inp s).staticEnemies i).carHitStatus = true)
    (hmoving : ∀ i, ((frame E inp s).movingEnemies i).carMovementStatus = false) :
    (frame E inp s).gameState = GameState.GAME_OVER ∧
    outcomeIsWin (frame E inp s) = true ∧
    ∀ inp' : Input, inp'.hitR = false →
      (frame E inp' (frame E inp s)).gameState = GameState.GAME_OVER ∧
      outcomeIsWin (frame E inp' (frame E inp s)) = true := by
  rw [frame_of_playing E inp s h] at hstatic hmoving ⊢
  unfold playingFrame playingCase at hstatic hmoving ⊢
  obtain ⟨_, _, _, w4, w5, _⟩ := winLoss_sameEnemies
    (movingLoop E inp.frameTime (staticLoop E (treeLoop E (physics E inp (capturePrevPos s)))))
  rw [w4] at hstatic
  rw [w5] at hmoving
  have key : (winLoss (movingLoop E inp.frameTime (staticLoop E (treeLoop E
      (physics E inp (capturePrevPos s)))))).gameState = GameState.GAME_OVER ∧
      outcomeIsWin (winLoss (movingLoop E inp.frameTime (staticLoop E (treeLoop E
        (physics E inp (capturePrevPos s)))))) = true := by
    unfold winLoss outcomeIsWin
    simp [hstatic, hmoving]
  refine ⟨key.1, key.2, ?_⟩
  intro inp' hR
  have hf : frame E inp' (winLoss (movingLoop E inp.frameTime (staticLoop E (treeLoop E
      (physics E inp (capturePrevPos s)))))) = capturePrevPos (winLoss (movingLoop E
      inp.frameTime (staticLoop E (treeLoop E (physics E inp (capturePrevPos s)))))) := by
    rw [frame_of_over E inp' _ key.1]
    unfold overCase
    simp [hR]
  rw [hf]
  exact ⟨key.1, key.2⟩

/-- Witness of C14: an idle frame from the state with all enemies down. -/
theorem win_transition_witness :
    (frame exampleEngine (idleInput 0.1) allEnemiesDown).gameState = GameState.GAME_OVER :=
  (win_transition exampleEngine (idleInput 0.1) allEnemiesDown (by decide!) (by decide!)
    (by decide!)).1


/-! ## Velocities through the parts of a playing frame -/

theorem capturePrevPos_velocities (s : Game) :
    (capturePrevPos s).forwardVelocity = s.forwardVelocity ∧
    (capturePrevPos s).backwardVelocity = s.backwardVelocity := ⟨rfl, rfl⟩

theorem pauseKey_velocities (inp : Input) (s : Game) :
    (pauseKey inp s).forwardVelocity = s.forwardVelocity ∧
    (pauseKey inp s).backwardVelocity = s.backwardVelocity := by
  unfold pauseKey
  split_ifs <;> exact ⟨rfl, rfl⟩

theorem forwardChannel_velocities (inp : Input) (s : Game) :
    (forwardChannel inp s).forwardVelocity =
      (if inp.heldW = true then
        (if s.forwardVelocity < maxForwardVelocity then
          s.forwardVelocity + acceleration * inp.frameTime else s.forwardVelocity)
      else
        (if s.forwardVelocity > minVelocity then
          s.forwardVelocity - deceleration * inp.frameTime else s.forwardVelocity)) ∧
    (forwardChannel inp s).backwardVelocity = s.backwardVelocity := by
  unfold forwardChannel
  dsimp only
  split_ifs <;> exact ⟨rfl, rfl⟩

theorem backwardChannel_velocities (inp : Input) (s : Game) :
    (backwardChannel inp s).backwardVelocity =
      (if inp.heldS = true then
        (if s.backwardVelocity > maxBackwardVelocity then
          s.backwardVelocity - acceleration * inp.frameTime else s.backwardVelocity)
      else
        (if s.backwardVelocity < minVelocity then
          s.backwardVelocity + deceleration * inp.frameTime else s.backwardVelocity)) ∧
    (backwardChannel inp s).forwardVelocity = s.forwardVelocity := by
  unfold backwardChannel
  dsimp only
  split_ifs <;> exact ⟨rfl, rfl⟩

theorem steeringFlags_velocities (inp : Input) (s : Game) :
    (steeringFlags inp s).forwardVelocity = s.forwardVelocity ∧
    (steeringFlags inp s).backwardVelocity = s.backwardVelocity := by
  unfold steeringFlags
  split_ifs <;> exact ⟨rfl, rfl⟩

theorem bounceRecovery_velocities (inp : Input) (s : Game) :
    (bounceRecovery inp s).forwardVelocity =
      (if s.forwardVelocity < minVelocity then
        s.forwardVelocity + decelerationAfterBounce * inp.frameTime else s.forwardVelocity) ∧
    (bounceRecovery inp s).backwardVelocity =
      (if s.backwardVelocity > minVelocity then
        s.backwardVelocity - decelerationAfterBounce * inp.frameTime
      else s.backwardVelocity) := by
  unfold bounceRecovery
  dsimp only
  split_ifs <;> exact ⟨rfl, rfl⟩

theorem wheelSteer_velocities (s : Game) :
    (wheelSteer s).forwardVelocity = s.forwardVelocity ∧
    (wheelSteer s).backwardVelocity = s.backwardVelocity := by
  unfold wheelSteer
  split_ifs <;> exact ⟨rfl, rfl⟩

/-- The velocities after the input and physics part of a playing frame. -/
theorem physics_velocities (E : Engine) (inp : Input) (s : Game) :
    (physics E inp s).forwardVelocity = forwardStep inp.heldW inp.frameTime s.forwardVelocity ∧
    (physics E inp s).backwardVelocity =
      backwardStep inp.heldS inp.frameTime s.backwardVelocity := by
  unfold physics forwardStep backwardStep
  dsimp only
  rw [(wheelSteer_velocities _).1, (wheelSteer_velocities _).2,
    (bounceRecovery_velocities inp _).1, (bounceRecovery_velocities inp _).2]
  have ht : ∀ u : Game, (translate E inp u).forwardVelocity = u.forwardVelocity ∧
      (translate E inp u).backwardVelocity = u.backwardVelocity := fun u => ⟨rfl, rfl⟩
  rw [(ht _).1, (ht _).2, (steeringFlags_velocities inp _).1, (steeringFlags_velocities inp _).2,
    (backwardChannel_velocities inp _).1, (backwardChannel_velocities inp _).2,
    (forwardChannel_velocities inp _).1, (forwardChannel_velocities inp _).2,
    (pauseKey_velocities inp s).1, (pauseKey_velocities inp s).2]
  exact ⟨rfl, rfl⟩

theorem patrol_velocities (frameTime : ℚ) (i : Fin 4) (s : Game) :
    (patrol frameTime i s).forwardVelocity = s.forwardVelocity ∧
    (patrol frameTime i s).backwardVelocity = s.backwardVelocity := by
  unfold patrol
  split_ifs <;> exact ⟨rfl, rfl⟩

theorem sphereBob_velocities (frameTime : ℚ) (i : Fin 4) (s : Game) :
    (sphereBob frameTime i s).forwardVelocity = s.forwardVelocity ∧
    (sphereBob frameTime i s).backwardVelocity = s.backwardVelocity := by
  unfold sphereBob
  dsimp only
  split_ifs <;> exact ⟨rfl, rfl⟩

theorem reverseScore_velocities (s : Game) :
    (reverseScore s).forwardVelocity = s.forwardVelocity ∧
    (reverseScore s).backwardVelocity = s.backwardVelocity := by
  unfold reverseScore
  split_ifs <;> exact ⟨rfl, rfl⟩

theorem recovery_velocities (frameTime : ℚ) (i : Fin 4) (s : Game) :
    (recovery frameTime i s).forwardVelocity = s.forwardVelocity ∧
    (recovery frameTime i s).backwardVelocity = s.backwardVelocity := by
  unfold recovery
  dsimp only
  split_ifs <;> first | exact ⟨rfl, rfl⟩ | exact reverseScore_velocities _

theorem winLoss_velocities (s : Game) :
    (winLoss s).forwardVelocity = s.forwardVelocity ∧
    (winLoss s).backwardVelocity = s.backwardVelocity := by
  unfold winLoss
  dsimp only
  split_ifs <;> exact ⟨rfl, rfl⟩


/-! ## Bounds on the velocities -/

theorem maxForwardVelocity_eq : maxForwardVelocity = 30 := by norm_num [maxForwardVelocity]

theorem maxBackwardVelocity_eq : maxBackwardVelocity = -30 := by
  norm_num [maxBackwardVelocity]

theorem acceleration_eq : acceleration = 30 := by norm_num [acceleration]

theorem deceleration_eq : deceleration = 30 := by norm_num [deceleration]

theorem decelerationAfterBounce_eq : decelerationAfterBounce = 5 := rfl

theorem forwardStep_bound (heldW : Bool) (frameTime tau f : ℚ)
    (h0 : 0 < frameTime) (h1 : frameTime ≤ tau)
    (hf : -(30 + 30 * tau) ≤ f ∧ f ≤ 30 + 30 * tau) :
    -(30 + 30 * tau) ≤ forwardStep heldW frameTime f ∧
    forwardStep heldW frameTime f ≤ 30 + 30 * tau := by
  obtain ⟨hf1, hf2⟩ := hf
  unfold forwardStep
  simp only [maxForwardVelocity_eq, acceleration_eq, deceleration_eq, minVelocity_eq,
    decelerationAfterBounce_eq, gt_iff_lt]
  split_ifs <;> constructor <;> linarith

theorem backwardStep_bound (heldS : Bool) (frameTime tau b : ℚ)
    (h0 : 0 < frameTime) (h1 : frameTime ≤ tau)
    (hb : -(30 + 30 * tau) ≤ b ∧ b ≤ 30 + 30 * tau) :
    -(30 + 30 * tau) ≤ backwardStep heldS frameTime b ∧
    backwardStep heldS frameTime b ≤ 30 + 30 * tau := by
  obtain ⟨hb1, hb2⟩ := hb
  unfold backwardStep
  simp only [maxBackwardVelocity_eq, acceleration_eq, deceleration_eq, minVelocity_eq,
    decelerationAfterBounce_eq, gt_iff_lt]
  split_ifs <;> constructor <;> linarith

theorem velocityBound_congr {M : ℚ} {s t : Game}
    (h : t.forwardVelocity = s.forwardVelocity ∧ t.backwardVelocity = s.backwardVelocity)
    (hs : VelocityBound M s) : VelocityBound M t := by
  unfold VelocityBound at hs ⊢
  rw [h.1, h.2]
  exact hs

theorem physics_bound (E : Engine) (inp : Input) (tau : ℚ) (s : Game)
    (h0 : 0 < inp.frameTime) (h1 : inp.frameTime ≤ tau)
    (hs : VelocityBound (30 + 30 * tau) s) :
    VelocityBound (30 + 30 * tau) (physics E inp s) := by
  obtain ⟨a1, a2, a3, a4⟩ := hs
  obtain ⟨p1, p2⟩ := physics_velocities E inp s
  obtain ⟨f1, f2⟩ := forwardStep_bound inp.heldW inp.frameTime tau s.forwardVelocity h0 h1
    ⟨a1, a2⟩
  obtain ⟨b1, b2⟩ := backwardStep_bound inp.heldS inp.frameTime tau s.backwardVelocity h0 h1
    ⟨a3, a4⟩
  unfold VelocityBound
  rw [p1, p2]
  exact ⟨f1, f2, b1, b2⟩

theorem bounce_bound (M : ℚ) (s : Game) (hs : VelocityBound M s) :
    VelocityBound M (bounce s) := by
  obtain ⟨a1, a2, a3, a4⟩ := hs
  unfold VelocityBound
  rw [bounce_forwardVelocity, bounce_backwardVelocity]
  split_ifs <;> refine ⟨?_, ?_, ?_, ?_⟩ <;> norm_num <;> linarith

theorem treeBody_velocities (tree : Vector3) (s : Game) :
    (treeBody tree s = s) ∨
    ((treeBody tree s).forwardVelocity = (bounce s).forwardVelocity ∧
     (treeBody tree s).backwardVelocity = (bounce s).backwardVelocity) := by
  unfold treeBody
  split_ifs
  · exact Or.inr ⟨rfl, rfl⟩
  · exact Or.inl rfl

theorem treeLoopFrom_bound (M : ℚ) (trees : List Vector3) (s : Game)
    (hs : VelocityBound M s) : VelocityBound M (treeLoopFrom trees s) := by
  induction trees generalizing s with
  | nil => exact hs
  | cons tree rest ih =>
    have hc : treeLoopFrom (tree :: rest) s = treeLoopFrom rest (treeBody tree s) := rfl
    rw [hc]
    apply ih
    rcases treeBody_velocities tree s with h | h
    · rw [h]; exact hs
    · exact velocityBound_congr h (bounce_bound M s hs)

theorem staticBody_bound (E : Engine) (M : ℚ) (i : Fin 4) (s : Game)
    (hs : VelocityBound M s) : VelocityBound M (staticBody E i s) := by
  unfold staticBody
  split_ifs
  · refine velocityBound_congr (staticResolve_velocities E i s) (bounce_bound M _ ?_)
    exact velocityBound_congr
      (staticAward_velocities i (classify E (s.staticEnemies i).enemyCarModel s)) hs
  · exact hs

theorem movingBody_bound (E : Engine) (M : ℚ) (frameTime : ℚ) (i : Fin 4) (s : Game)
    (hs : VelocityBound M s) : VelocityBound M (movingBody E frameTime i s) := by
  unfold movingBody
  refine velocityBound_congr (recovery_velocities frameTime i _)
    (velocityBound_congr (sphereBob_velocities frameTime i _) ?_)
  have hp : VelocityBound M (patrol frameTime i s) :=
    velocityBound_congr (patrol_velocities frameTime i s) hs
  unfold movingCollision
  split_ifs
  · refine velocityBound_congr (movingResolve_velocities E i _) (bounce_bound M _ ?_)
    exact velocityBound_congr (movingAward_velocities i
      (classify E ((patrol frameTime i s).movingEnemies i).enemyCarModel (patrol frameTime i s)))
      hp
  · exact hp

theorem playingFrame_bound (E : Engine) (inp : Input) (tau : ℚ) (s : Game)
    (h0 : 0 < inp.frameTime) (h1 : inp.frameTime ≤ tau)
    (hs : VelocityBound (30 + 30 * tau) s) :
    VelocityBound (30 + 30 * tau) (playingFrame E inp s) := by
  unfold playingFrame playingCase staticLoop movingLoop treeLoop
  refine velocityBound_congr (winLoss_velocities _) ?_
  refine movingBody_bound E _ _ 3 _ (movingBody_bound E _ _ 2 _ (movingBody_bound E _ _ 1 _
    (movingBody_bound E _ _ 0 _ ?_)))
  refine staticBody_bound E _ 3 _ (staticBody_bound E _ 2 _ (staticBody_bound E _ 1 _
    (staticBody_bound E _ 0 _ ?_)))
  exact treeLoopFrom_bound _ _ _ (physics_bound E inp tau _ h0 h1
    (velocityBound_congr (capturePrevPos_velocities s) hs))

/-- C11, as amended: in every state reached from the initial state by playing
frames with frame times in `(0, tau]`, with any inputs and any collisions, both
velocity channels stay between `-(30 + 30 tau)` and `30 + 30 tau`. -/
theorem velocity_bounds (E : Engine) (d0 tau : ℚ) (inps : List Input)
    (htau : 0 ≤ tau)
    (htimes : ∀ inp ∈ inps, 0 < inp.frameTime ∧ inp.frameTime ≤ tau) :
    -(30 + 30 * tau) ≤ (playingFrames E inps (initialGame d0)).forwardVelocity ∧
    (playingFrames E inps (initialGame d0)).forwardVelocity ≤ 30 + 30 * tau ∧
    -(30 + 30 * tau) ≤ (playingFrames E inps (initialGame d0)).backwardVelocity ∧
    (playingFrames E inps (initialGame d0)).backwardVelocity ≤ 30 + 30 * tau := by
  have hf0 : (initialGame d0).forwardVelocity = 0 := by norm_num [initialGame]
  have hb0 : (initialGame d0).backwardVelocity = 0 := by norm_num [initialGame]
  have hinit : VelocityBound (30 + 30 * tau) (initialGame d0) := by
    unfold VelocityBound
    rw [hf0, hb0]
    refine ⟨?_, ?_, ?_, ?_⟩ <;> linarith
  have key : ∀ (l : List Input) (s : Game),
      (∀ inp ∈ l, 0 < inp.frameTime ∧ inp.frameTime ≤ tau) →
      VelocityBound (30 + 30 * tau) s → VelocityBound (30 + 30 * tau) (playingFrames E l s) := by
    intro l
    induction l with
    | nil => intro s _ hs; exact hs
    | cons inp rest ih =>
      intro s hl hs
      have hc : playingFrames E (inp :: rest) s = playingFrames E rest (playingFrame E inp s) :=
        rfl
      rw [hc]
      exact ih _ (fun a ha => hl a (List.mem_cons_of_mem _ ha))
        (playingFrame_bound E inp tau s (hl inp (List.mem_cons_self _ _)).1
          (hl inp (List.mem_cons_self _ _)).2 hs)
  exact key inps (initialGame d0) htimes hinit

/-- Witness of C11 as amended: two frames of 0.6 s with the accelerate key held. -/
theorem velocity_bounds_witness :
    (playingFrames exampleEngine [accelerateInput 0.6, accelerateInput 0.6]
      (initialGame 0)).forwardVelocity ≤ 30 + 30 * 0.6 :=
  (velocity_bounds exampleEngine 0 0.6 [accelerateInput 0.6, accelerateInput 0.6]
    (by norm_num) (by decide!)).2.1

/-- Counterexample to C11 as stated: from the initial state, two playing frames
of 0.6 s with the accelerate key held raise `forwardVelocity` to 36, above 30:
in the second frame the velocity is 18, below 30, and 30 * 0.6 is added.  And
after the three frames of `runToHit`, in which the player runs into moving enemy
0 at velocity 18.3, the bounce has left `forwardVelocity` at -9.15, below 0. -/
theorem velocity_leaves_clamp_range :
    (frames exampleEngine [accelerateInput 0.6] (initialGame 0)).forwardVelocity = 18 ∧
    (frames exampleEngine [accelerateInput 0.6, accelerateInput 0.6]
      (initialGame 0)).gameState = GameState.GAME_PLAYING ∧
    (frames exampleEngine [accelerateInput 0.6, accelerateInput 0.6]
      (initialGame 0)).forwardVelocity = 36 ∧
    (frames exampleEngine runToHit (initialGame 0)).gameState = GameState.GAME_PLAYING ∧
    (frames exampleEngine runToHit (initialGame 0)).forwardVelocity = -9.15 := by
  decide!


/-! ## Frames without collision -/

/-- Without a tree in range the tree loop changes nothing. -/
theorem treeLoop_of_noHit (E : Engine) (s : Game) (h : treeLoopHit E s = false) :
    treeLoop E s = s := by
  unfold treeLoopHit at h
  rw [List.any_eq_false] at h
  unfold treeLoop
  exact treeLoopFrom_of_far _ s (fun a ha => by simpa using h a ha)

theorem movingBody_velocities_of_noOverlap (E : Engine) (frameTime : ℚ) (i : Fin 4) (s : Game)
    (h : movingOverlap i (patrol frameTime i s) = false) :
    (movingBody E frameTime i s).forwardVelocity = s.forwardVelocity ∧
    (movingBody E frameTime i s).backwardVelocity = s.backwardVelocity := by
  rw [movingBody_of_noOverlap E frameTime i s h]
  obtain ⟨r1, r2⟩ := recovery_velocities frameTime i (sphereBob frameTime i (patrol frameTime i s))
  obtain ⟨b1, b2⟩ := sphereBob_velocities frameTime i (patrol frameTime i s)
  obtain ⟨p1, p2⟩ := patrol_velocities frameTime i s
  exact ⟨r1.trans (b1.trans p1), r2.trans (b2.trans p2)⟩

theorem movingLoop_velocities_of_noOverlap (E : Engine) (frameTime : ℚ) (s : Game)
    (h : movingLoopOverlap E frameTime s = false) :
    (movingLoop E frameTime s).forwardVelocity = s.forwardVelocity ∧
    (movingLoop E frameTime s).backwardVelocity = s.backwardVelocity := by
  unfold movingLoopOverlap at h
  simp only [Bool.or_eq_false_iff] at h
  obtain ⟨⟨⟨h0, h1⟩, h2⟩, h3⟩ := h
  obtain ⟨a0, b0⟩ := movingBody_velocities_of_noOverlap E frameTime 0 s h0
  obtain ⟨a1, b1⟩ := movingBody_velocities_of_noOverlap E frameTime 1 _ h1
  obtain ⟨a2, b2⟩ := movingBody_velocities_of_noOverlap E frameTime 2 _ h2
  obtain ⟨a3, b3⟩ := movingBody_velocities_of_noOverlap E frameTime 3 _ h3
  unfold movingLoop
  exact ⟨a3.trans (a2.trans (a1.trans a0)), b3.trans (b2.trans (b1.trans b0))⟩

/-- In a playing frame without collision the velocities are those that the input
and physics part leaves. -/
theorem playingFrame_velocities_of_noCollision (E : Engine) (inp : Input) (s : Game)
    (h : frameCollision E inp s = false) :
    (playingFrame E inp s).forwardVelocity =
      forwardStep inp.heldW inp.frameTime s.forwardVelocity ∧
    (playingFrame E inp s).backwardVelocity =
      backwardStep inp.heldS inp.frameTime s.backwardVelocity := by
  unfold frameCollision frameOverlap at h
  simp only [Bool.or_eq_false_iff] at h
  obtain ⟨ht, hs, hm⟩ := h
  rw [treeLoop_of_noHit E _ ht] at hs hm
  rw [staticLoop_of_noOverlap E _ hs] at hm
  obtain ⟨m1, m2⟩ := movingLoop_velocities_of_noOverlap E inp.frameTime _ hm
  obtain ⟨p1, p2⟩ := physics_velocities E inp (capturePrevPos s)
  unfold playingFrame playingCase
  rw [(winLoss_velocities _).1, (winLoss_velocities _).2, treeLoop_of_noHit E _ ht,
    staticLoop_of_noOverlap E _ hs, m1, m2, p1, p2]
  exact ⟨rfl, rfl⟩

theorem noCollisionRun_cons (E : Engine) (inp : Input) (rest : List Input) (s : Game) :
    noCollisionRun E (inp :: rest) s = true ↔
      frameCollision E inp s = false ∧ noCollisionRun E rest (playingFrame E inp s) = true := by
  simp [noCollisionRun]

theorem totalTime_cons (inp : Input) (rest : List Input) :
    totalTime (inp :: rest) = inp.frameTime + totalTime rest := by
  simp [totalTime]

theorem totalTime_nonneg (inps : List Input) (h : ∀ inp ∈ inps, 0 < inp.frameTime) :
    0 ≤ totalTime inps := by
  induction inps with
  | nil => simp [totalTime]
  | cons inp rest ih =>
    rw [totalTime_cons]
    have h1 := h inp (List.mem_cons_self _ _)
    have h2 := ih (fun a ha => h a (List.mem_cons_of_mem _ ha))
    linarith

/-! ## Linear acceleration -/

/-- Acceleration from a forward velocity `F ≥ 0` below the maximum. -/
theorem playingFrames_accelerate (E : Engine) (inps : List Input) (s : Game)
    (hf : 0 ≤ s.forwardVelocity) (hb : s.backwardVelocity = 0)
    (hkeys : ∀ inp ∈ inps, inp.heldW = true ∧ inp.heldS = false)
    (hpos : ∀ inp ∈ inps, 0 < inp.frameTime)
    (hsum : s.forwardVelocity + 30 * totalTime inps < 30)
    (hfree : noCollisionRun E inps s = true) :
    (playingFrames E inps s).forwardVelocity = s.forwardVelocity + 30 * totalTime inps ∧
    (playingFrames E inps s).backwardVelocity = 0 := by
  induction inps generalizing s with
  | nil => simp [playingFrames, totalTime, hb]
  | cons inp rest ih =>
    obtain ⟨hw, hs⟩ := hkeys inp (List.mem_cons_self _ _)
    have hdt := hpos inp (List.mem_cons_self _ _)
    have hrest := totalTime_nonneg rest (fun a ha => hpos a (List.mem_cons_of_mem _ ha))
    rw [totalTime_cons] at hsum ⊢
    obtain ⟨c1, c2⟩ := (noCollisionRun_cons E inp rest s).mp hfree
    obtain ⟨v1, v2⟩ := playingFrame_velocities_of_noCollision E inp s c1
    have hF : (playingFrame E inp s).forwardVelocity = s.forwardVelocity + 30 * inp.frameTime := by
      have h30 : s.forwardVelocity < 30 := by linarith
      rw [v1, hw]
      unfold forwardStep
      simp only [maxForwardVelocity_eq, acceleration_eq, minVelocity_eq, if_true, if_pos h30]
      rw [if_neg (by linarith)]
    have hB : (playingFrame E inp s).backwardVelocity = 0 := by
      rw [v2, hs, hb]
      unfold backwardStep
      simp [minVelocity_eq]
    have hc : playingFrames E (inp :: rest) s = playingFrames E rest (playingFrame E inp s) :=
      rfl
    rw [hc]
    obtain ⟨i1, i2⟩ := ih (playingFrame E inp s) (by rw [hF]; linarith) hB
      (fun a ha => hkeys a (List.mem_cons_of_mem _ ha))
      (fun a ha => hpos a (List.mem_cons_of_mem _ ha))
      (by rw [hF]; linarith) c2
    refine ⟨?_, i2⟩
    rw [i1, hF]
    ring

/-- C12: from `forwardVelocity = 0` and `backwardVelocity = 0`, after every
sequence of collision-free playing frames with accelerate held and reverse not
held whose positive frame times sum to `t < 1`, the forward velocity is `30 t`
(and the backward velocity still 0). -/
theorem linear_acceleration (E : Engine) (inps : List Input) (s : Game)
    (hf : s.forwardVelocity = 0) (hb : s.backwardVelocity = 0)
    (hkeys : ∀ inp ∈ inps, inp.heldW = true ∧ inp.heldS = false)
    (hpos : ∀ inp ∈ inps, 0 < inp.frameTime)
    (hsum : totalTime inps < 1)
    (hfree : noCollisionRun E inps s = true) :
    (playingFrames E inps s).forwardVelocity = 30 * totalTime inps ∧
    (playingFrames E inps s).backwardVelocity = 0 := by
  obtain ⟨h1, h2⟩ := playingFrames_accelerate E inps s (by rw [hf]) hb hkeys hpos
    (by rw [hf]; linarith) hfree
  refine ⟨?_, h2⟩
  rw [h1, hf]
  ring

/-- Witness of C12: from the initial state, frames of 0.2 s and 0.3 s with the
accelerate key held; the forward velocity is 15. -/
theorem linear_acceleration_witness :
    (playingFrames exampleEngine [accelerateInput 0.2, accelerateInput 0.3]
      (initialGame 0)).forwardVelocity =
      30 * totalTime [accelerateInput 0.2, accelerateInput 0.3] :=
  (linear_acceleration exampleEngine [accelerateInput 0.2, accelerateInput 0.3] (initialGame 0)
    (by decide!) (by decide!) (by decide!) (by decide!) (by decide!) (by decide!)).1


/-! ## Coasting with no key held -/

/-- At a frame time of 0.1 s and with the accelerate key not held, the forward
velocity 0.3 is decreased by 3 to -2.7 and recovers by 0.5 per frame through
-2.2, -1.7, -1.2, -0.7, -0.2 to 0.3 again. -/
theorem forwardStep_coastingCycle (f : ℚ) (h : InCoastingCycle f) :
    InCoastingCycle (forwardStep false (1 / 10) f) := by
  unfold forwardStep
  simp only [deceleration_eq, minVelocity_eq, decelerationAfterBounce_eq, gt_iff_lt]
  rcases h with h | h | h | h | h | h <;> subst h <;> norm_num [InCoastingCycle]

theorem inCoastingCycle_ne_zero (f : ℚ) (h : InCoastingCycle f) : f ≠ 0 := by
  rcases h with h | h | h | h | h | h <;> subst h <;> norm_num

/-- However many collision-free playing frames of 0.1 s with no key held follow
a state with forward velocity 0.3 and backward velocity 0, the forward velocity
stays in the cycle and is never 0. -/
theorem coasting_stays_in_cycle (E : Engine) (n : ℕ) (s : Game)
    (hf : InCoastingCycle s.forwardVelocity) (hb : s.backwardVelocity = 0)
    (hfree : noCollisionRun E (List.replicate n (idleInput (1 / 10))) s = true) :
    InCoastingCycle (playingFrames E (List.replicate n (idleInput (1 / 10))) s).forwardVelocity ∧
    (playingFrames E (List.replicate n (idleInput (1 / 10))) s).forwardVelocity ≠ 0 ∧
    (playingFrames E (List.replicate n (idleInput (1 / 10))) s).backwardVelocity = 0 := by
  induction n generalizing s with
  | zero => exact ⟨hf, inCoastingCycle_ne_zero _ hf, hb⟩
  | succ n ih =>
    rw [List.replicate_succ] at hfree ⊢
    obtain ⟨c1, c2⟩ := (noCollisionRun_cons E _ _ s).mp hfree
    obtain ⟨v1, v2⟩ := playingFrame_velocities_of_noCollision E (idleInput (1 / 10)) s c1
    have hF : InCoastingCycle (playingFrame E (idleInput (1 / 10)) s).forwardVelocity := by
      rw [v1]
      exact forwardStep_coastingCycle _ hf
    have hB : (playingFrame E (idleInput (1 / 10)) s).backwardVelocity = 0 := by
      rw [v2, hb]
      unfold backwardStep
      simp [idleInput, minVelocity_eq]
    exact ih (playingFrame E (idleInput (1 / 10)) s) hF hB c2

/-- C13, the code at a failing input: from the initial state, one frame of
0.31 s with the accelerate key held gives `forwardVelocity = 9.3` and
`backwardVelocity = 0`.  In the playing frames of 0.1 s with no key held that
follow, the forward velocity goes 6.3, 3.3, 0.3 and then, the decrease of 3 per
frame not stopping at 0, -2.2, -1.7, -1.2, -0.7, -0.2 and 0.3 again: it is 0.3
after 3 frames, -2.2 after 4, 0.3 after 9 and -2.2 after 10, with health and
score untouched. -/
theorem coasting_never_rests :
    (frames exampleEngine runToCoast (initialGame 0)).forwardVelocity = 9.3 ∧
    (frames exampleEngine runToCoast (initialGame 0)).backwardVelocity = 0 ∧
    (frames exampleEngine (runToCoast ++ List.replicate 3 (idleInput 0.1))
      (initialGame 0)).forwardVelocity = 0.3 ∧
    (frames exampleEngine (runToCoast ++ List.replicate 4 (idleInput 0.1))
      (initialGame 0)).forwardVelocity = -2.2 ∧
    (frames exampleEngine (runToCoast ++ List.replicate 9 (idleInput 0.1))
      (initialGame 0)).forwardVelocity = 0.3 ∧
    (frames exampleEngine (runToCoast ++ List.replicate 10 (idleInput 0.1))
      (initialGame 0)).forwardVelocity = -2.2 ∧
    (frames exampleEngine (runToCoast ++ List.replicate 10 (idleInput 0.1))
      (initialGame 0)).backwardVelocity = 0 ∧
    (frames exampleEngine (runToCoast ++ List.replicate 10 (idleInput 0.1))
      (initialGame 0)).playerHealth = 100 ∧
    (frames exampleEngine (runToCoast ++ List.replicate 10 (idleInput 0.1))
      (initialGame 0)).score = 0 := by
  decide!


/-! ## Restart -/

theorem fin4_cases (i : Fin 4) : i = 0 ∨ i = 1 ∨ i = 2 ∨ i = 3 := by
  fin_cases i <;> simp

theorem restartBody_static_other (i k : Fin 4) (s : Game) (hk : k ≠ i) :
    (restartBody i s).staticEnemies k = s.staticEnemies k := by
  unfold restartBody
  dsimp only
  exact Function.update_noteq hk _ _

theorem restartBody_moving_other (i k : Fin 4) (s : Game) (hk : k ≠ i) :
    (restartBody i s).movingEnemies k = s.movingEnemies k := by
  unfold restartBody
  dsimp only
  exact Function.update_noteq hk _ _

theorem restartBody_timer_other (i k : Fin 4) (s : Game) (hk : k ≠ i) :
    (restartBody i s).resetCarTimes k = s.resetCarTimes k := by
  unfold restartBody
  dsimp only
  exact Function.update_noteq hk _ _

theorem restartBody_timer_self (i : Fin 4) (s : Game) :
    (restartBody i s).resetCarTimes i = 0 := by
  unfold restartBody
  dsimp only
  exact Function.update_same _ _ _

/-- What one pass of the restart loop does to its static enemy: the position is
the table entry, the hit flag is cleared, and the other flags and the marker
speed are not written. -/
theorem restartBody_static_self (i : Fin 4) (s : Game) :
    ((restartBody i s).staticEnemies i).enemyCarModel.position = enemyStaticCarPositions i ∧
    ((restartBody i s).staticEnemies i).carHitStatus = false ∧
    ((restartBody i s).staticEnemies i).carSideHit = (s.staticEnemies i).carSideHit ∧
    ((restartBody i s).staticEnemies i).carMovementStatus =
      (s.staticEnemies i).carMovementStatus ∧
    ((restartBody i s).staticEnemies i).sphereMovementStatus =
      (s.staticEnemies i).sphereMovementStatus ∧
    ((restartBody i s).staticEnemies i).sphereMovementSpeed =
      (s.staticEnemies i).sphereMovementSpeed := by
  unfold restartBody
  dsimp only
  rw [Function.update_same]
  split_ifs <;>
    exact ⟨rfl, rfl, rfl, rfl, rfl, rfl⟩

/-- What one pass of the restart loop does to its moving enemy. -/
theorem restartBody_moving_self (i : Fin 4) (s : Game) :
    ((restartBody i s).movingEnemies i).enemyCarModel.position = enemyMovingCarPositions i ∧
    ((restartBody i s).movingEnemies i).carHitStatus = false ∧
    ((restartBody i s).movingEnemies i).carSideHit = (s.movingEnemies i).carSideHit ∧
    ((restartBody i s).movingEnemies i).carMovementStatus = true ∧
    ((restartBody i s).movingEnemies i).sphereMovementStatus = true ∧
    ((restartBody i s).movingEnemies i).sphereMovementSpeed = 2.5 := by
  unfold restartBody
  dsimp only
  rw [Function.update_same]
  exact ⟨rfl, rfl, rfl, rfl, rfl, rfl⟩

theorem restartBody_scalars (i : Fin 4) (s : Game) :
    (restartBody i s).score = s.score ∧ (restartBody i s).playerHealth = s.playerHealth ∧
    (restartBody i s).forwardVelocity = s.forwardVelocity ∧
    (restartBody i s).backwardVelocity = s.backwardVelocity :=
  ⟨rfl, rfl, rfl, rfl⟩

/-- A pass of the restart loop keeps what an earlier pass has established for
another static enemy. -/
theorem restartBody_static_keep (i k : Fin 4) (s : Game) (P : EnemyCars → Prop)
    (hk : k ≠ i) (h : P (s.staticEnemies k)) : P ((restartBody i s).staticEnemies k) := by
  rw [restartBody_static_other i k s hk]
  exact h

theorem restartBody_moving_keep (i k : Fin 4) (s : Game) (P : EnemyCars → Prop)
    (hk : k ≠ i) (h : P (s.movingEnemies k)) : P ((restartBody i s).movingEnemies k) := by
  rw [restartBody_moving_other i k s hk]
  exact h

/-- The restart loop on static enemy `i`: position, hit flag, and the fields it
does not write. -/
theorem restartLoop_static (i : Fin 4) (s : Game) :
    (((restartBody 3 (restartBody 2 (restartBody 1 (restartBody 0 s)))).staticEnemies
      i).enemyCarModel.position = enemyStaticCarPositions i) ∧
    ((restartBody 3 (restartBody 2 (restartBody 1 (restartBody 0 s)))).staticEnemies
      i).carHitStatus = false ∧
    ((restartBody 3 (restartBody 2 (restartBody 1 (restartBody 0 s)))).staticEnemies
      i).carSideHit = (s.staticEnemies i).carSideHit ∧
    ((restartBody 3 (restartBody 2 (restartBody 1 (restartBody 0 s)))).staticEnemies
      i).carMovementStatus = (s.staticEnemies i).carMovementStatus ∧
    ((restartBody 3 (restartBody 2 (restartBody 1 (restartBody 0 s)))).staticEnemies
      i).sphereMovementStatus = (s.staticEnemies i).sphereMovementStatus ∧
    ((restartBody 3 (restartBody 2 (restartBody 1 (restartBody 0 s)))).staticEnemies
      i).sphereMovementSpeed = (s.staticEnemies i).sphereMovementSpeed := by
  have o10 := restartBody_static_other 0 1 s (by decide)
  have o20 := restartBody_static_other 0 2 s (by decide)
  have o30 := restartBody_static_other 0 3 s (by decide)
  have o21 := restartBody_static_other 1 2 (restartBody 0 s) (by decide)
  have o31 := restartBody_static_other 1 3 (restartBody 0 s) (by decide)
  have o32 := restartBody_static_other 2 3 (restartBody 1 (restartBody 0 s)) (by decide)
  rcases fin4_cases i with rfl | rfl | rfl | rfl
  · rw [restartBody_static_other 3 0 _ (by decide), restartBody_static_other 2 0 _ (by decide),
      restartBody_static_other 1 0 _ (by decide)]
    exact restartBody_static_self 0 s
  · rw [restartBody_static_other 3 1 _ (by decide), restartBody_static_other 2 1 _ (by decide),
      ← o10]
    exact restartBody_static_self 1 (restartBody 0 s)
  · rw [restartBody_static_other 3 2 _ (by decide), ← o20, ← o21]
    exact restartBody_static_self 2 (restartBody 1 (restartBody 0 s))
  · rw [← o30, ← o31, ← o32]
    exact restartBody_static_self 3 (restartBody 2 (restartBody 1 (restartBody 0 s)))

/-- The restart loop on moving enemy `i`. -/
theorem restartLoop_moving (i : Fin 4) (s : Game) :
    (((restartBody 3 (restartBody 2 (restartBody 1 (restartBody 0 s)))).movingEnemies
      i).enemyCarModel.position = enemyMovingCarPositions i) ∧
    ((restartBody 3 (restartBody 2 (restartBody 1 (restartBody 0 s)))).movingEnemies
      i).carHitStatus = false ∧
    ((restartBody 3 (restartBody 2 (restartBody 1 (restartBody 0 s)))).movingEnemies
      i).carSideHit = (s.movingEnemies i).carSideHit ∧
    ((restartBody 3 (restartBody 2 (restartBody 1 (restartBody 0 s)))).movingEnemies
      i).carMovementStatus = true ∧
    ((restartBody 3 (restartBody 2 (restartBody 1 (restartBody 0 s)))).movingEnemies
      i).sphereMovementStatus = true ∧
    ((restartBody 3 (restartBody 2 (restartBody 1 (restartBody 0 s)))).movingEnemies
      i).sphereMovementSpeed = 2.5 := by
  have o10 := restartBody_moving_other 0 1 s (by decide)
  have o20 := restartBody_moving_other 0 2 s (by decide)
  have o30 := restartBody_moving_other 0 3 s (by decide)
  have o21 := restartBody_moving_other 1 2 (restartBody 0 s) (by decide)
  have o31 := restartBody_moving_other 1 3 (restartBody 0 s) (by decide)
  have o32 := restartBody_moving_other 2 3 (restartBody 1 (restartBody 0 s)) (by decide)
  rcases fin4_cases i with rfl | rfl | rfl | rfl
  · rw [restartBody_moving_other 3 0 _ (by decide), restartBody_moving_other 2 0 _ (by decide),
      restartBody_moving_other 1 0 _ (by decide)]
    exact restartBody_moving_self 0 s
  · rw [restartBody_moving_other 3 1 _ (by decide), restartBody_moving_other 2 1 _ (by decide),
      ← o10]
    exact restartBody_moving_self 1 (restartBody 0 s)
  · rw [restartBody_moving_other 3 2 _ (by decide), ← o20, ← o21]
    exact restartBody_moving_self 2 (restartBody 1 (restartBody 0 s))
  · rw [← o30, ← o31, ← o32]
    exact restartBody_moving_self 3 (restartBody 2 (restartBody 1 (restartBody 0 s)))

/-- The restart loop zeroes every recovery timer. -/
theorem restartLoop_timer (i : Fin 4) (s : Game) :
    (restartBody 3 (restartBody 2 (restartBody 1 (restartBody 0 s)))).resetCarTimes i = 0 := by
  rcases fin4_cases i with rfl | rfl | rfl | rfl
  · rw [restartBody_timer_other 3 0 _ (by decide), restartBody_timer_other 2 0 _ (by decide),
      restartBody_timer_other 1 0 _ (by decide)]
    exact restartBody_timer_self 0 s
  · rw [restartBody_timer_other 3 1 _ (by decide), restartBody_timer_other 2 1 _ (by decide)]
    exact restartBody_timer_self 1 _
  · rw [restartBody_timer_other 3 2 _ (by decide)]
    exact restartBody_timer_self 2 _
  · exact restartBody_timer_self 3 _


/-! ## Fields of the enemies that the loop never writes -/

theorem unwritten_of_sameEnemies {s t : Game} (h : SameEnemies s t)
    (hs : UnwrittenDefaults s) : UnwrittenDefaults t := by
  obtain ⟨_, _, _, a4, a5, _⟩ := h
  unfold UnwrittenDefaults
  rw [a4, a5]
  exact hs

/-- Replacing one static enemy by one with the same unwritten fields. -/
theorem unwritten_update_static {s t : Game} (i : Fin 4) (e : EnemyCars)
    (hs : UnwrittenDefaults s)
    (h1 : t.staticEnemies = Function.update s.staticEnemies i e)
    (h2 : t.movingEnemies = s.movingEnemies)
    (he : e.carMovementStatus = true ∧ e.sphereMovementStatus = true ∧
      e.sphereMovementSpeed = 2.5) : UnwrittenDefaults t := by
  unfold UnwrittenDefaults
  rw [h1, h2]
  refine ⟨fun k => ?_, hs.2⟩
  by_cases hk : k = i
  · subst hk
    rw [Function.update_same]
    exact he
  · rw [Function.update_noteq hk]
    exact hs.1 k

/-- Replacing one moving enemy by one with a clear side-hit flag. -/
theorem unwritten_update_moving {s t : Game} (i : Fin 4) (e : EnemyCars)
    (hs : UnwrittenDefaults s)
    (h1 : t.staticEnemies = s.staticEnemies)
    (h2 : t.movingEnemies = Function.update s.movingEnemies i e)
    (he : e.carSideHit = false) : UnwrittenDefaults t := by
  unfold UnwrittenDefaults
  rw [h1, h2]
  refine ⟨hs.1, fun k => ?_⟩
  by_cases hk : k = i
  · subst hk
    rw [Function.update_same]
    exact he
  · rw [Function.update_noteq hk]
    exact hs.2 k

theorem initialGame_unwritten (d0 : ℚ) : UnwrittenDefaults (initialGame d0) :=
  ⟨fun _ => ⟨rfl, rfl, rfl⟩, fun _ => rfl⟩

theorem classify_unwritten (E : Engine) (m : Matrix4) (s : Game) (hs : UnwrittenDefaults s) :
    UnwrittenDefaults (classify E m s) := hs

theorem staticAward_unwritten (i : Fin 4) (s : Game) (hs : UnwrittenDefaults s) :
    UnwrittenDefaults (staticAward i s) := by
  unfold staticAward
  split_ifs
  · exact unwritten_update_static i _ hs rfl rfl (hs.1 i)
  · exact unwritten_update_static i _ hs rfl rfl (hs.1 i)
  · exact hs
  · exact hs

theorem staticResolve_unwritten (E : Engine) (i : Fin 4) (s : Game)
    (hs : UnwrittenDefaults s) : UnwrittenDefaults (staticResolve E i s) := by
  unfold staticResolve
  dsimp only
  have h2 := staticAward_unwritten i _ (classify_unwritten E (s.staticEnemies i).enemyCarModel s hs)
  have h3 := unwritten_of_sameEnemies (bounce_sameEnemies _) h2
  exact unwritten_update_static i _ h3 rfl rfl (h3.1 i)

theorem staticBody_unwritten (E : Engine) (i : Fin 4) (s : Game)
    (hs : UnwrittenDefaults s) : UnwrittenDefaults (staticBody E i s) := by
  unfold staticBody
  split_ifs
  · exact staticResolve_unwritten E i s hs
  · exact hs

theorem staticLoop_unwritten (E : Engine) (s : Game)
    (hs : UnwrittenDefaults s) : UnwrittenDefaults (staticLoop E s) := by
  unfold staticLoop
  exact staticBody_unwritten E 3 _ (staticBody_unwritten E 2 _
    (staticBody_unwritten E 1 _ (staticBody_unwritten E 0 s hs)))

theorem patrol_unwritten (frameTime : ℚ) (i : Fin 4) (s : Game)
    (hs : UnwrittenDefaults s) : UnwrittenDefaults (patrol frameTime i s) := by
  unfold patrol
  dsimp only
  split_ifs
  · exact unwritten_update_moving i _ hs rfl rfl (hs.2 i)
  · exact unwritten_update_moving i _ hs rfl rfl (hs.2 i)
  · exact hs

theorem movingAward_unwritten (i : Fin 4) (s : Game) (hs : UnwrittenDefaults s) :
    UnwrittenDefaults (movingAward i s) := by
  unfold movingAward
  split_ifs
  · exact unwritten_update_moving i _ hs rfl rfl (hs.2 i)
  · exact unwritten_update_moving i _ hs rfl rfl (hs.2 i)
  · exact hs
  · exact hs

theorem movingResolve_unwritten (E : Engine) (i : Fin 4) (s : Game)
    (hs : UnwrittenDefaults s) : UnwrittenDefaults (movingResolve E i s) := by
  unfold movingResolve
  dsimp only
  have h2 := movingAward_unwritten i _ (classify_unwritten E (s.movingEnemies i).enemyCarModel s hs)
  have h3 := unwritten_of_sameEnemies (bounce_sameEnemies _) h2
  have h4 := unwritten_of_sameEnemies (nudgePrevPos_sameEnemies _) h3
  exact unwritten_update_moving i _ h4 rfl rfl (h4.2 i)

theorem movingCollision_unwritten (E : Engine) (i : Fin 4) (s : Game)
    (hs : UnwrittenDefaults s) : UnwrittenDefaults (movingCollision E i s) := by
  unfold movingCollision
  split_ifs
  · exact movingResolve_unwritten E i s hs
  · exact hs

theorem sphereBob_unwritten (frameTime : ℚ) (i : Fin 4) (s : Game)
    (hs : UnwrittenDefaults s) : UnwrittenDefaults (sphereBob frameTime i s) := by
  unfold sphereBob
  dsimp only
  split_ifs
  · exact unwritten_update_moving i _ hs rfl rfl (hs.2 i)
  · exact hs
  · exact unwritten_update_moving i _ hs rfl rfl (hs.2 i)
  · exact hs
  · exact hs

theorem reverseScore_unwritten (s : Game) (hs : UnwrittenDefaults s) :
    UnwrittenDefaults (reverseScore s) := by
  unfold reverseScore
  split_ifs <;> exact hs

/-- A state whose static enemies are those of `s` and whose moving enemies have
the side-hit flags of `s`. -/
theorem unwritten_of_moving {s t : Game} (hs : UnwrittenDefaults s)
    (h1 : t.staticEnemies = s.staticEnemies)
    (h2 : ∀ k, (t.movingEnemies k).carSideHit = (s.movingEnemies k).carSideHit) :
    UnwrittenDefaults t := by
  unfold UnwrittenDefaults
  rw [h1]
  exact ⟨hs.1, fun k => (h2 k).trans (hs.2 k)⟩

theorem recovery_unwritten (frameTime : ℚ) (i : Fin 4) (s : Game)
    (hs : UnwrittenDefaults s) : UnwrittenDefaults (recovery frameTime i s) := by
  unfold recovery
  dsimp only
  split_ifs <;>
    first
    | exact hs
    | (refine unwritten_of_moving hs rfl (fun k => ?_)
       by_cases hk : k = i
       · subst hk; simp
       · simp [Function.update_noteq hk])
    | (apply reverseScore_unwritten
       refine unwritten_of_moving hs rfl (fun k => ?_)
       by_cases hk : k = i
       · subst hk; simp
       · simp [Function.update_noteq hk])

theorem movingBody_unwritten (E : Engine) (frameTime : ℚ) (i : Fin 4) (s : Game)
    (hs : UnwrittenDefaults s) : UnwrittenDefaults (movingBody E frameTime i s) := by
  unfold movingBody
  exact recovery_unwritten _ _ _ (sphereBob_unwritten _ _ _
    (movingCollision_unwritten _ _ _ (patrol_unwritten _ _ _ hs)))

theorem movingLoop_unwritten (E : Engine) (frameTime : ℚ) (s : Game)
    (hs : UnwrittenDefaults s) : UnwrittenDefaults (movingLoop E frameTime s) := by
  unfold movingLoop
  exact movingBody_unwritten _ _ 3 _ (movingBody_unwritten _ _ 2 _
    (movingBody_unwritten _ _ 1 _ (movingBody_unwritten _ _ 0 s hs)))

theorem playingCase_unwritten (E : Engine) (inp : Input) (s : Game)
    (hs : UnwrittenDefaults s) : UnwrittenDefaults (playingCase E inp s) := by
  unfold playingCase
  exact unwritten_of_sameEnemies (winLoss_sameEnemies _)
    (movingLoop_unwritten _ _ _ (staticLoop_unwritten _ _
      (unwritten_of_sameEnemies (treeLoop_sameEnemies E _)
        (unwritten_of_sameEnemies (physics_sameEnemies E inp s) hs))))

theorem restart_unwritten (s : Game) (hs : UnwrittenDefaults s) :
    UnwrittenDefaults (restart s) := by
  unfold restart
  dsimp only
  refine ⟨fun i => ?_, fun i => ?_⟩
  · obtain ⟨_, _, _, a, b, c⟩ := restartLoop_static i { s with
      score := 0,
      playerHealth := 100,
      prevPosX := 0,
      prevPosY := 0,
      prevPosZ := 0,
      forwardVelocity := 0.0,
      backwardVelocity := 0.0,
      moveOppositeCar1 := false,
      moveOppositeCar2 := false,
      moveOppositeSphere := false,
      allStaticCarsHit := false,
      allMovingCarsHit := false,
      playerCarModel := (s.playerCarModel.setPosition 0 0 0).resetOrientation }
    exact ⟨a.trans (hs.1 i).1, b.trans (hs.1 i).2.1, c.trans (hs.1 i).2.2⟩
  · obtain ⟨_, _, a, _⟩ := restartLoop_moving i { s with
      score := 0,
      playerHealth := 100,
      prevPosX := 0,
      prevPosY := 0,
      prevPosZ := 0,
      forwardVelocity := 0.0,
      backwardVelocity := 0.0,
      moveOppositeCar1 := false,
      moveOppositeCar2 := false,
      moveOppositeSphere := false,
      allStaticCarsHit := false,
      allMovingCarsHit := false,
      playerCarModel := (s.playerCarModel.setPosition 0 0 0).resetOrientation }
    exact a.trans (hs.2 i)

theorem frame_unwritten (E : Engine) (inp : Input) (s : Game)
    (hs : UnwrittenDefaults s) : UnwrittenDefaults (frame E inp s) := by
  have h0 : UnwrittenDefaults (capturePrevPos s) := hs
  unfold frame
  dsimp only
  split
  · exact playingCase_unwritten E inp _ h0
  · exact unwritten_of_sameEnemies (pausedCase_sameEnemies inp _) h0
  · unfold overCase
    split_ifs
    · exact restart_unwritten _ h0
    · exact h0

theorem frames_unwritten (E : Engine) (inps : List Input) (s : Game)
    (hs : UnwrittenDefaults s) : UnwrittenDefaults (frames E inps s) := by
  induction inps generalizing s with
  | nil => exact hs
  | cons inp rest ih => exact ih (frame E inp s) (frame_unwritten E inp s hs)

theorem reachable_unwritten (E : Engine) (s : Game) (h : Reachable E s) :
    UnwrittenDefaults s := by
  obtain ⟨d0, inps, rfl⟩ := h
  exact frames_unwritten E inps _ (initialGame_unwritten d0)


/-- The restart loop leaves score, health and velocities alone. -/
theorem restartLoop_scalars (s : Game) :
    (restartBody 3 (restartBody 2 (restartBody 1 (restartBody 0 s)))).score = s.score ∧
    (restartBody 3 (restartBody 2 (restartBody 1 (restartBody 0 s)))).playerHealth =
      s.playerHealth ∧
    (restartBody 3 (restartBody 2 (restartBody 1 (restartBody 0 s)))).forwardVelocity =
      s.forwardVelocity ∧
    (restartBody 3 (restartBody 2 (restartBody 1 (restartBody 0 s)))).backwardVelocity =
      s.backwardVelocity := by
  obtain ⟨a1, a2, a3, a4⟩ := restartBody_scalars 0 s
  obtain ⟨b1, b2, b3, b4⟩ := restartBody_scalars 1 (restartBody 0 s)
  obtain ⟨c1, c2, c3, c4⟩ := restartBody_scalars 2 (restartBody 1 (restartBody 0 s))
  obtain ⟨d1, d2, d3, d4⟩ :=
    restartBody_scalars 3 (restartBody 2 (restartBody 1 (restartBody 0 s)))
  exact ⟨d1.trans (c1.trans (b1.trans a1)), d2.trans (c2.trans (b2.trans a2)),
    d3.trans (c3.trans (b3.trans a3)), d4.trans (c4.trans (b4.trans a4))⟩

/-- What the restart handler establishes, whatever the state it starts from. -/
theorem restart_facts (s : Game) :
    (restart s).score = 0 ∧ (restart s).playerHealth = 100 ∧
    (restart s).forwardVelocity = 0 ∧ (restart s).backwardVelocity = 0 ∧
    (∀ i, ((restart s).staticEnemies i).enemyCarModel.position = enemyStaticCarPositions i ∧
      ((restart s).staticEnemies i).carHitStatus = false ∧
      ((restart s).staticEnemies i).carSideHit = (s.staticEnemies i).carSideHit ∧
      ((restart s).staticEnemies i).carMovementStatus = (s.staticEnemies i).carMovementStatus ∧
      ((restart s).staticEnemies i).sphereMovementStatus =
        (s.staticEnemies i).sphereMovementStatus ∧
      ((restart s).staticEnemies i).sphereMovementSpeed =
        (s.staticEnemies i).sphereMovementSpeed) ∧
    (∀ i, ((restart s).movingEnemies i).enemyCarModel.position = enemyMovingCarPositions i ∧
      ((restart s).movingEnemies i).carHitStatus = false ∧
      ((restart s).movingEnemies i).carSideHit = (s.movingEnemies i).carSideHit ∧
      ((restart s).movingEnemies i).carMovementStatus = true ∧
      ((restart s).movingEnemies i).sphereMovementStatus = true ∧
      ((restart s).movingEnemies i).sphereMovementSpeed = 2.5) ∧
    (∀ i, (restart s).resetCarTimes i = 0) ∧
    (restart s).gameState = GameState.GAME_PLAYING := by
  unfold restart
  dsimp only
  refine ⟨?_, ?_, ?_, ?_, fun i => ?_, fun i => ?_, fun i => ?_, rfl⟩
  · exact (restartLoop_scalars _).1
  · exact (restartLoop_scalars _).2.1
  · rw [(restartLoop_scalars _).2.2.1]
    norm_num
  · rw [(restartLoop_scalars _).2.2.2]
    norm_num
  · exact restartLoop_static i _
  · exact restartLoop_moving i _
  · exact restartLoop_timer i _

/-- A frame in the game-over state with the restart key hit is the restart
handler on the state with the saved position captured. -/
theorem frame_of_restart (E : Engine) (inp : Input) (s : Game)
    (h : s.gameState = GameState.GAME_OVER) (hR : inp.hitR = true) :
    frame E inp s = restart (capturePrevPos s) := by
  rw [frame_of_over E inp s h]
  unfold overCase
  rw [if_pos hR]

/-- What a frame with the restart key hit establishes in the game-over state. -/
theorem frame_restart_facts (E : Engine) (inp : Input) (s : Game)
    (h : s.gameState = GameState.GAME_OVER) (hR : inp.hitR = true) :
    (frame E inp s).score = 0 ∧ (frame E inp s).playerHealth = 100 ∧
    (frame E inp s).forwardVelocity = 0 ∧ (frame E inp s).backwardVelocity = 0 ∧
    (∀ i, ((frame E inp s).staticEnemies i).enemyCarModel.position =
        enemyStaticCarPositions i ∧
      ((frame E inp s).staticEnemies i).carHitStatus = false ∧
      ((frame E inp s).staticEnemies i).carSideHit = (s.staticEnemies i).carSideHit ∧
      ((frame E inp s).staticEnemies i).carMovementStatus =
        (s.staticEnemies i).carMovementStatus ∧
      ((frame E inp s).staticEnemies i).sphereMovementStatus =
        (s.staticEnemies i).sphereMovementStatus ∧
      ((frame E inp s).staticEnemies i).sphereMovementSpeed =
        (s.staticEnemies i).sphereMovementSpeed) ∧
    (∀ i, ((frame E inp s).movingEnemies i).enemyCarModel.position =
        enemyMovingCarPositions i ∧
      ((frame E inp s).movingEnemies i).carHitStatus = false ∧
      ((frame E inp s).movingEnemies i).carSideHit = (s.movingEnemies i).carSideHit ∧
      ((frame E inp s).movingEnemies i).carMovementStatus = true ∧
      ((frame E inp s).movingEnemies i).sphereMovementStatus = true ∧
      ((frame E inp s).movingEnemies i).sphereMovementSpeed = 2.5) ∧
    (∀ i, (frame E inp s).resetCarTimes i = 0) ∧
    (frame E inp s).gameState = GameState.GAME_PLAYING := by
  rw [frame_of_restart E inp s h hR]
  exact restart_facts (capturePrevPos s)

/-! ## Win on the latched flag -/

/-- Evaluation of the run `runToLatchedWin` from the initial state. -/
theorem runToLatchedWin_facts :
    (frames exampleEngine (runToLatchedWin.take 9) (initialGame 0)).allMovingCarsHit = true ∧
    (frames exampleEngine (runToLatchedWin.take 9) (initialGame 0)).gameState =
      GameState.GAME_PLAYING ∧
    (frames exampleEngine (runToLatchedWin.take 22) (initialGame 0)).gameState =
      GameState.GAME_PLAYING ∧
    (frames exampleEngine runToLatchedWin (initialGame 0)).gameState = GameState.GAME_OVER ∧
    (frames exampleEngine runToLatchedWin (initialGame 0)).playerHealth = 100 ∧
    ((frames exampleEngine runToLatchedWin (initialGame 0)).movingEnemies 0).carMovementStatus
      = true ∧
    outcomeIsWin (frames exampleEngine runToLatchedWin (initialGame 0)) = true ∧
    ((frames exampleEngine runToLatchedWin (initialGame 0)).staticEnemies 3).carSideHit
      = true := by
  decide!

/-- C15, the code at a failing input: in the run `runToLatchedWin` from the
initial state all four moving enemies are disabled together after frame 9, which
sets `allMovingCarsHit`.  Before the last frame the game is still playing and
moving enemy 0 has recovered and patrols.  The last frame makes the fourth static
hit and ends with the game state Over and the win outcome, while the health is
100 and moving enemy 0 has `carMovementStatus == true`. -/
theorem game_over_on_latched_flag :
    (frames exampleEngine (runToLatchedWin.take 9) (initialGame 0)).allMovingCarsHit = true ∧
    (frames exampleEngine (runToLatchedWin.take 9) (initialGame 0)).gameState =
      GameState.GAME_PLAYING ∧
    (frames exampleEngine (runToLatchedWin.take 22) (initialGame 0)).gameState =
      GameState.GAME_PLAYING ∧
    (frames exampleEngine runToLatchedWin (initialGame 0)).gameState = GameState.GAME_OVER ∧
    (frames exampleEngine runToLatchedWin (initialGame 0)).playerHealth = 100 ∧
    ((frames exampleEngine runToLatchedWin (initialGame 0)).movingEnemies 0).carMovementStatus
      = true ∧
    outcomeIsWin (frames exampleEngine runToLatchedWin (initialGame 0)) = true :=
  ⟨runToLatchedWin_facts.1, runToLatchedWin_facts.2.1, runToLatchedWin_facts.2.2.1,
    runToLatchedWin_facts.2.2.2.1, runToLatchedWin_facts.2.2.2.2.1,
    runToLatchedWin_facts.2.2.2.2.2.1, runToLatchedWin_facts.2.2.2.2.2.2.1⟩

/-! ## Restart from a reachable game-over state -/

/-- C16 as amended: from every Over state reached from an initial state, a
frame with the restart key hit sets the score to 0, the health to 100 and both
velocities to 0, puts every enemy at its table position, gives the flags
`carHitStatus`, `carMovementStatus` and `sphereMovementStatus` and the marker
speed of every enemy, the flag `carSideHit` of every moving enemy and every
recovery timer the values of the initial state, and sets the game state to
Playing.  The flag `carSideHit` of a static enemy is not written: it keeps the
value it has in the Over state. -/
theorem restart_resets (E : Engine) (d0 : ℚ) (inps : List Input) (inp : Input) (s : Game)
    (hs : s = frames E inps (initialGame d0))
    (h : s.gameState = GameState.GAME_OVER) (hR : inp.hitR = true) :
    (frame E inp s).score = 0 ∧ (frame E inp s).playerHealth = 100 ∧
    (frame E inp s).forwardVelocity = 0 ∧ (frame E inp s).backwardVelocity = 0 ∧
    (∀ i, ((frame E inp s).staticEnemies i).enemyCarModel.position =
        enemyStaticCarPositions i ∧
      ((frame E inp s).staticEnemies i).carHitStatus =
        ((initialGame d0).staticEnemies i).carHitStatus ∧
      ((frame E inp s).staticEnemies i).carMovementStatus =
        ((initialGame d0).staticEnemies i).carMovementStatus ∧
      ((frame E inp s).staticEnemies i).sphereMovementStatus =
        ((initialGame d0).staticEnemies i).sphereMovementStatus ∧
      ((frame E inp s).staticEnemies i).sphereMovementSpeed =
        ((initialGame d0).staticEnemies i).sphereMovementSpeed ∧
      ((frame E inp s).staticEnemies i).carSideHit = (s.staticEnemies i).carSideHit) ∧
    (∀ i, ((frame E inp s).movingEnemies i).enemyCarModel.position =
        enemyMovingCarPositions i ∧
      ((frame E inp s).movingEnemies i).carHitStatus =
        ((initialGame d0).movingEnemies i).carHitStatus ∧
      ((frame E inp s).movingEnemies i).carSideHit =
        ((initialGame d0).movingEnemies i).carSideHit ∧
      ((frame E inp s).movingEnemies i).carMovementStatus =
        ((initialGame d0).movingEnemies i).carMovementStatus ∧
      ((frame E inp s).movingEnemies i).sphereMovementStatus =
        ((initialGame d0).movingEnemies i).sphereMovementStatus ∧
      ((frame E inp s).movingEnemies i).sphereMovementSpeed =
        ((initialGame d0).movingEnemies i).sphereMovementSpeed) ∧
    (∀ i, (frame E inp s).resetCarTimes i = (initialGame d0).resetCarTimes i) ∧
    (frame E inp s).gameState = GameState.GAME_PLAYING := by
  have hu : UnwrittenDefaults s := reachable_unwritten E s ⟨d0, inps, hs⟩
  obtain ⟨r1, r2, r3, r4, r5, r6, r7, r8⟩ := frame_restart_facts E inp s h hR
  refine ⟨r1, r2, r3, r4, fun i => ?_, fun i => ?_, fun i => r7 i, r8⟩
  · obtain ⟨a1, a2, a3, a4, a5, a6⟩ := r5 i
    exact ⟨a1, a2, a4.trans (hu.1 i).1, a5.trans (hu.1 i).2.1, a6.trans (hu.1 i).2.2, a3⟩
  · obtain ⟨a1, a2, a3, a4, a5, a6⟩ := r6 i
    exact ⟨a1, a2, a3.trans (hu.2 i), a4, a5, a6⟩

/-- Witness of C16: the Over state at the end of the run `runToLatchedWin`, and a
frame with the restart key hit. -/
theorem restart_resets_witness :
    (frame exampleEngine (restartInput 0.1)
      (frames exampleEngine runToLatchedWin (initialGame 0))).score = 0 ∧
    (frame exampleEngine (restartInput 0.1)
      (frames exampleEngine runToLatchedWin (initialGame 0))).gameState =
      GameState.GAME_PLAYING :=
  ⟨(restart_resets exampleEngine 0 runToLatchedWin (restartInput 0.1)
      (frames exampleEngine runToLatchedWin (initialGame 0)) rfl
      runToLatchedWin_facts.2.2.2.1 rfl).1,
   (restart_resets exampleEngine 0 runToLatchedWin (restartInput 0.1)
      (frames exampleEngine runToLatchedWin (initialGame 0)) rfl
      runToLatchedWin_facts.2.2.2.1 rfl).2.2.2.2.2.2.2⟩

/-- C16 as stated fails: the run `runToLatchedWin` from the initial state ends in
the Over state with static enemy 3 hit from the front, `carSideHit == true`.
After a frame with the restart key hit the game state is Playing and the flag is
still true, while its initial value is false. -/
theorem restart_keeps_static_side_hit :
    (frames exampleEngine runToLatchedWin (initialGame 0)).gameState = GameState.GAME_OVER ∧
    (frame exampleEngine (restartInput 0.1)
      (frames exampleEngine runToLatchedWin (initialGame 0))).gameState =
      GameState.GAME_PLAYING ∧
    ((frame exampleEngine (restartInput 0.1)
      (frames exampleEngine runToLatchedWin (initialGame 0))).staticEnemies 3).carSideHit
      = true ∧
    ((initialGame 0).staticEnemies 3).carSideHit = false := by
  have hover := runToLatchedWin_facts.2.2.2.1
  have hside := runToLatchedWin_facts.2.2.2.2.2.2.2
  obtain ⟨_, _, _, _, r5, _, _, r8⟩ := frame_restart_facts exampleEngine (restartInput 0.1)
    (frames exampleEngine runToLatchedWin (initialGame 0)) hover rfl
  exact ⟨hover, r8, (r5 3).2.2.1.trans hside, rfl⟩


/-! ## The saved position is dead at the start of a frame -/

theorem capturePrevPos_ignores_prevPos (s : Game) (x y z : ℚ) :
    capturePrevPos { s with prevPosX := x, prevPosY := y, prevPosZ := z } = capturePrevPos s :=
  rfl

/-- A loop iteration overwrites `prevPosX`, `prevPosY`, `prevPosZ` before it reads
them: its result does not depend on their content at the start of the frame. -/
theorem frame_ignores_prevPos (E : Engine) (inp : Input) (s : Game) (x y z : ℚ) :
    frame E inp { s with prevPosX := x, prevPosY := y, prevPosZ := z } = frame E inp s := by
  unfold frame
  rw [capturePrevPos_ignores_prevPos]


/-! ## The loops, enemy by enemy -/

theorem staticAward_movingEnemies (i : Fin 4) (s : Game) :
    (staticAward i s).movingEnemies = s.movingEnemies ∧
    (staticAward i s).resetCarTimes = s.resetCarTimes := by
  unfold staticAward
  split_ifs <;> exact ⟨rfl, rfl⟩

theorem staticResolve_movingEnemies (E : Engine) (i : Fin 4) (s : Game) :
    (staticResolve E i s).movingEnemies = s.movingEnemies ∧
    (staticResolve E i s).resetCarTimes = s.resetCarTimes := by
  obtain ⟨_, _, b3, _, b5, _⟩ := bounce_sameEnemies
    (staticAward i (classify E (s.staticEnemies i).enemyCarModel s))
  obtain ⟨a1, a2⟩ := staticAward_movingEnemies i (classify E (s.staticEnemies i).enemyCarModel s)
  unfold staticResolve
  dsimp only
  exact ⟨b5.trans a1, b3.trans a2⟩

theorem staticBody_movingEnemies (E : Engine) (i : Fin 4) (s : Game) :
    (staticBody E i s).movingEnemies = s.movingEnemies ∧
    (staticBody E i s).resetCarTimes = s.resetCarTimes := by
  unfold staticBody
  split_ifs
  · exact staticResolve_movingEnemies E i s
  · exact ⟨rfl, rfl⟩

/-- The static loop leaves the moving enemies and the timers alone. -/
theorem staticLoop_movingEnemies (E : Engine) (s : Game) :
    (staticLoop E s).movingEnemies = s.movingEnemies ∧
    (staticLoop E s).resetCarTimes = s.resetCarTimes := by
  obtain ⟨a0, b0⟩ := staticBody_movingEnemies E 0 s
  obtain ⟨a1, b1⟩ := staticBody_movingEnemies E 1 (staticBody E 0 s)
  obtain ⟨a2, b2⟩ := staticBody_movingEnemies E 2 (staticBody E 1 (staticBody E 0 s))
  obtain ⟨a3, b3⟩ := staticBody_movingEnemies E 3
    (staticBody E 2 (staticBody E 1 (staticBody E 0 s)))
  unfold staticLoop
  exact ⟨a3.trans (a2.trans (a1.trans a0)), b3.trans (b2.trans (b1.trans b0))⟩

/-- The part of a playing frame before the moving loop leaves the moving enemies
and the timers alone. -/
theorem beforeMovingLoop_movingEnemies (E : Engine) (inp : Input) (s : Game) :
    (staticLoop E (treeLoop E (physics E inp (capturePrevPos s)))).movingEnemies =
      s.movingEnemies ∧
    (staticLoop E (treeLoop E (physics E inp (capturePrevPos s)))).resetCarTimes =
      s.resetCarTimes := by
  obtain ⟨a, b⟩ := staticLoop_movingEnemies E (treeLoop E (physics E inp (capturePrevPos s)))
  obtain ⟨_, _, t3, _, t5, _⟩ := treeLoop_sameEnemies E (physics E inp (capturePrevPos s))
  obtain ⟨_, _, p3, _, p5, _⟩ := physics_sameEnemies E inp (capturePrevPos s)
  exact ⟨a.trans (t5.trans p5), b.trans (t3.trans p3)⟩

theorem patrol_enemy_other (frameTime : ℚ) (i k : Fin 4) (s : Game) (hk : k ≠ i) :
    (patrol frameTime i s).movingEnemies k = s.movingEnemies k := by
  unfold patrol
  dsimp only
  split_ifs <;> first | rfl | exact Function.update_noteq hk _ _

theorem patrol_of_disabled (frameTime : ℚ) (i : Fin 4) (s : Game)
    (h : (s.movingEnemies i).carMovementStatus = false) : patrol frameTime i s = s := by
  unfold patrol
  simp [h]

theorem movingAward_enemy_other (i k : Fin 4) (s : Game) (hk : k ≠ i) :
    (movingAward i s).movingEnemies k = s.movingEnemies k ∧
    (movingAward i s).resetCarTimes k = s.resetCarTimes k := by
  unfold movingAward
  split_ifs <;>
    first
    | exact ⟨rfl, rfl⟩
    | exact ⟨Function.update_noteq hk _ _, Function.update_noteq hk _ _⟩

theorem movingResolve_enemy_other (E : Engine) (i k : Fin 4) (s : Game) (hk : k ≠ i) :
    (movingResolve E i s).movingEnemies k = s.movingEnemies k ∧
    (movingResolve E i s).resetCarTimes k = s.resetCarTimes k := by
  obtain ⟨_, _, n3, _, n5, _⟩ := nudgePrevPos_sameEnemies
    (bounce (movingAward i (classify E (s.movingEnemies i).enemyCarModel s)))
  obtain ⟨_, _, b3, _, b5, _⟩ := bounce_sameEnemies
    (movingAward i (classify E (s.movingEnemies i).enemyCarModel s))
  obtain ⟨a1, a2⟩ := movingAward_enemy_other i k
    (classify E (s.movingEnemies i).enemyCarModel s) hk
  unfold movingResolve
  dsimp only
  refine ⟨?_, ?_⟩
  · rw [Function.update_noteq hk, n5, b5]
    exact a1
  · rw [n3, b3]
    exact a2

theorem movingCollision_enemy_other (E : Engine) (i k : Fin 4) (s : Game) (hk : k ≠ i) :
    (movingCollision E i s).movingEnemies k = s.movingEnemies k ∧
    (movingCollision E i s).resetCarTimes k = s.resetCarTimes k := by
  unfold movingCollision
  split_ifs
  · exact movingResolve_enemy_other E i k s hk
  · exact ⟨rfl, rfl⟩

theorem sphereBob_enemy_other (frameTime : ℚ) (i k : Fin 4) (s : Game) (hk : k ≠ i) :
    (sphereBob frameTime i s).movingEnemies k = s.movingEnemies k := by
  unfold sphereBob
  dsimp only
  split_ifs <;> first | rfl | exact Function.update_noteq hk _ _

/-- The body of the moving loop for enemy `i` leaves every other moving enemy and
its timer alone. -/
theorem movingBody_enemy_other (E : Engine) (frameTime : ℚ) (i k : Fin 4) (s : Game)
    (hk : k ≠ i) :
    (movingBody E frameTime i s).movingEnemies k = s.movingEnemies k ∧
    (movingBody E frameTime i s).resetCarTimes k = s.resetCarTimes k := by
  unfold movingBody
  rw [recovery_enemy_other frameTime i k _ hk, recovery_timer_other frameTime i k _ hk,
    sphereBob_enemy_other frameTime i k _ hk, (sphereBob_scoring frameTime i _).2.2,
    (movingCollision_enemy_other E i k _ hk).1, (movingCollision_enemy_other E i k _ hk).2,
    patrol_enemy_other frameTime i k s hk, (patrol_scoring frameTime i s).2.2]
  exact ⟨rfl, rfl⟩

/-- Moving enemy `i` and its timer are untouched when the moving loop reaches
enemy `i`. -/
theorem movingLoopBefore_enemy (E : Engine) (frameTime : ℚ) (i : Fin 4) (s : Game) :
    (movingLoopBefore E frameTime i s).movingEnemies i = s.movingEnemies i ∧
    (movingLoopBefore E frameTime i s).resetCarTimes i = s.resetCarTimes i := by
  rcases fin4_cases i with rfl | rfl | rfl | rfl
  · exact ⟨rfl, rfl⟩
  · exact movingBody_enemy_other E frameTime 0 1 s (by decide)
  · obtain ⟨a0, b0⟩ := movingBody_enemy_other E frameTime 0 2 s (by decide)
    obtain ⟨a1, b1⟩ := movingBody_enemy_other E frameTime 1 2 (movingBody E frameTime 0 s)
      (by decide)
    exact ⟨a1.trans a0, b1.trans b0⟩
  · obtain ⟨a0, b0⟩ := movingBody_enemy_other E frameTime 0 3 s (by decide)
    obtain ⟨a1, b1⟩ := movingBody_enemy_other E frameTime 1 3 (movingBody E frameTime 0 s)
      (by decide)
    obtain ⟨a2, b2⟩ := movingBody_enemy_other E frameTime 2 3
      (movingBody E frameTime 1 (movingBody E frameTime 0 s)) (by decide)
    exact ⟨a2.trans (a1.trans a0), b2.trans (b1.trans b0)⟩

/-- After the moving loop, moving enemy `i` and its timer are as the body for
enemy `i` left them. -/
theorem movingLoop_enemy (E : Engine) (frameTime : ℚ) (i : Fin 4) (s : Game) :
    (movingLoop E frameTime s).movingEnemies i =
      (movingBody E frameTime i (movingLoopBefore E frameTime i s)).movingEnemies i ∧
    (movingLoop E frameTime s).resetCarTimes i =
      (movingBody E frameTime i (movingLoopBefore E frameTime i s)).resetCarTimes i := by
  unfold movingLoop
  rcases fin4_cases i with rfl | rfl | rfl | rfl
  · obtain ⟨a1, b1⟩ := movingBody_enemy_other E frameTime 1 0 (movingBody E frameTime 0 s)
      (by decide)
    obtain ⟨a2, b2⟩ := movingBody_enemy_other E frameTime 2 0
      (movingBody E frameTime 1 (movingBody E frameTime 0 s)) (by decide)
    obtain ⟨a3, b3⟩ := movingBody_enemy_other E frameTime 3 0
      (movingBody E frameTime 2 (movingBody E frameTime 1 (movingBody E frameTime 0 s)))
      (by decide)
    exact ⟨a3.trans (a2.trans a1), b3.trans (b2.trans b1)⟩
  · obtain ⟨a2, b2⟩ := movingBody_enemy_other E frameTime 2 1
      (movingBody E frameTime 1 (movingBody E frameTime 0 s)) (by decide)
    obtain ⟨a3, b3⟩ := movingBody_enemy_other E frameTime 3 1
      (movingBody E frameTime 2 (movingBody E frameTime 1 (movingBody E frameTime 0 s)))
      (by decide)
    exact ⟨a3.trans a2, b3.trans b2⟩
  · exact movingBody_enemy_other E frameTime 3 2
      (movingBody E frameTime 2 (movingBody E frameTime 1 (movingBody E frameTime 0 s)))
      (by decide)
  · exact ⟨rfl, rfl⟩

/-- In a playing frame, moving enemy `i` and its timer are changed by the body of
the moving loop for enemy `i` only. -/
theorem playingFrame_enemy (E : Engine) (inp : Input) (i : Fin 4) (s : Game) :
    (atMovingTurn E inp i s).movingEnemies i = s.movingEnemies i ∧
    (atMovingTurn E inp i s).resetCarTimes i = s.resetCarTimes i ∧
    (playingFrame E inp s).movingEnemies i =
      (movingBody E inp.frameTime i (atMovingTurn E inp i s)).movingEnemies i ∧
    (playingFrame E inp s).resetCarTimes i =
      (movingBody E inp.frameTime i (atMovingTurn E inp i s)).resetCarTimes i := by
  obtain ⟨a, b⟩ := movingLoopBefore_enemy E inp.frameTime i
    (staticLoop E (treeLoop E (physics E inp (capturePrevPos s))))
  obtain ⟨c, d⟩ := beforeMovingLoop_movingEnemies E inp s
  obtain ⟨e, f⟩ := movingLoop_enemy E inp.frameTime i
    (staticLoop E (treeLoop E (physics E inp (capturePrevPos s))))
  obtain ⟨_, _, w3, _, w5, _⟩ := winLoss_sameEnemies
    (movingLoop E inp.frameTime (staticLoop E (treeLoop E (physics E inp (capturePrevPos s)))))
  unfold atMovingTurn playingFrame playingCase
  refine ⟨?_, ?_, ?_, ?_⟩
  · rw [a, c]
  · rw [b, d]
  · rw [w5]; exact e
  · rw [w3]; exact f


/-! ## Status flags of the moving enemies -/

/-- A property of single moving enemies held by all of them is kept when one of
them is replaced by an enemy that has it. -/
theorem movingAll_update {P : EnemyCars → Prop} {s t : Game} (i : Fin 4) (e : EnemyCars)
    (hs : ∀ k, P (s.movingEnemies k))
    (h : t.movingEnemies = Function.update s.movingEnemies i e) (he : P e) :
    ∀ k, P (t.movingEnemies k) := by
  intro k
  rw [h]
  by_cases hk : k = i
  · subst hk
    rw [Function.update_same]
    exact he
  · rw [Function.update_noteq hk]
    exact hs k

theorem movingAll_of_eq {P : EnemyCars → Prop} {s t : Game}
    (h : t.movingEnemies = s.movingEnemies) (hs : ∀ k, P (s.movingEnemies k)) :
    ∀ k, P (t.movingEnemies k) := by
  intro k
  rw [h]
  exact hs k

theorem patrol_status (frameTime : ℚ) (i : Fin 4) (s : Game)
    (hs : ∀ k, (s.movingEnemies k).StatusConsistent) :
    ∀ k, ((patrol frameTime i s).movingEnemies k).StatusConsistent := by
  intro k
  have h := hs k
  unfold EnemyCars.StatusConsistent at h ⊢
  rw [(patrol_flags frameTime i k s).1, (patrol_flags frameTime i k s).2]
  have hsp : ((patrol frameTime i s).movingEnemies k).sphereMovementStatus =
      (s.movingEnemies k).sphereMovementStatus := by
    unfold patrol
    dsimp only
    split_ifs
    · by_cases hk : k = i
      · subst hk; simp
      · simp [Function.update_noteq hk]
    · by_cases hk : k = i
      · subst hk; simp
      · simp [Function.update_noteq hk]
    · rfl
  rw [hsp]
  exact h

theorem movingAward_status (i : Fin 4) (s : Game)
    (hs : ∀ k, (s.movingEnemies k).StatusConsistent) :
    ∀ k, ((movingAward i s).movingEnemies k).StatusConsistent := by
  unfold movingAward
  split_ifs
  · exact movingAll_update i _ hs rfl ⟨⟨fun _ => rfl, fun _ => rfl⟩, fun _ => rfl⟩
  · exact movingAll_update i _ hs rfl ⟨⟨fun _ => rfl, fun _ => rfl⟩, fun _ => rfl⟩
  · exact hs
  · exact hs

theorem movingResolve_status (E : Engine) (i : Fin 4) (s : Game)
    (hs : ∀ k, (s.movingEnemies k).StatusConsistent) :
    ∀ k, ((movingResolve E i s).movingEnemies k).StatusConsistent := by
  intro k
  have h := movingAward_status i (classify E (s.movingEnemies i).enemyCarModel s) hs k
  unfold EnemyCars.StatusConsistent at h ⊢
  obtain ⟨_, _, n5, _⟩ : True ∧ True ∧ (nudgePrevPos (bounce (movingAward i
      (classify E (s.movingEnemies i).enemyCarModel s)))).movingEnemies =
      (movingAward i (classify E (s.movingEnemies i).enemyCarModel s)).movingEnemies ∧ True :=
    ⟨trivial, trivial, ((nudgePrevPos_sameEnemies _).2.2.2.2.1).trans
      ((bounce_sameEnemies _).2.2.2.2.1), trivial⟩
  unfold movingResolve
  dsimp only
  rw [n5]
  by_cases hk : k = i
  · subst hk
    simpa using h
  · simpa [Function.update_noteq hk] using h

theorem movingCollision_status (E : Engine) (i : Fin 4) (s : Game)
    (hs : ∀ k, (s.movingEnemies k).StatusConsistent) :
    ∀ k, ((movingCollision E i s).movingEnemies k).StatusConsistent := by
  unfold movingCollision
  split_ifs
  · exact movingResolve_status E i s hs
  · exact hs

theorem sphereBob_status (frameTime : ℚ) (i : Fin 4) (s : Game)
    (hs : ∀ k, (s.movingEnemies k).StatusConsistent) :
    ∀ k, ((sphereBob frameTime i s).movingEnemies k).StatusConsistent := by
  unfold sphereBob
  dsimp only
  split_ifs
  · exact movingAll_update i _ hs rfl (hs i)
  · exact hs
  · exact movingAll_update i _ hs rfl (hs i)
  · exact hs
  · exact hs

theorem recovery_status (frameTime : ℚ) (i : Fin 4) (s : Game)
    (hs : ∀ k, (s.movingEnemies k).StatusConsistent) :
    ∀ k, ((recovery frameTime i s).movingEnemies k).StatusConsistent := by
  intro k
  by_cases hk : k = i
  · subst hk
    have h := hs k
    unfold EnemyCars.StatusConsistent at h ⊢
    unfold recovery
    dsimp only
    split_ifs with h1 h2 h3 h3
    · rw [(reverseScore_fields _).2.2]
      simp
    · simp [h1, h]
    · rw [(reverseScore_fields _).2.2]
      simp
    · simpa using h
    · exact h
  · rw [recovery_enemy_other frameTime i k s hk]
    exact hs k

theorem movingBody_status (E : Engine) (frameTime : ℚ) (i : Fin 4) (s : Game)
    (hs : ∀ k, (s.movingEnemies k).StatusConsistent) :
    ∀ k, ((movingBody E frameTime i s).movingEnemies k).StatusConsistent := by
  unfold movingBody
  exact recovery_status _ _ _ (sphereBob_status _ _ _
    (movingCollision_status _ _ _ (patrol_status _ _ _ hs)))

theorem movingLoop_status (E : Engine) (frameTime : ℚ) (s : Game)
    (hs : ∀ k, (s.movingEnemies k).StatusConsistent) :
    ∀ k, ((movingLoop E frameTime s).movingEnemies k).StatusConsistent := by
  unfold movingLoop
  exact movingBody_status _ _ 3 _ (movingBody_status _ _ 2 _
    (movingBody_status _ _ 1 _ (movingBody_status _ _ 0 s hs)))

theorem playingCase_status (E : Engine) (inp : Input) (s : Game)
    (hs : ∀ k, (s.movingEnemies k).StatusConsistent) :
    ∀ k, ((playingCase E inp s).movingEnemies k).StatusConsistent := by
  unfold playingCase
  refine movingAll_of_eq (winLoss_sameEnemies _).2.2.2.2.1 (movingLoop_status _ _ _ ?_)
  refine movingAll_of_eq (staticLoop_movingEnemies E _).1 ?_
  refine movingAll_of_eq (treeLoop_sameEnemies E _).2.2.2.2.1 ?_
  exact movingAll_of_eq (physics_sameEnemies E inp s).2.2.2.2.1 hs

theorem restart_status (s : Game) : ∀ k, ((restart s).movingEnemies k).StatusConsistent := by
  intro k
  obtain ⟨_, _, _, _, _, r6, _⟩ := restart_facts s
  obtain ⟨_, a2, _, a4, a5, _⟩ := r6 k
  unfold EnemyCars.StatusConsistent
  rw [a2, a4, a5]
  simp

theorem frame_status (E : Engine) (inp : Input) (s : Game)
    (hs : ∀ k, (s.movingEnemies k).StatusConsistent) :
    ∀ k, ((frame E inp s).movingEnemies k).StatusConsistent := by
  have h0 : ∀ k, ((capturePrevPos s).movingEnemies k).StatusConsistent := hs
  unfold frame
  dsimp only
  split
  · exact playingCase_status E inp _ h0
  · exact movingAll_of_eq (pausedCase_sameEnemies inp _).2.2.2.2.1 h0
  · unfold overCase
    split_ifs
    · exact restart_status _
    · exact h0

theorem frames_status (E : Engine) (inps : List Input) (s : Game)
    (hs : ∀ k, (s.movingEnemies k).StatusConsistent) :
    ∀ k, ((frames E inps s).movingEnemies k).StatusConsistent := by
  induction inps generalizing s with
  | nil => exact hs
  | cons inp rest ih => exact ih (frame E inp s) (frame_status E inp s hs)

theorem initialGame_status (d0 : ℚ) :
    ∀ k, ((initialGame d0).movingEnemies k).StatusConsistent := by
  intro k
  unfold EnemyCars.StatusConsistent
  simp [initialGame, EnemyCars.create]

/-- C27: in every state reached from the initial state by any sequence of loop
iterations (playing, paused, game over, restart), each moving enemy has
`carHitStatus == true` if and only if `carMovementStatus == false`, and
`sphereMovementStatus == false` implies `carMovementStatus == false`. -/
theorem moving_status_invariant (E : Engine) (d0 : ℚ) (inps : List Input) (i : Fin 4) :
    (((frames E inps (initialGame d0)).movingEnemies i).carHitStatus = true ↔
      ((frames E inps (initialGame d0)).movingEnemies i).carMovementStatus = false) ∧
    (((frames E inps (initialGame d0)).movingEnemies i).sphereMovementStatus = false →
      ((frames E inps (initialGame d0)).movingEnemies i).carMovementStatus = false) :=
  frames_status E inps (initialGame d0) (initialGame_status d0) i


/-! ## Marker of a disabled moving enemy -/

theorem sphereMovementSpeedDecrease_eq : sphereMovementSpeedDecrease = 9 / 8 := by
  norm_num [sphereMovementSpeedDecrease]

theorem sphereMovementSpeedDefault_eq : sphereMovementSpeedDefault = 5 / 2 := by
  norm_num [sphereMovementSpeedDefault]

/-- The collision block of a moving enemy that is already hit leaves its flags,
its marker speed and its timer alone. -/
theorem movingCollision_of_hit (E : Engine) (i : Fin 4) (s : Game)
    (h : (s.movingEnemies i).carHitStatus = true) :
    ((movingCollision E i s).movingEnemies i).carMovementStatus =
      (s.movingEnemies i).carMovementStatus ∧
    ((movingCollision E i s).movingEnemies i).sphereMovementStatus =
      (s.movingEnemies i).sphereMovementStatus ∧
    ((movingCollision E i s).movingEnemies i).sphereMovementSpeed =
      (s.movingEnemies i).sphereMovementSpeed ∧
    (movingCollision E i s).resetCarTimes i = s.resetCarTimes i := by
  unfold movingCollision
  split_ifs
  · have ha : movingAward i (classify E (s.movingEnemies i).enemyCarModel s) =
        classify E (s.movingEnemies i).enemyCarModel s :=
      movingAward_of_hit i _ h
    obtain ⟨_, _, n3, _, n5, _⟩ := nudgePrevPos_sameEnemies
      (bounce (movingAward i (classify E (s.movingEnemies i).enemyCarModel s)))
    obtain ⟨_, _, b3, _, b5, _⟩ := bounce_sameEnemies
      (movingAward i (classify E (s.movingEnemies i).enemyCarModel s))
    unfold movingResolve
    dsimp only
    rw [n5, b5, n3, b3, ha, Function.update_same]
    exact ⟨rfl, rfl, rfl, rfl⟩
  · exact ⟨rfl, rfl, rfl, rfl⟩

/-- The marker block moves the marker and leaves flags and marker speed alone. -/
theorem sphereBob_marker (frameTime : ℚ) (i : Fin 4) (s : Game) :
    ((sphereBob frameTime i s).movingEnemies i).sphereMovementStatus =
      (s.movingEnemies i).sphereMovementStatus ∧
    ((sphereBob frameTime i s).movingEnemies i).sphereMovementSpeed =
      (s.movingEnemies i).sphereMovementSpeed := by
  unfold sphereBob
  dsimp only
  split_ifs <;> first | exact ⟨rfl, rfl⟩ | simp

/-- The recovery block on a disabled enemy, below the second threshold: the
marker speed decays below the first threshold, and at the first threshold the
marker is stopped and its speed reset. -/
theorem recovery_marker (frameTime : ℚ) (i : Fin 4) (s : Game)
    (h : (s.movingEnemies i).carMovementStatus = false) :
    (s.resetCarTimes i + frameTime < 3 →
      ((recovery frameTime i s).movingEnemies i).sphereMovementSpeed =
        (s.movingEnemies i).sphereMovementSpeed - sphereMovementSpeedDecrease * frameTime ∧
      ((recovery frameTime i s).movingEnemies i).sphereMovementStatus =
        (s.movingEnemies i).sphereMovementStatus) ∧
    (3 ≤ s.resetCarTimes i + frameTime → s.resetCarTimes i + frameTime < 15 →
      ((recovery frameTime i s).movingEnemies i).sphereMovementStatus = false ∧
      ((recovery frameTime i s).movingEnemies i).sphereMovementSpeed =
        sphereMovementSpeedDefault) := by
  unfold recovery
  rw [if_pos h]
  dsimp only
  simp only [Function.update_same, resetCarTimeThreshold1_eq, resetCarTimeThreshold2_eq]
  refine ⟨fun h3 => ?_, fun h3 h15 => ?_⟩
  · have c1 : ¬ (3 ≤ s.resetCarTimes i + frameTime) := not_le.mpr h3
    have c2 : ¬ (15 ≤ s.resetCarTimes i + frameTime) := not_le.mpr (by linarith)
    simp [c1, c2]
  · have c2 : ¬ (15 ≤ s.resetCarTimes i + frameTime) := not_le.mpr h15
    simp [h3, c2]

/-- The body of the moving loop on an enemy that is disabled and marked hit. -/
theorem movingBody_disabled (E : Engine) (frameTime : ℚ) (i : Fin 4) (s : Game)
    (hdis : (s.movingEnemies i).carMovementStatus = false)
    (hhit : (s.movingEnemies i).carHitStatus = true) :
    (movingBody E frameTime i s).resetCarTimes i = s.resetCarTimes i + frameTime ∧
    (s.resetCarTimes i + frameTime < 3 →
      ((movingBody E frameTime i s).movingEnemies i).sphereMovementSpeed =
        (s.movingEnemies i).sphereMovementSpeed - sphereMovementSpeedDecrease * frameTime ∧
      ((movingBody E frameTime i s).movingEnemies i).sphereMovementStatus =
        (s.movingEnemies i).sphereMovementStatus) ∧
    (3 ≤ s.resetCarTimes i + frameTime → s.resetCarTimes i + frameTime < 15 →
      ((movingBody E frameTime i s).movingEnemies i).sphereMovementStatus = false ∧
      ((movingBody E frameTime i s).movingEnemies i).sphereMovementSpeed =
        sphereMovementSpeedDefault) := by
  obtain ⟨c1, c2, c3, c4⟩ := movingCollision_of_hit E i s hhit
  obtain ⟨b1, b2⟩ := sphereBob_marker frameTime i (movingCollision E i s)
  have bt : (sphereBob frameTime i (movingCollision E i s)).resetCarTimes i = s.resetCarTimes i := by
    rw [(sphereBob_scoring frameTime i _).2.2, c4]
  have bdis : ((sphereBob frameTime i (movingCollision E i s)).movingEnemies i).carMovementStatus
      = false := by
    rw [(sphereBob_flags frameTime i i _).1, c1, hdis]
  have ht := recovery_timer frameTime i _ bdis
  obtain ⟨r1, r2⟩ := recovery_marker frameTime i _ bdis
  rw [bt] at ht r1 r2
  rw [b1, c2] at r1
  rw [b2, c3] at r1
  unfold movingBody
  rw [patrol_of_disabled frameTime i s hdis]
  exact ⟨ht, r1, r2⟩

/-- C21: in a playing frame from a reachable state in which moving enemy `i` is
disabled, the recovery timer of the enemy grows by the frame time; while the
updated timer is below 3.0 s the marker speed is reduced by 1.125 times the frame
time (and the marker flag is not changed); once the updated timer is at least
3.0 s and below 15.0 s the marker flag `sphereMovementStatus` is false and the
marker speed is the default 2.5. -/
theorem marker_during_recovery (E : Engine) (d0 : ℚ) (inps : List Input) (inp : Input)
    (i : Fin 4) (s : Game)
    (hs : s = frames E inps (initialGame d0))
    (hplay : s.gameState = GameState.GAME_PLAYING)
    (hdis : (s.movingEnemies i).carMovementStatus = false) :
    (frame E inp s).resetCarTimes i = s.resetCarTimes i + inp.frameTime ∧
    (s.resetCarTimes i + inp.frameTime < 3.0 →
      ((frame E inp s).movingEnemies i).sphereMovementSpeed =
        (s.movingEnemies i).sphereMovementSpeed - 1.125 * inp.frameTime ∧
      ((frame E inp s).movingEnemies i).sphereMovementStatus =
        (s.movingEnemies i).sphereMovementStatus) ∧
    (3.0 ≤ s.resetCarTimes i + inp.frameTime → s.resetCarTimes i + inp.frameTime < 15.0 →
      ((frame E inp s).movingEnemies i).sphereMovementStatus = false ∧
      ((frame E inp s).movingEnemies i).sphereMovementSpeed = 2.5) := by
  have hhit : (s.movingEnemies i).carHitStatus = true := by
    have h := frames_status E inps (initialGame d0) (initialGame_status d0) i
    rw [← hs] at h
    exact h.1.mpr hdis
  obtain ⟨p1, p2, p3, p4⟩ := playingFrame_enemy E inp i s
  obtain ⟨m1, m2, m3⟩ := movingBody_disabled E inp.frameTime i (atMovingTurn E inp i s)
    (by rw [p1]; exact hdis) (by rw [p1]; exact hhit)
  simp only [p1, p2] at m1 m2 m3
  rw [sphereMovementSpeedDecrease_eq] at m2
  rw [sphereMovementSpeedDefault_eq] at m3
  rw [frame_of_playing E inp s hplay, p3, p4]
  refine ⟨m1, fun h => ?_, fun h3 h15 => ?_⟩
  · obtain ⟨a, b⟩ := m2 (by norm_num at h ⊢; exact h)
    refine ⟨?_, b⟩
    rw [a]
    norm_num
  · obtain ⟨a, b⟩ := m3 (by norm_num at h3 ⊢; exact h3) (by norm_num at h15 ⊢; exact h15)
    refine ⟨a, ?_⟩
    rw [b]
    norm_num

/-- Evaluation of the run `runToHit` from the initial state: the game is playing
and moving enemy 0 is disabled. -/
theorem runToHit_facts :
    (frames exampleEngine runToHit (initialGame 0)).gameState = GameState.GAME_PLAYING ∧
    ((frames exampleEngine runToHit (initialGame 0)).movingEnemies 0).carMovementStatus
      = false := by
  decide!

/-- Witness of C21: the state after `runToHit`, in which moving enemy 0 is
disabled, and an idle frame of 0.5 s. -/
theorem marker_during_recovery_witness :
    (frame exampleEngine (idleInput 0.5)
      (frames exampleEngine runToHit (initialGame 0))).resetCarTimes 0 =
      (frames exampleEngine runToHit (initialGame 0)).resetCarTimes 0 +
        (idleInput 0.5).frameTime :=
  (marker_during_recovery exampleEngine 0 runToHit (idleInput 0.5) 0
    (frames exampleEngine runToHit (initialGame 0)) rfl
    runToHit_facts.1 runToHit_facts.2).1


/-! ## Range of the patrol -/

theorem movingCarRange_eq : movingCarRange = 30 := by norm_num [movingCarRange]

theorem carMovementSpeed_eq : carMovementSpeed = 15 := by norm_num [carMovementSpeed]

/-- One patrol step with a frame time in `[0, tau]` keeps the X coordinate within
`30 + 15 tau` of the origin. -/
theorem patrolStep_within (frameTime tau : ℚ) (moveOpposite : Bool) (m : Matrix4)
    (h0 : 0 ≤ frameTime) (h1 : frameTime ≤ tau)
    (hm : -(30 + 15 * tau) ≤ m.position.x ∧ m.position.x ≤ 30 + 15 * tau) :
    -(30 + 15 * tau) ≤ (patrolStep frameTime moveOpposite m).2.position.x ∧
    (patrolStep frameTime moveOpposite m).2.position.x ≤ 30 + 15 * tau := by
  obtain ⟨hm1, hm2⟩ := hm
  unfold patrolStep
  rw [movingCarRange_eq, carMovementSpeed_eq]
  split_ifs with c1 c2 c2
  · have c2' : m.m30 ≤ 30 := c2
    have hm1' : -(30 + 15 * tau) ≤ m.m30 := hm1
    show -(30 + 15 * tau) ≤ m.m30 + 15 * frameTime ∧ m.m30 + 15 * frameTime ≤ 30 + 15 * tau
    constructor <;> nlinarith
  · exact ⟨hm1, hm2⟩
  · have c2' : -30 ≤ m.m30 := c2
    have hm2' : m.m30 ≤ 30 + 15 * tau := hm2
    show -(30 + 15 * tau) ≤ m.m30 + -15 * frameTime ∧ m.m30 + -15 * frameTime ≤ 30 + 15 * tau
    constructor <;> nlinarith
  · exact ⟨hm1, hm2⟩

theorem patrol_within (frameTime tau : ℚ) (i : Fin 4) (s : Game)
    (h0 : 0 ≤ frameTime) (h1 : frameTime ≤ tau)
    (hs : ∀ k, (s.movingEnemies k).WithinX (30 + 15 * tau)) :
    ∀ k, ((patrol frameTime i s).movingEnemies k).WithinX (30 + 15 * tau) := by
  unfold patrol
  dsimp only
  split_ifs
  · exact movingAll_update i _ hs rfl
      (patrolStep_within frameTime tau s.moveOppositeCar1 _ h0 h1 (hs i))
  · exact movingAll_update i _ hs rfl
      (patrolStep_within frameTime tau s.moveOppositeCar2 _ h0 h1 (hs i))
  · exact hs

theorem movingAward_model (i k : Fin 4) (s : Game) :
    ((movingAward i s).movingEnemies k).enemyCarModel = (s.movingEnemies k).enemyCarModel := by
  unfold movingAward
  split_ifs
  · by_cases hk : k = i
    · subst hk; simp
    · simp [Function.update_noteq hk]
  · by_cases hk : k = i
    · subst hk; simp
    · simp [Function.update_noteq hk]
  · rfl
  · rfl

/-- The collision block does not move any moving enemy. -/
theorem movingCollision_model (E : Engine) (i k : Fin 4) (s : Game) :
    ((movingCollision E i s).movingEnemies k).enemyCarModel =
      (s.movingEnemies k).enemyCarModel := by
  unfold movingCollision
  split_ifs
  · have ha := movingAward_model i k (classify E (s.movingEnemies i).enemyCarModel s)
    have n5 := (nudgePrevPos_sameEnemies
      (bounce (movingAward i (classify E (s.movingEnemies i).enemyCarModel s)))).2.2.2.2.1
    have b5 := (bounce_sameEnemies
      (movingAward i (classify E (s.movingEnemies i).enemyCarModel s))).2.2.2.2.1
    unfold movingResolve
    dsimp only
    rw [n5, b5]
    by_cases hk : k = i
    · subst hk
      simpa using ha
    · simpa [Function.update_noteq hk] using ha
  · rfl

/-- The marker block does not move any moving enemy. -/
theorem sphereBob_model (frameTime : ℚ) (i k : Fin 4) (s : Game) :
    ((sphereBob frameTime i s).movingEnemies k).enemyCarModel =
      (s.movingEnemies k).enemyCarModel := by
  unfold sphereBob
  dsimp only
  split_ifs
  · by_cases hk : k = i
    · subst hk; simp
    · simp [Function.update_noteq hk]
  · rfl
  · by_cases hk : k = i
    · subst hk; simp
    · simp [Function.update_noteq hk]
  · rfl
  · rfl

/-- The recovery block does not move any moving enemy. -/
theorem recovery_model (frameTime : ℚ) (i k : Fin 4) (s : Game) :
    ((recovery frameTime i s).movingEnemies k).enemyCarModel =
      (s.movingEnemies k).enemyCarModel := by
  by_cases hk : k = i
  · subst hk
    unfold recovery
    dsimp only
    split_ifs <;> simp [(reverseScore_fields _).2.2]
  · rw [recovery_enemy_other frameTime i k s hk]

theorem within_of_model {M : ℚ} {s t : Game}
    (h : ∀ k, (t.movingEnemies k).enemyCarModel = (s.movingEnemies k).enemyCarModel)
    (hs : ∀ k, (s.movingEnemies k).WithinX M) : ∀ k, (t.movingEnemies k).WithinX M := by
  intro k
  have hk := hs k
  unfold EnemyCars.WithinX at hk ⊢
  rw [h k]
  exact hk

theorem movingBody_within (E : Engine) (frameTime tau : ℚ) (i : Fin 4) (s : Game)
    (h0 : 0 ≤ frameTime) (h1 : frameTime ≤ tau)
    (hs : ∀ k, (s.movingEnemies k).WithinX (30 + 15 * tau)) :
    ∀ k, ((movingBody E frameTime i s).movingEnemies k).WithinX (30 + 15 * tau) := by
  unfold movingBody
  refine within_of_model (fun k => recovery_model frameTime i k _) ?_
  refine within_of_model (fun k => sphereBob_model frameTime i k _) ?_
  refine within_of_model (fun k => movingCollision_model E i k _) ?_
  exact patrol_within frameTime tau i s h0 h1 hs

theorem movingLoop_within (E : Engine) (frameTime tau : ℚ) (s : Game)
    (h0 : 0 ≤ frameTime) (h1 : frameTime ≤ tau)
    (hs : ∀ k, (s.movingEnemies k).WithinX (30 + 15 * tau)) :
    ∀ k, ((movingLoop E frameTime s).movingEnemies k).WithinX (30 + 15 * tau) := by
  unfold movingLoop
  exact movingBody_within E _ tau 3 _ h0 h1 (movingBody_within E _ tau 2 _ h0 h1
    (movingBody_within E _ tau 1 _ h0 h1 (movingBody_within E _ tau 0 s h0 h1 hs)))

theorem playingCase_within (E : Engine) (inp : Input) (tau : ℚ) (s : Game)
    (h0 : 0 ≤ inp.frameTime) (h1 : inp.frameTime ≤ tau)
    (hs : ∀ k, (s.movingEnemies k).WithinX (30 + 15 * tau)) :
    ∀ k, ((playingCase E inp s).movingEnemies k).WithinX (30 + 15 * tau) := by
  unfold playingCase
  refine movingAll_of_eq (winLoss_sameEnemies _).2.2.2.2.1
    (movingLoop_within E _ tau _ h0 h1 ?_)
  refine movingAll_of_eq (staticLoop_movingEnemies E _).1 ?_
  refine movingAll_of_eq (treeLoop_sameEnemies E _).2.2.2.2.1 ?_
  exact movingAll_of_eq (physics_sameEnemies E inp s).2.2.2.2.1 hs

theorem restart_within (tau : ℚ) (htau : 0 ≤ tau) (s : Game) :
    ∀ k, ((restart s).movingEnemies k).WithinX (30 + 15 * tau) := by
  intro k
  obtain ⟨_, _, _, _, _, r6, _⟩ := restart_facts s
  obtain ⟨a1, _⟩ := r6 k
  unfold EnemyCars.WithinX
  rw [a1]
  rcases fin4_cases k with rfl | rfl | rfl | rfl <;>
    (simp only [enemyMovingCarPositions]; constructor <;> linarith)

theorem frame_within (E : Engine) (inp : Input) (tau : ℚ) (s : Game)
    (h0 : 0 ≤ inp.frameTime) (h1 : inp.frameTime ≤ tau)
    (hs : ∀ k, (s.movingEnemies k).WithinX (30 + 15 * tau)) :
    ∀ k, ((frame E inp s).movingEnemies k).WithinX (30 + 15 * tau) := by
  have h : ∀ k, ((capturePrevPos s).movingEnemies k).WithinX (30 + 15 * tau) := hs
  unfold frame
  dsimp only
  split
  · exact playingCase_within E inp tau _ h0 h1 h
  · exact movingAll_of_eq (pausedCase_sameEnemies inp _).2.2.2.2.1 h
  · unfold overCase
    split_ifs
    · exact restart_within tau (le_trans h0 h1) _
    · exact h

theorem frames_within (E : Engine) (inps : List Input) (tau : ℚ) (s : Game)
    (htimes : ∀ inp ∈ inps, 0 < inp.frameTime ∧ inp.frameTime ≤ tau)
    (hs : ∀ k, (s.movingEnemies k).WithinX (30 + 15 * tau)) :
    ∀ k, ((frames E inps s).movingEnemies k).WithinX (30 + 15 * tau) := by
  induction inps generalizing s with
  | nil => exact hs
  | cons inp rest ih =>
    exact ih (frame E inp s) (fun a ha => htimes a (List.mem_cons_of_mem _ ha))
      (frame_within E inp tau s (le_of_lt (htimes inp (List.mem_cons_self _ _)).1)
        (htimes inp (List.mem_cons_self _ _)).2 hs)

/-- The body of the moving loop does not move its enemy while the enemy is
disabled. -/
theorem movingBody_model_of_disabled (E : Engine) (frameTime : ℚ) (i : Fin 4) (s : Game)
    (h : (s.movingEnemies i).carMovementStatus = false) :
    ((movingBody E frameTime i s).movingEnemies i).enemyCarModel =
      (s.movingEnemies i).enemyCarModel := by
  unfold movingBody
  rw [recovery_model, sphereBob_model, movingCollision_model,
    patrol_of_disabled frameTime i s h]

/-- C22, as amended: for moving enemies whose X coordinates start within
`[-30, 30]`, after any number of loop iterations with frame times in `(0, tau]`
(each playing iteration makes one patrol step per enabled enemy) every X
coordinate lies within `[-(30 + 15 tau), 30 + 15 tau]`; and a patrol step, and a
whole playing frame, leave the model of an enemy where it is while its
`carMovementStatus` is false. -/
theorem patrol_range (E : Engine) (tau : ℚ) (inps : List Input) (s : Game)
    (htau : 0 ≤ tau)
    (htimes : ∀ inp ∈ inps, 0 < inp.frameTime ∧ inp.frameTime ≤ tau)
    (hstart : ∀ i, -30 ≤ (s.movingEnemies i).enemyCarModel.position.x ∧
      (s.movingEnemies i).enemyCarModel.position.x ≤ 30) :
    (∀ i, -(30 + 15 * tau) ≤ ((frames E inps s).movingEnemies i).enemyCarModel.position.x ∧
      ((frames E inps s).movingEnemies i).enemyCarModel.position.x ≤ 30 + 15 * tau) ∧
    (∀ (inp : Input) (i : Fin 4) (t : Game), (t.movingEnemies i).carMovementStatus = false →
      ((patrol inp.frameTime i t).movingEnemies i).enemyCarModel =
        (t.movingEnemies i).enemyCarModel ∧
      ((playingFrame E inp t).movingEnemies i).enemyCarModel =
        (t.movingEnemies i).enemyCarModel) := by
  refine ⟨?_, fun inp i t hdis => ⟨?_, ?_⟩⟩
  · refine frames_within E inps tau s htimes (fun k => ?_)
    obtain ⟨a, b⟩ := hstart k
    exact ⟨by linarith, by linarith⟩
  · rw [patrol_of_disabled inp.frameTime i t hdis]
  · obtain ⟨p1, _, p3, _⟩ := playingFrame_enemy E inp i t
    rw [p3, movingBody_model_of_disabled E inp.frameTime i _ (by rw [p1]; exact hdis), p1]

/-- Witness of C22 as amended: six idle frames of 0.7 s from the initial state;
the X coordinate of moving enemy 0 is at most 40.5. -/
theorem patrol_range_witness :
    ((frames exampleEngine runToOvershoot (initialGame 0)).movingEnemies
      0).enemyCarModel.position.x ≤ 30 + 15 * 0.7 :=
  ((patrol_range exampleEngine 0.7 runToOvershoot (initialGame 0)
    (by norm_num) (by decide!) (by decide!)).1 0).2

/-- Counterexample to C22 as stated: moving enemy 0 starts at X = -30, within the
range.  In six playing frames of 0.7 s it makes six patrol steps of 10.5; it is
at X = 22.5 after five of them and at X = 33, outside `[-30, 30]`, after the
sixth, the step being taken whenever X is at most 30.  Moving enemy 1 starts at
X = 30 and is at X = 40.5 after the first frame. -/
theorem patrol_leaves_range :
    ((initialGame 0).movingEnemies 0).enemyCarModel.position.x = -30 ∧
    ((initialGame 0).movingEnemies 1).enemyCarModel.position.x = 30 ∧
    ((frames exampleEngine (runToOvershoot.take 1) (initialGame 0)).movingEnemies
      1).enemyCarModel.position.x = 40.5 ∧
    ((frames exampleEngine (runToOvershoot.take 5) (initialGame 0)).movingEnemies
      0).enemyCarModel.position.x = 22.5 ∧
    (frames exampleEngine (runToOvershoot.take 5) (initialGame 0)).gameState =
      GameState.GAME_PLAYING ∧
    ((frames exampleEngine (runToOvershoot.take 5) (initialGame 0)).movingEnemies
      0).carMovementStatus = true ∧
    ((frames exampleEngine runToOvershoot (initialGame 0)).movingEnemies
      0).enemyCarModel.position.x = 33 := by
  decide!


/-! ## Yaw of the player car through a playing frame -/

theorem turningVelocity_eq : turningVelocity = 100 := rfl

theorem translate_yaw (E : Engine) (inp : Input) (s : Game) :
    (translate E inp s).playerCarModel.yaw = s.playerCarModel.yaw := rfl

theorem steeringFlags_player (inp : Input) (s : Game) :
    (steeringFlags inp s).playerCarModel = s.playerCarModel := by
  unfold steeringFlags
  split_ifs <;> rfl

theorem bounceRecovery_player (inp : Input) (s : Game) :
    (bounceRecovery inp s).playerCarModel = s.playerCarModel := by
  unfold bounceRecovery
  dsimp only
  split_ifs <;> rfl

theorem wheelSteer_player (s : Game) : (wheelSteer s).playerCarModel = s.playerCarModel := by
  unfold wheelSteer
  split_ifs <;> rfl

theorem pauseKey_player (inp : Input) (s : Game) :
    (pauseKey inp s).playerCarModel = s.playerCarModel := by
  unfold pauseKey
  split_ifs <;> rfl

/-- The turn made by the `KeyHeld(Key_W)` block. -/
theorem forwardChannel_yaw (inp : Input) (s : Game) :
    (forwardChannel inp s).playerCarModel.yaw = s.playerCarModel.yaw +
      (if inp.heldW = true then
        (if inp.heldD = true ∧ inp.heldA = false then turningVelocity * inp.frameTime
         else if inp.heldA = true ∧ inp.heldD = false then -turningVelocity * inp.frameTime
         else 0)
       else 0) := by
  unfold forwardChannel
  dsimp only
  cases inp.heldW <;> cases inp.heldD <;> cases inp.heldA <;>
    simp [PlayerCar.rotateY] <;> split_ifs <;> simp

/-- The turn made by the `KeyHeld(Key_S)` block. -/
theorem backwardChannel_yaw (inp : Input) (s : Game) :
    (backwardChannel inp s).playerCarModel.yaw = s.playerCarModel.yaw +
      (if inp.heldS = true then
        (if inp.heldQ = true ∧ inp.heldA = false then -turningVelocity * inp.frameTime
         else if inp.heldA = true ∧ inp.heldD = false then turningVelocity * inp.frameTime
         else 0)
       else 0) := by
  unfold backwardChannel
  dsimp only
  cases inp.heldS <;> cases inp.heldQ <;> cases inp.heldA <;> cases inp.heldD <;>
    simp [PlayerCar.rotateY] <;> split_ifs <;> simp

/-- The yaw after the input and physics part: the turns of the two key blocks. -/
theorem physics_yaw (E : Engine) (inp : Input) (s : Game) :
    (physics E inp s).playerCarModel.yaw = s.playerCarModel.yaw +
      (if inp.heldW = true then
        (if inp.heldD = true ∧ inp.heldA = false then turningVelocity * inp.frameTime
         else if inp.heldA = true ∧ inp.heldD = false then -turningVelocity * inp.frameTime
         else 0)
       else 0) +
      (if inp.heldS = true then
        (if inp.heldQ = true ∧ inp.heldA = false then -turningVelocity * inp.frameTime
         else if inp.heldA = true ∧ inp.heldD = false then turningVelocity * inp.frameTime
         else 0)
       else 0) := by
  unfold physics
  rw [wheelSteer_player, bounceRecovery_player, translate_yaw, steeringFlags_player,
    backwardChannel_yaw, forwardChannel_yaw, pauseKey_player]

theorem treeBody_yaw (tree : Vector3) (s : Game) :
    (treeBody tree s).playerCarModel.yaw = s.playerCarModel.yaw := by
  unfold treeBody
  dsimp only
  split_ifs
  · show (bounce s).playerCarModel.yaw = s.playerCarModel.yaw
    rw [(bounce_other_fields s).2.2.2.2]
  · rfl

theorem treeLoopFrom_yaw (trees : List Vector3) (s : Game) :
    (treeLoopFrom trees s).playerCarModel.yaw = s.playerCarModel.yaw := by
  induction trees generalizing s with
  | nil => rfl
  | cons tree rest ih =>
    have h : treeLoopFrom (tree :: rest) s = treeLoopFrom rest (treeBody tree s) := rfl
    rw [h, ih, treeBody_yaw]

theorem classify_yaw (E : Engine) (m : Matrix4) (s : Game) :
    (classify E m s).playerCarModel.yaw = s.playerCarModel.yaw := rfl

theorem staticAward_player (i : Fin 4) (s : Game) :
    (staticAward i s).playerCarModel = s.playerCarModel := by
  unfold staticAward
  split_ifs <;> rfl

theorem movingAward_player (i : Fin 4) (s : Game) :
    (movingAward i s).playerCarModel = s.playerCarModel := by
  unfold movingAward
  split_ifs <;> rfl

theorem nudgePrevPos_player (s : Game) : (nudgePrevPos s).playerCarModel = s.playerCarModel := by
  unfold nudgePrevPos
  dsimp only
  split_ifs <;> rfl

theorem staticBody_yaw (E : Engine) (i : Fin 4) (s : Game) :
    (staticBody E i s).playerCarModel.yaw = s.playerCarModel.yaw := by
  unfold staticBody
  split_ifs
  · show (bounce (staticAward i (classify E (s.staticEnemies i).enemyCarModel s))).playerCarModel.yaw
      = s.playerCarModel.yaw
    rw [(bounce_other_fields _).2.2.2.2, staticAward_player, classify_yaw]
  · rfl

theorem staticLoop_yaw (E : Engine) (s : Game) :
    (staticLoop E s).playerCarModel.yaw = s.playerCarModel.yaw := by
  unfold staticLoop
  rw [staticBody_yaw, staticBody_yaw, staticBody_yaw, staticBody_yaw]

theorem patrol_player (frameTime : ℚ) (i : Fin 4) (s : Game) :
    (patrol frameTime i s).playerCarModel = s.playerCarModel ∧
    (patrol frameTime i s).prevPosX = s.prevPosX ∧
    (patrol frameTime i s).prevPosY = s.prevPosY ∧
    (patrol frameTime i s).prevPosZ = s.prevPosZ := by
  unfold patrol
  dsimp only
  split_ifs <;> exact ⟨rfl, rfl, rfl, rfl⟩

theorem sphereBob_player (frameTime : ℚ) (i : Fin 4) (s : Game) :
    (sphereBob frameTime i s).playerCarModel = s.playerCarModel ∧
    (sphereBob frameTime i s).prevPosX = s.prevPosX ∧
    (sphereBob frameTime i s).prevPosY = s.prevPosY ∧
    (sphereBob frameTime i s).prevPosZ = s.prevPosZ := by
  unfold sphereBob
  dsimp only
  split_ifs <;> exact ⟨rfl, rfl, rfl, rfl⟩

theorem reverseScore_player (s : Game) :
    (reverseScore s).playerCarModel = s.playerCarModel ∧
    (reverseScore s).prevPosX = s.prevPosX ∧
    (reverseScore s).prevPosY = s.prevPosY ∧
    (reverseScore s).prevPosZ = s.prevPosZ := by
  unfold reverseScore
  split_ifs <;> exact ⟨rfl, rfl, rfl, rfl⟩

theorem recovery_player (frameTime : ℚ) (i : Fin 4) (s : Game) :
    (recovery frameTime i s).playerCarModel = s.playerCarModel ∧
    (recovery frameTime i s).prevPosX = s.prevPosX ∧
    (recovery frameTime i s).prevPosY = s.prevPosY ∧
    (recovery frameTime i s).prevPosZ = s.prevPosZ := by
  unfold recovery
  dsimp only
  split_ifs <;>
    first
    | exact ⟨rfl, rfl, rfl, rfl⟩
    | exact reverseScore_player _

theorem movingCollision_yaw (E : Engine) (i : Fin 4) (s : Game) :
    (movingCollision E i s).playerCarModel.yaw = s.playerCarModel.yaw := by
  unfold movingCollision
  split_ifs
  · show (nudgePrevPos (bounce (movingAward i
      (classify E (s.movingEnemies i).enemyCarModel s)))).playerCarModel.yaw = s.playerCarModel.yaw
    rw [nudgePrevPos_player, (bounce_other_fields _).2.2.2.2, movingAward_player, classify_yaw]
  · rfl

theorem movingBody_yaw (E : Engine) (frameTime : ℚ) (i : Fin 4) (s : Game) :
    (movingBody E frameTime i s).playerCarModel.yaw = s.playerCarModel.yaw := by
  unfold movingBody
  rw [(recovery_player frameTime i _).1, (sphereBob_player frameTime i _).1,
    movingCollision_yaw, (patrol_player frameTime i s).1]

theorem movingLoop_yaw (E : Engine) (frameTime : ℚ) (s : Game) :
    (movingLoop E frameTime s).playerCarModel.yaw = s.playerCarModel.yaw := by
  unfold movingLoop
  rw [movingBody_yaw, movingBody_yaw, movingBody_yaw, movingBody_yaw]

theorem winLoss_player (s : Game) :
    (winLoss s).playerCarModel = s.playerCarModel := by
  unfold winLoss
  dsimp only
  split_ifs <;> rfl

/-- The yaw after a playing frame: the turns of the two key blocks; nothing
else in the frame turns the car. -/
theorem playingFrame_yaw (E : Engine) (inp : Input) (s : Game) :
    (playingFrame E inp s).playerCarModel.yaw = s.playerCarModel.yaw +
      (if inp.heldW = true then
        (if inp.heldD = true ∧ inp.heldA = false then turningVelocity * inp.frameTime
         else if inp.heldA = true ∧ inp.heldD = false then -turningVelocity * inp.frameTime
         else 0)
       else 0) +
      (if inp.heldS = true then
        (if inp.heldQ = true ∧ inp.heldA = false then -turningVelocity * inp.frameTime
         else if inp.heldA = true ∧ inp.heldD = false then turningVelocity * inp.frameTime
         else 0)
       else 0) := by
  unfold playingFrame playingCase
  rw [winLoss_player, movingLoop_yaw, staticLoop_yaw]
  unfold treeLoop
  rw [treeLoopFrom_yaw, physics_yaw]
  rfl

/-- C23, the code: in a playing frame with reverse held and accelerate not held
the yaw changes by `-100 * frameTime` when `Q` is held and `A` is not, by
`+100 * frameTime` when `A` is held and `D` is not (and the first case does not
apply), and not at all otherwise; with accelerate held and reverse not held it
changes by `+100 * frameTime` for `D` without `A`, by `-100 * frameTime` for `A`
without `D`, and not at all otherwise; with neither held it does not change.
So in reverse the key `D` alone does not turn the car, `Q` alone turns it while
neither `A` nor `D` is held, and `Q` and `A` held together turn it. -/
theorem reverse_turning (E : Engine) (inp : Input) (s : Game)
    (hplay : s.gameState = GameState.GAME_PLAYING) :
    (inp.heldW = false → inp.heldS = true →
      (frame E inp s).playerCarModel.yaw = s.playerCarModel.yaw +
        (if inp.heldQ = true ∧ inp.heldA = false then -(100 * inp.frameTime)
         else if inp.heldA = true ∧ inp.heldD = false then 100 * inp.frameTime
         else 0)) ∧
    (inp.heldW = true → inp.heldS = false →
      (frame E inp s).playerCarModel.yaw = s.playerCarModel.yaw +
        (if inp.heldD = true ∧ inp.heldA = false then 100 * inp.frameTime
         else if inp.heldA = true ∧ inp.heldD = false then -(100 * inp.frameTime)
         else 0)) ∧
    (inp.heldW = false → inp.heldS = false →
      (frame E inp s).playerCarModel.yaw = s.playerCarModel.yaw) := by
  rw [frame_of_playing E inp s hplay, playingFrame_yaw, turningVelocity_eq]
  refine ⟨fun hw hs => ?_, fun hw hs => ?_, fun hw hs => ?_⟩
  · rw [hw, hs]
    simp only [Bool.false_eq_true, if_false, if_true, add_zero]
    split_ifs <;> ring
  · rw [hw, hs]
    simp only [Bool.false_eq_true, if_false, if_true, add_zero]
    split_ifs <;> ring
  · rw [hw, hs]
    simp

/-- Witness of C23: from the initial state, a playing frame of 0.1 s with
reverse and `D` held leaves the yaw at 0. -/
theorem reverse_turning_witness :
    (frame exampleEngine (heldInput 0.1 false true false true false)
      (initialGame 0)).playerCarModel.yaw = 0 :=
  ((reverse_turning exampleEngine (heldInput 0.1 false true false true false)
    (initialGame 0) rfl).1 rfl rfl).trans (by decide!)


/-! ## The saved position through a playing frame -/

theorem pauseKey_prevPos (inp : Input) (s : Game) :
    (pauseKey inp s).prevPosX = s.prevPosX ∧ (pauseKey inp s).prevPosY = s.prevPosY ∧
    (pauseKey inp s).prevPosZ = s.prevPosZ := by
  unfold pauseKey
  split_ifs <;> exact ⟨rfl, rfl, rfl⟩

theorem forwardChannel_prevPos (inp : Input) (s : Game) :
    (forwardChannel inp s).prevPosX = s.prevPosX ∧
    (forwardChannel inp s).prevPosY = s.prevPosY ∧
    (forwardChannel inp s).prevPosZ = s.prevPosZ := by
  unfold forwardChannel
  dsimp only
  split_ifs <;> exact ⟨rfl, rfl, rfl⟩

theorem backwardChannel_prevPos (inp : Input) (s : Game) :
    (backwardChannel inp s).prevPosX = s.prevPosX ∧
    (backwardChannel inp s).prevPosY = s.prevPosY ∧
    (backwardChannel inp s).prevPosZ = s.prevPosZ := by
  unfold backwardChannel
  dsimp only
  split_ifs <;> exact ⟨rfl, rfl, rfl⟩

theorem steeringFlags_prevPos (inp : Input) (s : Game) :
    (steeringFlags inp s).prevPosX = s.prevPosX ∧
    (steeringFlags inp s).prevPosY = s.prevPosY ∧
    (steeringFlags inp s).prevPosZ = s.prevPosZ := by
  unfold steeringFlags
  split_ifs <;> exact ⟨rfl, rfl, rfl⟩

theorem bounceRecovery_prevPos (inp : Input) (s : Game) :
    (bounceRecovery inp s).prevPosX = s.prevPosX ∧
    (bounceRecovery inp s).prevPosY = s.prevPosY ∧
    (bounceRecovery inp s).prevPosZ = s.prevPosZ := by
  unfold bounceRecovery
  dsimp only
  split_ifs <;> exact ⟨rfl, rfl, rfl⟩

theorem wheelSteer_prevPos (s : Game) :
    (wheelSteer s).prevPosX = s.prevPosX ∧ (wheelSteer s).prevPosY = s.prevPosY ∧
    (wheelSteer s).prevPosZ = s.prevPosZ := by
  unfold wheelSteer
  split_ifs <;> exact ⟨rfl, rfl, rfl⟩

theorem physics_prevPos (E : Engine) (inp : Input) (s : Game) :
    (physics E inp s).prevPosX = s.prevPosX ∧ (physics E inp s).prevPosY = s.prevPosY ∧
    (physics E inp s).prevPosZ = s.prevPosZ := by
  obtain ⟨a1, a2, a3⟩ := pauseKey_prevPos inp s
  obtain ⟨b1, b2, b3⟩ := forwardChannel_prevPos inp (pauseKey inp s)
  obtain ⟨c1, c2, c3⟩ := backwardChannel_prevPos inp (forwardChannel inp (pauseKey inp s))
  obtain ⟨d1, d2, d3⟩ := steeringFlags_prevPos inp
    (backwardChannel inp (forwardChannel inp (pauseKey inp s)))
  obtain ⟨e1, e2, e3⟩ := bounceRecovery_prevPos inp (translate E inp (steeringFlags inp
    (backwardChannel inp (forwardChannel inp (pauseKey inp s)))))
  obtain ⟨f1, f2, f3⟩ := wheelSteer_prevPos (bounceRecovery inp (translate E inp
    (steeringFlags inp (backwardChannel inp (forwardChannel inp (pauseKey inp s))))))
  have t1 : ∀ t : Game, (translate E inp t).prevPosX = t.prevPosX ∧
      (translate E inp t).prevPosY = t.prevPosY ∧ (translate E inp t).prevPosZ = t.prevPosZ :=
    fun _ => ⟨rfl, rfl, rfl⟩
  obtain ⟨g1, g2, g3⟩ := t1 (steeringFlags inp
    (backwardChannel inp (forwardChannel inp (pauseKey inp s))))
  unfold physics
  exact ⟨f1.trans (e1.trans (g1.trans (d1.trans (c1.trans (b1.trans a1))))),
    f2.trans (e2.trans (g2.trans (d2.trans (c2.trans (b2.trans a2))))),
    f3.trans (e3.trans (g3.trans (d3.trans (c3.trans (b3.trans a3)))))⟩

theorem treeBody_prevPos (tree : Vector3) (s : Game) :
    (treeBody tree s).prevPosX = s.prevPosX ∧ (treeBody tree s).prevPosY = s.prevPosY ∧
    (treeBody tree s).prevPosZ = s.prevPosZ := by
  obtain ⟨_, h2, h3, h4, _⟩ := bounce_other_fields s
  unfold treeBody
  dsimp only
  split_ifs
  · exact ⟨h2, h3, h4⟩
  · exact ⟨rfl, rfl, rfl⟩

theorem treeLoopFrom_prevPos (trees : List Vector3) (s : Game) :
    (treeLoopFrom trees s).prevPosX = s.prevPosX ∧
    (treeLoopFrom trees s).prevPosY = s.prevPosY ∧
    (treeLoopFrom trees s).prevPosZ = s.prevPosZ := by
  induction trees generalizing s with
  | nil => exact ⟨rfl, rfl, rfl⟩
  | cons tree rest ih =>
    have h : treeLoopFrom (tree :: rest) s = treeLoopFrom rest (treeBody tree s) := rfl
    obtain ⟨a1, a2, a3⟩ := ih (treeBody tree s)
    obtain ⟨b1, b2, b3⟩ := treeBody_prevPos tree s
    rw [h]
    exact ⟨a1.trans b1, a2.trans b2, a3.trans b3⟩

theorem staticAward_prevPos (i : Fin 4) (s : Game) :
    (staticAward i s).prevPosX = s.prevPosX ∧ (staticAward i s).prevPosY = s.prevPosY ∧
    (staticAward i s).prevPosZ = s.prevPosZ := by
  unfold staticAward
  split_ifs <;> exact ⟨rfl, rfl, rfl⟩

theorem staticBody_prevPos (E : Engine) (i : Fin 4) (s : Game) :
    (staticBody E i s).prevPosX = s.prevPosX ∧ (staticBody E i s).prevPosY = s.prevPosY ∧
    (staticBody E i s).prevPosZ = s.prevPosZ := by
  obtain ⟨_, b2, b3, b4, _⟩ := bounce_other_fields
    (staticAward i (classify E (s.staticEnemies i).enemyCarModel s))
  obtain ⟨a1, a2, a3⟩ := staticAward_prevPos i (classify E (s.staticEnemies i).enemyCarModel s)
  unfold staticBody
  split_ifs
  · unfold staticResolve
    dsimp only
    exact ⟨b2.trans a1, b3.trans a2, b4.trans a3⟩
  · exact ⟨rfl, rfl, rfl⟩

theorem staticLoop_prevPos (E : Engine) (s : Game) :
    (staticLoop E s).prevPosX = s.prevPosX ∧ (staticLoop E s).prevPosY = s.prevPosY ∧
    (staticLoop E s).prevPosZ = s.prevPosZ := by
  obtain ⟨a1, a2, a3⟩ := staticBody_prevPos E 0 s
  obtain ⟨b1, b2, b3⟩ := staticBody_prevPos E 1 (staticBody E 0 s)
  obtain ⟨c1, c2, c3⟩ := staticBody_prevPos E 2 (staticBody E 1 (staticBody E 0 s))
  obtain ⟨d1, d2, d3⟩ := staticBody_prevPos E 3
    (staticBody E 2 (staticBody E 1 (staticBody E 0 s)))
  unfold staticLoop
  exact ⟨d1.trans (c1.trans (b1.trans a1)), d2.trans (c2.trans (b2.trans a2)),
    d3.trans (c3.trans (b3.trans a3))⟩

/-- As the moving loop of a playing frame starts, the saved position is the
position that the player had at the start of the frame. -/
theorem beforeMovingLoop_prevPos (E : Engine) (inp : Input) (s : Game) :
    (staticLoop E (treeLoop E (physics E inp (capturePrevPos s)))).prevPosX =
      s.playerCarModel.pos.x ∧
    (staticLoop E (treeLoop E (physics E inp (capturePrevPos s)))).prevPosY =
      s.playerCarModel.pos.y ∧
    (staticLoop E (treeLoop E (physics E inp (capturePrevPos s)))).prevPosZ =
      s.playerCarModel.pos.z := by
  obtain ⟨a1, a2, a3⟩ := staticLoop_prevPos E (treeLoop E (physics E inp (capturePrevPos s)))
  obtain ⟨b1, b2, b3⟩ := treeLoopFrom_prevPos E.perimeterTrees (physics E inp (capturePrevPos s))
  obtain ⟨c1, c2, c3⟩ := physics_prevPos E inp (capturePrevPos s)
  exact ⟨a1.trans (b1.trans c1), a2.trans (b2.trans c2), a3.trans (b3.trans c3)⟩

/-! ## The roll-back of a moving-enemy overlap -/

/-- Without overlap the body of the moving loop leaves the player car and the
saved position alone. -/
theorem movingBody_player_of_noOverlap (E : Engine) (frameTime : ℚ) (i : Fin 4) (s : Game)
    (h : movingOverlap i (patrol frameTime i s) = false) :
    (movingBody E frameTime i s).playerCarModel = s.playerCarModel ∧
    (movingBody E frameTime i s).prevPosX = s.prevPosX ∧
    (movingBody E frameTime i s).prevPosY = s.prevPosY ∧
    (movingBody E frameTime i s).prevPosZ = s.prevPosZ := by
  rw [movingBody_of_noOverlap E frameTime i s h]
  obtain ⟨a0, a1, a2, a3⟩ := recovery_player frameTime i
    (sphereBob frameTime i (patrol frameTime i s))
  obtain ⟨b0, b1, b2, b3⟩ := sphereBob_player frameTime i (patrol frameTime i s)
  obtain ⟨c0, c1, c2, c3⟩ := patrol_player frameTime i s
  exact ⟨a0.trans (b0.trans c0), a1.trans (b1.trans c1), a2.trans (b2.trans c2),
    a3.trans (b3.trans c3)⟩

/-- The saved position after the nudge, in terms of the saved position before. -/
theorem nudgePrevPos_prevPos (s : Game) :
    (nudgePrevPos s).prevPosX = s.prevPosX + (if s.prevPosX < 0 then -1 else 1) * 0.01 ∧
    (nudgePrevPos s).prevPosY = s.prevPosY ∧
    (nudgePrevPos s).prevPosZ = s.prevPosZ + (if s.prevPosZ < 0 then -1 else 1) * 0.01 := by
  unfold nudgePrevPos positionIncrement
  dsimp only
  split_ifs <;> refine ⟨?_, rfl, ?_⟩ <;> ring

/-- With overlap the body of the moving loop puts the player car at the saved
position, nudged by 0.01 away from the origin in X and in Z, and applies the
bounce response. -/
theorem movingBody_player_of_overlap (E : Engine) (frameTime : ℚ) (i : Fin 4) (s : Game)
    (h : movingOverlap i (patrol frameTime i s) = true) :
    (movingBody E frameTime i s).playerCarModel.pos =
      ⟨s.prevPosX + (if s.prevPosX < 0 then -1 else 1) * 0.01, s.prevPosY,
       s.prevPosZ + (if s.prevPosZ < 0 then -1 else 1) * 0.01⟩ ∧
    BounceSpec s (movingBody E frameTime i s) := by
  obtain ⟨c0, c1, c2, c3⟩ := patrol_player frameTime i s
  obtain ⟨p1, p2⟩ := patrol_velocities frameTime i s
  have hcol : movingCollision E i (patrol frameTime i s) =
      movingResolve E i (patrol frameTime i s) := by
    unfold movingCollision; rw [if_pos h]
  constructor
  · unfold movingBody
    rw [(recovery_player frameTime i _).1, (sphereBob_player frameTime i _).1, hcol]
    obtain ⟨n1, n2, n3⟩ := nudgePrevPos_prevPos (bounce (movingAward i
      (classify E ((patrol frameTime i s).movingEnemies i).enemyCarModel (patrol frameTime i s))))
    obtain ⟨_, b2, b3, b4, _⟩ := bounce_other_fields (movingAward i
      (classify E ((patrol frameTime i s).movingEnemies i).enemyCarModel (patrol frameTime i s)))
    have a1 : ∀ t : Game, (movingAward i t).prevPosX = t.prevPosX ∧
        (movingAward i t).prevPosY = t.prevPosY ∧ (movingAward i t).prevPosZ = t.prevPosZ := by
      intro t
      unfold movingAward
      split_ifs <;> exact ⟨rfl, rfl, rfl⟩
    obtain ⟨a1x, a1y, a1z⟩ := a1
      (classify E ((patrol frameTime i s).movingEnemies i).enemyCarModel (patrol frameTime i s))
    rw [b2, a1x] at n1
    rw [b3, a1y] at n2
    rw [b4, a1z] at n3
    have hx : (classify E ((patrol frameTime i s).movingEnemies i).enemyCarModel
        (patrol frameTime i s)).prevPosX = s.prevPosX := c1
    have hy : (classify E ((patrol frameTime i s).movingEnemies i).enemyCarModel
        (patrol frameTime i s)).prevPosY = s.prevPosY := c2
    have hz : (classify E ((patrol frameTime i s).movingEnemies i).enemyCarModel
        (patrol frameTime i s)).prevPosZ = s.prevPosZ := c3
    rw [hx] at n1
    rw [hy] at n2
    rw [hz] at n3
    unfold movingResolve
    dsimp only [PlayerCar.setPosition]
    rw [n1, n2, n3]
  · have hres : BounceSpec (patrol frameTime i s) (movingResolve E i (patrol frameTime i s)) := by
      refine bounceSpec_congr (movingResolve_velocities E i _).1
        (movingResolve_velocities E i _).2 ?_
      have hv := movingAward_velocities i
        (classify E ((patrol frameTime i s).movingEnemies i).enemyCarModel (patrol frameTime i s))
      exact bounceSpec_of_velocities hv.1 hv.2 (bounceSpec_bounce _)
    unfold movingBody
    rw [hcol]
    refine bounceSpec_congr ?_ ?_ (bounceSpec_of_velocities p1 p2 hres)
    · rw [(recovery_velocities frameTime i _).1, (sphereBob_velocities frameTime i _).1]
    · rw [(recovery_velocities frameTime i _).2, (sphereBob_velocities frameTime i _).2]


/-- A playing frame in which the moving loop finds an overlap for enemy `i` and
for no other enemy: the player car ends at the position it had at the start of
the frame, nudged by 0.01 away from the origin in X and in Z, and the velocities
are those of the bounce response to the state in which the loop reached enemy
`i`. -/
theorem playingFrame_single_overlap (E : Engine) (inp : Input) (i : Fin 4) (s : Game)
    (hover : movingOverlapAt E inp i s = true)
    (hothers : ∀ j, j ≠ i → movingOverlapAt E inp j s = false) :
    (playingFrame E inp s).playerCarModel.pos =
      ⟨s.playerCarModel.pos.x + (if s.playerCarModel.pos.x < 0 then -1 else 1) * 0.01,
       s.playerCarModel.pos.y,
       s.playerCarModel.pos.z + (if s.playerCarModel.pos.z < 0 then -1 else 1) * 0.01⟩ ∧
    BounceSpec (atMovingTurn E inp i s) (playingFrame E inp s) := by
  obtain ⟨q1, q2, q3⟩ := beforeMovingLoop_prevPos E inp s
  have hw : playingFrame E inp s = winLoss (movingBody E inp.frameTime 3
      (movingBody E inp.frameTime 2 (movingBody E inp.frameTime 1 (movingBody E inp.frameTime 0
        (staticLoop E (treeLoop E (physics E inp (capturePrevPos s)))))))) := rfl
  rw [hw, winLoss_player]
  refine ⟨?_, ?_⟩
  · rcases fin4_cases i with rfl | rfl | rfl | rfl
    · have h0 : movingOverlap 0 (patrol inp.frameTime 0
          (staticLoop E (treeLoop E (physics E inp (capturePrevPos s))))) = true := hover
      have h1 : movingOverlap 1 (patrol inp.frameTime 1 (movingBody E inp.frameTime 0
          (staticLoop E (treeLoop E (physics E inp (capturePrevPos s)))))) = false :=
        hothers 1 (by decide)
      have h2 : movingOverlap 2 (patrol inp.frameTime 2 (movingBody E inp.frameTime 1
          (movingBody E inp.frameTime 0
            (staticLoop E (treeLoop E (physics E inp (capturePrevPos s))))))) = false :=
        hothers 2 (by decide)
      have h3 : movingOverlap 3 (patrol inp.frameTime 3 (movingBody E inp.frameTime 2
          (movingBody E inp.frameTime 1 (movingBody E inp.frameTime 0
            (staticLoop E (treeLoop E (physics E inp (capturePrevPos s)))))))) = false :=
        hothers 3 (by decide)
      rw [(movingBody_player_of_noOverlap E _ 3 _ h3).1,
        (movingBody_player_of_noOverlap E _ 2 _ h2).1,
        (movingBody_player_of_noOverlap E _ 1 _ h1).1,
        (movingBody_player_of_overlap E _ 0 _ h0).1, q1, q2, q3]
    · have h0 : movingOverlap 0 (patrol inp.frameTime 0
          (staticLoop E (treeLoop E (physics E inp (capturePrevPos s))))) = false :=
        hothers 0 (by decide)
      have h1 : movingOverlap 1 (patrol inp.frameTime 1 (movingBody E inp.frameTime 0
          (staticLoop E (treeLoop E (physics E inp (capturePrevPos s)))))) = true := hover
      have h2 : movingOverlap 2 (patrol inp.frameTime 2 (movingBody E inp.frameTime 1
          (movingBody E inp.frameTime 0
            (staticLoop E (treeLoop E (physics E inp (capturePrevPos s))))))) = false :=
        hothers 2 (by decide)
      have h3 : movingOverlap 3 (patrol inp.frameTime 3 (movingBody E inp.frameTime 2
          (movingBody E inp.frameTime 1 (movingBody E inp.frameTime 0
            (staticLoop E (treeLoop E (physics E inp (capturePrevPos s)))))))) = false :=
        hothers 3 (by decide)
      obtain ⟨_, a1, a2, a3⟩ := movingBody_player_of_noOverlap E _ 0 _ h0
      rw [(movingBody_player_of_noOverlap E _ 3 _ h3).1,
        (movingBody_player_of_noOverlap E _ 2 _ h2).1,
        (movingBody_player_of_overlap E _ 1 _ h1).1, a1, a2, a3, q1, q2, q3]
    · have h0 : movingOverlap 0 (patrol inp.frameTime 0
          (staticLoop E (treeLoop E (physics E inp (capturePrevPos s))))) = false :=
        hothers 0 (by decide)
      have h1 : movingOverlap 1 (patrol inp.frameTime 1 (movingBody E inp.frameTime 0
          (staticLoop E (treeLoop E (physics E inp (capturePrevPos s)))))) = false :=
        hothers 1 (by decide)
      have h2 : movingOverlap 2 (patrol inp.frameTime 2 (movingBody E inp.frameTime 1
          (movingBody E inp.frameTime 0
            (staticLoop E (treeLoop E (physics E inp (capturePrevPos s))))))) = true := hover
      have h3 : movingOverlap 3 (patrol inp.frameTime 3 (movingBody E inp.frameTime 2
          (movingBody E inp.frameTime 1 (movingBody E inp.frameTime 0
            (staticLoop E (treeLoop E (physics E inp (capturePrevPos s)))))))) = false :=
        hothers 3 (by decide)
      obtain ⟨_, a1, a2, a3⟩ := movingBody_player_of_noOverlap E _ 0 _ h0
      obtain ⟨_, b1, b2, b3⟩ := movingBody_player_of_noOverlap E _ 1 _ h1
      rw [(movingBody_player_of_noOverlap E _ 3 _ h3).1,
        (movingBody_player_of_overlap E _ 2 _ h2).1, b1, b2, b3, a1, a2, a3, q1, q2, q3]
    · have h0 : movingOverlap 0 (patrol inp.frameTime 0
          (staticLoop E (treeLoop E (physics E inp (capturePrevPos s))))) = false :=
        hothers 0 (by decide)
      have h1 : movingOverlap 1 (patrol inp.frameTime 1 (movingBody E inp.frameTime 0
          (staticLoop E (treeLoop E (physics E inp (capturePrevPos s)))))) = false :=
        hothers 1 (by decide)
      have h2 : movingOverlap 2 (patrol inp.frameTime 2 (movingBody E inp.frameTime 1
          (movingBody E inp.frameTime 0
            (staticLoop E (treeLoop E (physics E inp (capturePrevPos s))))))) = false :=
        hothers 2 (by decide)
      have h3 : movingOverlap 3 (patrol inp.frameTime 3 (movingBody E inp.frameTime 2
          (movingBody E inp.frameTime 1 (movingBody E inp.frameTime 0
            (staticLoop E (treeLoop E (physics E inp (capturePrevPos s)))))))) = true := hover
      obtain ⟨_, a1, a2, a3⟩ := movingBody_player_of_noOverlap E _ 0 _ h0
      obtain ⟨_, b1, b2, b3⟩ := movingBody_player_of_noOverlap E _ 1 _ h1
      obtain ⟨_, c1, c2, c3⟩ := movingBody_player_of_noOverlap E _ 2 _ h2
      rw [(movingBody_player_of_overlap E _ 3 _ h3).1, c1, c2, c3, b1, b2, b3, a1, a2, a3,
        q1, q2, q3]
  · obtain ⟨w1, w2⟩ := winLoss_velocities (movingBody E inp.frameTime 3
      (movingBody E inp.frameTime 2 (movingBody E inp.frameTime 1 (movingBody E inp.frameTime 0
        (staticLoop E (treeLoop E (physics E inp (capturePrevPos s))))))))
    refine bounceSpec_congr w1 w2 ?_
    rcases fin4_cases i with rfl | rfl | rfl | rfl
    · have h0 : movingOverlap 0 (patrol inp.frameTime 0
          (staticLoop E (treeLoop E (physics E inp (capturePrevPos s))))) = true := hover
      have h1 : movingOverlap 1 (patrol inp.frameTime 1 (movingBody E inp.frameTime 0
          (staticLoop E (treeLoop E (physics E inp (capturePrevPos s)))))) = false :=
        hothers 1 (by decide)
      have h2 : movingOverlap 2 (patrol inp.frameTime 2 (movingBody E inp.frameTime 1
          (movingBody E inp.frameTime 0
            (staticLoop E (treeLoop E (physics E inp (capturePrevPos s))))))) = false :=
        hothers 2 (by decide)
      have h3 : movingOverlap 3 (patrol inp.frameTime 3 (movingBody E inp.frameTime 2
          (movingBody E inp.frameTime 1 (movingBody E inp.frameTime 0
            (staticLoop E (treeLoop E (physics E inp (capturePrevPos s)))))))) = false :=
        hothers 3 (by decide)
      obtain ⟨x1, y1⟩ := movingBody_velocities_of_noOverlap E _ 1 _ h1
      obtain ⟨x2, y2⟩ := movingBody_velocities_of_noOverlap E _ 2 _ h2
      obtain ⟨x3, y3⟩ := movingBody_velocities_of_noOverlap E _ 3 _ h3
      exact bounceSpec_congr (x3.trans (x2.trans x1)) (y3.trans (y2.trans y1))
        (movingBody_player_of_overlap E _ 0 _ h0).2
    · have h1 : movingOverlap 1 (patrol inp.frameTime 1 (movingBody E inp.frameTime 0
          (staticLoop E (treeLoop E (physics E inp (capturePrevPos s)))))) = true := hover
      have h2 : movingOverlap 2 (patrol inp.frameTime 2 (movingBody E inp.frameTime 1
          (movingBody E inp.frameTime 0
            (staticLoop E (treeLoop E (physics E inp (capturePrevPos s))))))) = false :=
        hothers 2 (by decide)
      have h3 : movingOverlap 3 (patrol inp.frameTime 3 (movingBody E inp.frameTime 2
          (movingBody E inp.frameTime 1 (movingBody E inp.frameTime 0
            (staticLoop E (treeLoop E (physics E inp (capturePrevPos s)))))))) = false :=
        hothers 3 (by decide)
      obtain ⟨x2, y2⟩ := movingBody_velocities_of_noOverlap E _ 2 _ h2
      obtain ⟨x3, y3⟩ := movingBody_velocities_of_noOverlap E _ 3 _ h3
      exact bounceSpec_congr (x3.trans x2) (y3.trans y2)
        (movingBody_player_of_overlap E _ 1 _ h1).2
    · have h2 : movingOverlap 2 (patrol inp.frameTime 2 (movingBody E inp.frameTime 1
          (movingBody E inp.frameTime 0
            (staticLoop E (treeLoop E (physics E inp (capturePrevPos s))))))) = true := hover
      have h3 : movingOverlap 3 (patrol inp.frameTime 3 (movingBody E inp.frameTime 2
          (movingBody E inp.frameTime 1 (movingBody E inp.frameTime 0
            (staticLoop E (treeLoop E (physics E inp (capturePrevPos s)))))))) = false :=
        hothers 3 (by decide)
      obtain ⟨x3, y3⟩ := movingBody_velocities_of_noOverlap E _ 3 _ h3
      exact bounceSpec_congr x3 y3 (movingBody_player_of_overlap E _ 2 _ h2).2
    · have h3 : movingOverlap 3 (patrol inp.frameTime 3 (movingBody E inp.frameTime 2
          (movingBody E inp.frameTime 1 (movingBody E inp.frameTime 0
            (staticLoop E (treeLoop E (physics E inp (capturePrevPos s)))))))) = true := hover
      exact (movingBody_player_of_overlap E _ 3 _ h3).2

/-- C24: in a playing frame in which exactly one moving enemy, `i`, overlaps the
player when its collision test is made (whether or not it is already hit), the
player ends at `(px + sx * 0.01, py, pz + sz * 0.01)`, where `(px, py, pz)` is
the position at the start of the frame and `sx` (resp. `sz`) is -1 if `px < 0`
(resp. `pz < 0`) and +1 otherwise; `|x|` and `|z|` exceed `|px|` and `|pz|` by
exactly 0.01; and the velocities at the end of the frame are the bounce response
to the velocities with which the moving loop reached enemy `i`. -/
theorem moving_rollback_nudge (E : Engine) (inp : Input) (i : Fin 4) (s : Game)
    (hplay : s.gameState = GameState.GAME_PLAYING)
    (hover : movingOverlapAt E inp i s = true)
    (hothers : ∀ j, j ≠ i → movingOverlapAt E inp j s = false) :
    (frame E inp s).playerCarModel.pos =
      ⟨s.playerCarModel.pos.x + (if s.playerCarModel.pos.x < 0 then -1 else 1) * 0.01,
       s.playerCarModel.pos.y,
       s.playerCarModel.pos.z + (if s.playerCarModel.pos.z < 0 then -1 else 1) * 0.01⟩ ∧
    |(frame E inp s).playerCarModel.pos.x| = |s.playerCarModel.pos.x| + 0.01 ∧
    |(frame E inp s).playerCarModel.pos.z| = |s.playerCarModel.pos.z| + 0.01 ∧
    BounceSpec (atMovingTurn E inp i s) (frame E inp s) := by
  rw [frame_of_playing E inp s hplay]
  obtain ⟨hpos, hb⟩ := playingFrame_single_overlap E inp i s hover hothers
  have habs : ∀ p : ℚ, |p + (if p < 0 then -1 else 1) * 0.01| = |p| + 0.01 := by
    intro p
    split_ifs with hp
    · rw [abs_of_neg hp, abs_of_neg (by linarith)]
      ring
    · have hp' : 0 ≤ p := not_lt.mp hp
      rw [abs_of_nonneg hp', abs_of_nonneg (by linarith)]
      ring
  refine ⟨hpos, ?_, ?_, hb⟩
  · rw [hpos]
    exact habs _
  · rw [hpos]
    exact habs _

/-- Witness of C24: the player at (-30, 0, 11), facing +Z and at rest; in an idle
frame of 0.1 s moving enemy 0 steps to X = -28.5 and overlaps the player, no
other moving enemy does, and the player ends at (-30.01, 0, 11.01). -/
theorem moving_rollback_nudge_witness :
    (frame exampleEngine (idleInput 0.1) (playerAt (-30) 0 11)).playerCarModel.pos =
      ⟨-30.01, 0, 11.01⟩ :=
  (moving_rollback_nudge exampleEngine (idleInput 0.1) 0 (playerAt (-30) 0 11)
    rfl (by decide!) (by decide!)).1.trans (by decide!)

/-! ## Squash of a static enemy and its restore on restart -/

/-- The guard of a static enemy leaves every enemy that is already hit as it
is. -/
theorem staticAward_frozen (j i : Fin 4) (s : Game)
    (h : (s.staticEnemies i).carHitStatus = true) :
    (staticAward j s).staticEnemies i = s.staticEnemies i := by
  by_cases hij : i = j
  · subst hij
    rw [staticAward_of_hit i s h]
  · unfold staticAward
    split_ifs <;> first | rfl | exact Function.update_noteq hij _ _

/-- The body of the static loop changes neither the matrix nor the flags of an
enemy that is already hit. -/
theorem staticBody_frozen (E : Engine) (j i : Fin 4) (s : Game)
    (h : (s.staticEnemies i).carHitStatus = true) :
    ((staticBody E j s).staticEnemies i).enemyCarModel = (s.staticEnemies i).enemyCarModel ∧
    ((staticBody E j s).staticEnemies i).carSideHit = (s.staticEnemies i).carSideHit ∧
    ((staticBody E j s).staticEnemies i).carHitStatus = true := by
  unfold staticBody
  split_ifs
  · have ha := staticAward_frozen j i (classify E (s.staticEnemies j).enemyCarModel s) h
    have hb := (bounce_sameEnemies
      (staticAward j (classify E (s.staticEnemies j).enemyCarModel s))).2.2.2.1
    unfold staticResolve
    dsimp only
    rw [hb]
    by_cases hij : i = j
    · subst hij
      rw [Function.update_same, ha]
      exact ⟨rfl, rfl, h⟩
    · rw [Function.update_noteq hij, ha]
      exact ⟨rfl, rfl, h⟩
  · exact ⟨rfl, rfl, h⟩

/-- Along any progress of the loop, a hit static enemy keeps its matrix and its
flags `carSideHit` and `carHitStatus`. -/
theorem progress_static_frozen {E : Engine} {s t : Game} (h : Progress E s t) (i : Fin 4)
    (hs : (s.staticEnemies i).carHitStatus = true) :
    (t.staticEnemies i).enemyCarModel = (s.staticEnemies i).enemyCarModel ∧
    (t.staticEnemies i).carSideHit = (s.staticEnemies i).carSideHit ∧
    (t.staticEnemies i).carHitStatus = true := by
  induction h with
  | refl => exact ⟨rfl, rfl, hs⟩
  | capture _ ih => exact ih
  | physics inp _ ih => rw [(physics_sameEnemies E inp _).2.2.2.1]; exact ih
  | trees _ ih => rw [(treeLoop_sameEnemies E _).2.2.2.1]; exact ih
  | staticEnemy j _ ih =>
    obtain ⟨a1, a2, a3⟩ := ih
    obtain ⟨b1, b2, b3⟩ := staticBody_frozen E j i _ a3
    exact ⟨b1.trans a1, b2.trans a2, b3⟩
  | movingEnemy dt j _ ih => rw [movingBody_staticEnemies]; exact ih
  | winLoss _ ih => rw [(winLoss_sameEnemies _).2.2.2.1]; exact ih
  | paused inp _ ih => rw [(pausedCase_sameEnemies inp _).2.2.2.1]; exact ih

/-- The matrix that one pass of the restart loop leaves for its static enemy. -/
theorem restartBody_static_model (i : Fin 4) (s : Game) :
    ((restartBody i s).staticEnemies i).enemyCarModel =
      (if (s.staticEnemies i).carHitStatus = true then
        (if (s.staticEnemies i).carSideHit = true then
          ((s.staticEnemies i).enemyCarModel.setPosition (enemyStaticCarPositions i).x
            (enemyStaticCarPositions i).y (enemyStaticCarPositions i).z).divRow0 scaleFactor
         else
          ((s.staticEnemies i).enemyCarModel.setPosition (enemyStaticCarPositions i).x
            (enemyStaticCarPositions i).y (enemyStaticCarPositions i).z).divRow2 scaleFactor)
       else
        (s.staticEnemies i).enemyCarModel.setPosition (enemyStaticCarPositions i).x
          (enemyStaticCarPositions i).y (enemyStaticCarPositions i).z) := by
  unfold restartBody
  dsimp only
  rw [Function.update_same]
  cases (s.staticEnemies i).carHitStatus <;> cases (s.staticEnemies i).carSideHit <;> simp

/-- The matrix that the restart handler leaves for static enemy `i`. -/
theorem restart_static_model (i : Fin 4) (s : Game) :
    ((restart s).staticEnemies i).enemyCarModel =
      (if (s.staticEnemies i).carHitStatus = true then
        (if (s.staticEnemies i).carSideHit = true then
          ((s.staticEnemies i).enemyCarModel.setPosition (enemyStaticCarPositions i).x
            (enemyStaticCarPositions i).y (enemyStaticCarPositions i).z).divRow0 scaleFactor
         else
          ((s.staticEnemies i).enemyCarModel.setPosition (enemyStaticCarPositions i).x
            (enemyStaticCarPositions i).y (enemyStaticCarPositions i).z).divRow2 scaleFactor)
       else
        (s.staticEnemies i).enemyCarModel.setPosition (enemyStaticCarPositions i).x
          (enemyStaticCarPositions i).y (enemyStaticCarPositions i).z) := by
  have key : ∀ u : Game, ∃ v : Game, v.staticEnemies i = u.staticEnemies i ∧
      (restartBody 3 (restartBody 2 (restartBody 1 (restartBody 0 u)))).staticEnemies i =
        (restartBody i v).staticEnemies i := by
    intro u
    rcases fin4_cases i with rfl | rfl | rfl | rfl
    · refine ⟨u, rfl, ?_⟩
      rw [restartBody_static_other 3 0 _ (by decide), restartBody_static_other 2 0 _ (by decide),
        restartBody_static_other 1 0 _ (by decide)]
    · refine ⟨restartBody 0 u, restartBody_static_other 0 1 u (by decide), ?_⟩
      rw [restartBody_static_other 3 1 _ (by decide), restartBody_static_other 2 1 _ (by decide)]
    · refine ⟨restartBody 1 (restartBody 0 u),
        (restartBody_static_other 1 2 _ (by decide)).trans
          (restartBody_static_other 0 2 u (by decide)), ?_⟩
      rw [restartBody_static_other 3 2 _ (by decide)]
    · exact ⟨restartBody 2 (restartBody 1 (restartBody 0 u)),
        (restartBody_static_other 2 3 _ (by decide)).trans
          ((restartBody_static_other 1 3 _ (by decide)).trans
            (restartBody_static_other 0 3 u (by decide))), rfl⟩
  unfold restart
  dsimp only
  rcases key { s with
      score := 0,
      playerHealth := 100,
      prevPosX := 0,
      prevPosY := 0,
      prevPosZ := 0,
      forwardVelocity := 0.0,
      backwardVelocity := 0.0,
      moveOppositeCar1 := false,
      moveOppositeCar2 := false,
      moveOppositeSphere := false,
      allStaticCarsHit := false,
      allMovingCarsHit := false,
      playerCarModel := (s.playerCarModel.setPosition 0 0 0).resetOrientation } with ⟨v, hv, h⟩
  rw [h, restartBody_static_model, hv]

theorem scaleRow0_restore (m : Matrix4) (x y z : ℚ) :
    ((m.scaleRow0 scaleFactor).setPosition x y z).divRow0 scaleFactor = m.setPosition x y z := by
  simp only [Matrix4.scaleRow0, Matrix4.setPosition, Matrix4.divRow0, scaleFactor]
  rw [mul_div_cancel_right₀ _ (by norm_num), mul_div_cancel_right₀ _ (by norm_num),
    mul_div_cancel_right₀ _ (by norm_num)]

theorem scaleRow2_restore (m : Matrix4) (x y z : ℚ) :
    ((m.scaleRow2 scaleFactor).setPosition x y z).divRow2 scaleFactor = m.setPosition x y z := by
  simp only [Matrix4.scaleRow2, Matrix4.setPosition, Matrix4.divRow2, scaleFactor]
  rw [mul_div_cancel_right₀ _ (by norm_num), mul_div_cancel_right₀ _ (by norm_num),
    mul_div_cancel_right₀ _ (by norm_num)]

/-- The squash of a first hit: the matrix and the flags of the enemy after the
body of the static loop. -/
theorem staticBody_squash (E : Engine) (i : Fin 4) (s : Game)
    (hover : staticOverlap i s = true)
    (hfirst : (s.staticEnemies i).carHitStatus = false)
    (hd : (classify E (s.staticEnemies i).enemyCarModel s).dotProduct ≠ -sideCollisionChecker) :
    ((staticBody E i s).staticEnemies i).carHitStatus = true ∧
    (((classify E (s.staticEnemies i).enemyCarModel s).dotProduct > -sideCollisionChecker →
      ((staticBody E i s).staticEnemies i).carSideHit = true ∧
      ((staticBody E i s).staticEnemies i).enemyCarModel =
        (s.staticEnemies i).enemyCarModel.scaleRow0 scaleFactor)) ∧
    (((classify E (s.staticEnemies i).enemyCarModel s).dotProduct < -sideCollisionChecker →
      ((staticBody E i s).staticEnemies i).carSideHit = false ∧
      ((staticBody E i s).staticEnemies i).enemyCarModel =
        (s.staticEnemies i).enemyCarModel.scaleRow2 scaleFactor)) := by
  have hf' : ((classify E (s.staticEnemies i).enemyCarModel s).staticEnemies i).carHitStatus
      = false := hfirst
  have hb := (bounce_sameEnemies
    (staticAward i (classify E (s.staticEnemies i).enemyCarModel s))).2.2.2.1
  unfold staticBody
  rw [if_pos hover]
  unfold staticResolve
  dsimp only
  rw [hb, Function.update_same]
  unfold staticAward
  rw [if_pos hf']
  by_cases h1 : (classify E (s.staticEnemies i).enemyCarModel s).dotProduct >
      -sideCollisionChecker
  · rw [if_pos h1]
    refine ⟨by simp, fun _ => by simp [classify_staticEnemies], fun h2 => ?_⟩
    exact absurd h2 (not_lt.mpr (le_of_lt h1))
  · have h2 : (classify E (s.staticEnemies i).enemyCarModel s).dotProduct <
        -sideCollisionChecker := lt_of_le_of_ne (not_lt.mp h1) hd
    rw [if_neg h1, if_pos h2]
    refine ⟨by simp, fun h3 => absurd h3 h1, fun _ => by simp [classify_staticEnemies]⟩

/-- C25: for every static enemy `i` and every matrix it has, a first hit of
either classification (one row of the matrix scaled by 0.6) followed, after any
further progress of the loop, by the restart handler leaves the matrix with its
original rows 0 to 2 and the table position in row 3, in exact arithmetic; and
the restart handler, on any state, divides a row of the matrix of enemy `i` if
and only if `carHitStatus` is true, row 0 if `carSideHit` is true and row 2
otherwise. -/
theorem squash_restore_round_trip (E : Engine) (i : Fin 4) (s t : Game)
    (hover : staticOverlap i s = true)
    (hfirst : (s.staticEnemies i).carHitStatus = false)
    (hd : (classify E (s.staticEnemies i).enemyCarModel s).dotProduct ≠ -3.5)
    (hprog : Progress E (staticBody E i s) t) :
    ((restart t).staticEnemies i).enemyCarModel =
      (s.staticEnemies i).enemyCarModel.setPosition (enemyStaticCarPositions i).x
        (enemyStaticCarPositions i).y (enemyStaticCarPositions i).z ∧
    (∀ u : Game, ((restart u).staticEnemies i).enemyCarModel =
      (if (u.staticEnemies i).carHitStatus = true then
        (if (u.staticEnemies i).carSideHit = true then
          ((u.staticEnemies i).enemyCarModel.setPosition (enemyStaticCarPositions i).x
            (enemyStaticCarPositions i).y (enemyStaticCarPositions i).z).divRow0 0.6
         else
          ((u.staticEnemies i).enemyCarModel.setPosition (enemyStaticCarPositions i).x
            (enemyStaticCarPositions i).y (enemyStaticCarPositions i).z).divRow2 0.6)
       else
        (u.staticEnemies i).enemyCarModel.setPosition (enemyStaticCarPositions i).x
          (enemyStaticCarPositions i).y (enemyStaticCarPositions i).z)) := by
  have hd' : (classify E (s.staticEnemies i).enemyCarModel s).dotProduct ≠
      -sideCollisionChecker := by
    rw [sideCollisionChecker_eq]; norm_num at hd ⊢; exact hd
  obtain ⟨q1, q2, q3⟩ := staticBody_squash E i s hover hfirst hd'
  obtain ⟨f1, f2, f3⟩ := progress_static_frozen hprog i q1
  refine ⟨?_, fun u => restart_static_model i u⟩
  rw [restart_static_model, f3, f2, f1, if_pos rfl]
  rcases lt_or_gt_of_ne hd' with h | h
  · obtain ⟨a, b⟩ := q3 h
    rw [a, b]
    simp only [Bool.false_eq_true, if_false]
    exact scaleRow2_restore _ _ _ _
  · obtain ⟨a, b⟩ := q2 h
    rw [a, b, if_pos rfl]
    exact scaleRow0_restore _ _ _ _

/-- Witness of C25: the player at (20, 0, 17), facing +Z, overlaps the unhit
static enemy 1 with dot product -3; the restart handler run on the state after
the hit leaves the matrix of the enemy as it was before the hit. -/
theorem squash_restore_round_trip_witness :
    ((restart (staticBody exampleEngine 1 (playerAt 20 0 17))).staticEnemies 1).enemyCarModel =
      ((playerAt 20 0 17).staticEnemies 1).enemyCarModel.setPosition
        (enemyStaticCarPositions 1).x (enemyStaticCarPositions 1).y
        (enemyStaticCarPositions 1).z :=
  (squash_restore_round_trip exampleEngine 1 (playerAt 20 0 17)
    (staticBody exampleEngine 1 (playerAt 20 0 17))
    (by decide!) (by decide!) (by decide!) (Progress.refl _)).1


/-! ## The first-hit guard at and off the threshold -/

/-- At the threshold dot product the guard of a static enemy does nothing. -/
theorem staticAward_at_threshold (i : Fin 4) (s : Game)
    (hd : s.dotProduct = -sideCollisionChecker) : staticAward i s = s := by
  unfold staticAward
  rw [hd]
  simp

/-- At the threshold dot product the guard of a moving enemy does nothing. -/
theorem movingAward_at_threshold (i : Fin 4) (s : Game)
    (hd : s.dotProduct = -sideCollisionChecker) : movingAward i s = s := by
  unfold movingAward
  rw [hd]
  simp

/-- The guard of a static enemy on a first hit off the threshold sets the hit
flag. -/
theorem staticAward_first_hit_flag (i : Fin 4) (s : Game)
    (hfirst : (s.staticEnemies i).carHitStatus = false)
    (hd : s.dotProduct ≠ -sideCollisionChecker) :
    ((staticAward i s).staticEnemies i).carHitStatus = true := by
  unfold staticAward
  rw [if_pos hfirst]
  by_cases h1 : s.dotProduct > -sideCollisionChecker
  · rw [if_pos h1]
    simp
  · have h2 : s.dotProduct < -sideCollisionChecker := lt_of_le_of_ne (not_lt.mp h1) hd
    rw [if_neg h1, if_pos h2]
    simp

/-- C26, as amended: for a static enemy `i` and a moving enemy `j` that overlap
the player with `carHitStatus == false`, the resolution awards exactly +15 (dot
product below -3.5) or +10 (dot product above -3.5) and marks the enemy hit when
the dot product is not -3.5; when the dot product is exactly -3.5 it awards
nothing and leaves `carHitStatus` false. -/
theorem first_hit_guard (E : Engine) (i j : Fin 4) (s t : Game)
    (hso : staticOverlap i s = true) (hsf : (s.staticEnemies i).carHitStatus = false)
    (hmo : movingOverlap j t = true) (hmf : (t.movingEnemies j).carHitStatus = false) :
    ((classify E (s.staticEnemies i).enemyCarModel s).dotProduct ≠ -3.5 →
      (staticBody E i s).score = s.score +
        (if (classify E (s.staticEnemies i).enemyCarModel s).dotProduct < -3.5 then 15 else 10) ∧
      ((staticBody E i s).staticEnemies i).carHitStatus = true) ∧
    ((classify E (s.staticEnemies i).enemyCarModel s).dotProduct = -3.5 →
      (staticBody E i s).score = s.score ∧
      ((staticBody E i s).staticEnemies i).carHitStatus = false) ∧
    ((classify E (t.movingEnemies j).enemyCarModel t).dotProduct ≠ -3.5 →
      (movingCollision E j t).score = t.score +
        (if (classify E (t.movingEnemies j).enemyCarModel t).dotProduct < -3.5 then 15 else 10) ∧
      ((movingCollision E j t).movingEnemies j).carHitStatus = true) ∧
    ((classify E (t.movingEnemies j).enemyCarModel t).dotProduct = -3.5 →
      (movingCollision E j t).score = t.score ∧
      ((movingCollision E j t).movingEnemies j).carHitStatus = false) := by
  have hT : -sideCollisionChecker = (-3.5 : ℚ) := by rw [sideCollisionChecker_eq]; norm_num
  have hsb : staticBody E i s = staticResolve E i s := by
    unfold staticBody; rw [if_pos hso]
  have hmb : movingCollision E j t = movingResolve E j t := by
    unfold movingCollision; rw [if_pos hmo]
  have hsf' : ((classify E (s.staticEnemies i).enemyCarModel s).staticEnemies i).carHitStatus
      = false := hsf
  have hmf' : ((classify E (t.movingEnemies j).enemyCarModel t).movingEnemies j).carHitStatus
      = false := hmf
  obtain ⟨r1, _, _, r4⟩ := movingResolve_fields E j t
  rw [hsb, hmb, staticResolve_score, staticResolve_hit, r1, (r4 j).1]
  refine ⟨fun h => ?_, fun h => ?_, fun h => ?_, fun h => ?_⟩
  · rw [← hT] at h ⊢
    exact ⟨by rw [staticAward_first_hit_score i _ hsf' h, classify_score],
      staticAward_first_hit_flag i _ hsf' h⟩
  · rw [← hT] at h
    rw [staticAward_at_threshold i _ h]
    exact ⟨rfl, hsf'⟩
  · rw [← hT] at h ⊢
    obtain ⟨a1, a2, _⟩ := movingAward_first_hit j _ hmf' h
    exact ⟨by rw [a1, classify_score], a2⟩
  · rw [← hT] at h
    rw [movingAward_at_threshold j _ h]
    exact ⟨rfl, hmf'⟩

/-- Witness of C26 as amended: a first hit with dot product -3 on static enemy 1
from (20, 0, 17) awards 10 and a first hit with dot product -4 on moving enemy 0
from (-30, 0, 11) awards 15. -/
theorem first_hit_guard_witness :
    (staticBody exampleEngine 1 (playerAt 20 0 17)).score = (playerAt 20 0 17).score + 10 ∧
    (movingCollision exampleEngine 0 (playerAt (-30) 0 11)).score =
      (playerAt (-30) 0 11).score + 15 :=
  have h := first_hit_guard exampleEngine 1 0 (playerAt 20 0 17) (playerAt (-30) 0 11)
    (by decide!) (by decide!) (by decide!) (by decide!)
  ⟨((h.1 (by decide!)).1).trans (by decide!), ((h.2.2.1 (by decide!)).1).trans (by decide!)⟩

/-- Counterexample to C26 as stated, in a frame of a run from the initial state:
after `runToThreshold` the player stands at (0, 0, 7.5), facing +Z, with combined
velocity 10.  In the next playing frame, 0.4 s with no key held, it moves to
z = 11.5 while moving enemy 0 moves to (-1.5, 0, 15); the enemy is unhit and
overlaps the player with dot product exactly -3.5.  Neither branch of the guard
is taken: no score is awarded and the enemy is not marked hit, in the resolution
and at the end of the frame. -/
theorem first_hit_at_threshold_awards_nothing :
    (frames exampleEngine runToThreshold (initialGame 0)).playerCarModel.pos
      = ⟨0, 0, 7.5⟩ ∧
    (frames exampleEngine runToThreshold (initialGame 0)).gameState = GameState.GAME_PLAYING ∧
    (frames exampleEngine runToThreshold (initialGame 0)).forwardVelocity +
      (frames exampleEngine runToThreshold (initialGame 0)).backwardVelocity = 10 ∧
    (patrol 0.4 0 (atMovingTurn exampleEngine (idleInput 0.4) 0
      (frames exampleEngine runToThreshold (initialGame 0)))).playerCarModel.pos
      = ⟨0, 0, 11.5⟩ ∧
    ((patrol 0.4 0 (atMovingTurn exampleEngine (idleInput 0.4) 0
      (frames exampleEngine runToThreshold (initialGame 0)))).movingEnemies
        0).enemyCarModel.position = ⟨-1.5, 0, 15⟩ ∧
    movingOverlap 0 (patrol 0.4 0 (atMovingTurn exampleEngine (idleInput 0.4) 0
      (frames exampleEngine runToThreshold (initialGame 0)))) = true ∧
    ((patrol 0.4 0 (atMovingTurn exampleEngine (idleInput 0.4) 0
      (frames exampleEngine runToThreshold (initialGame 0)))).movingEnemies 0).carHitStatus
      = false ∧
    (movingCollision exampleEngine 0 (patrol 0.4 0 (atMovingTurn exampleEngine (idleInput 0.4) 0
      (frames exampleEngine runToThreshold (initialGame 0))))).dotProduct = -3.5 ∧
    (movingCollision exampleEngine 0 (patrol 0.4 0 (atMovingTurn exampleEngine (idleInput 0.4) 0
      (frames exampleEngine runToThreshold (initialGame 0))))).score =
      (patrol 0.4 0 (atMovingTurn exampleEngine (idleInput 0.4) 0
        (frames exampleEngine runToThreshold (initialGame 0)))).score ∧
    ((movingCollision exampleEngine 0 (patrol 0.4 0 (atMovingTurn exampleEngine (idleInput 0.4) 0
      (frames exampleEngine runToThreshold (initialGame 0))))).movingEnemies 0).carHitStatus
      = false ∧
    (frame exampleEngine (idleInput 0.4)
      (frames exampleEngine runToThreshold (initialGame 0))).score =
      (frames exampleEngine runToThreshold (initialGame 0)).score ∧
    ((frame exampleEngine (idleInput 0.4)
      (frames exampleEngine runToThreshold (initialGame 0))).movingEnemies 0).carHitStatus
      = false := by
  decide!


end CarGame
